import Mathlib

/-!
Verification development for the `utcnow` timestamp-normalization library.

The Python source (src/utcnow/__init__.py) is shallowly embedded below:

* Python numbers (int / float at microsecond-or-finer granularity) are
  modelled by an executable exact-rational type `Q`; the binary64 rounding of
  Python floats is elided, i.e. decimal literals are taken at their exact
  rational value.  Every quantity the engine manipulates is microsecond- or
  nanosecond-grained, where this idealization is exact.
* Strings are modelled as `List Char`; the regular expressions of the source
  (`NUMERIC_REGEX`, `PREFERRED_FORMAT_REGEX`, the `_strptime` field patterns)
  are embedded as character-level matchers with Python `re` backtracking
  order.
* `datetime` objects are modelled by `PyDatetime`; `datetime.strptime`,
  `fromtimestamp`, `isoformat`, `astimezone` and `timestamp` are embedded
  following CPython semantics (proleptic Gregorian calendar, years 1..9999,
  microsecond resolution, half-even rounding of float seconds).
* Exceptions become `Except PyErr`; `utcnow` raises `ValueError` for what the
  spec calls `FormatError`.
-/

/-- Exact rational numbers with an executable, kernel-reducible
representation: numerator and positive denominator, normalized by `qmk`. -/
structure Q where
  num : Int
  den : Nat
deriving DecidableEq

/-- Normalizing constructor: divides out the gcd, so that equal values built
by the arithmetic below are structurally equal. -/
def qmk (n : Int) (d : Nat) : Q :=
  if d = 0 then ⟨0, 1⟩
  else
    let g : Nat := Int.gcd n (d : Int)
    ⟨Int.tdiv n (g : Int), d / g⟩

def qofInt (n : Int) : Q := ⟨n, 1⟩

def qofNat (n : Nat) : Q := ⟨(n : Int), 1⟩

def qadd (a b : Q) : Q := qmk (a.num * (b.den : Int) + b.num * (a.den : Int)) (a.den * b.den)

def qsub (a b : Q) : Q := qmk (a.num * (b.den : Int) - b.num * (a.den : Int)) (a.den * b.den)

def qmul (a b : Q) : Q := qmk (a.num * b.num) (a.den * b.den)

def qdiv (a b : Q) : Q :=
  if b.num < 0 then qmk (-(a.num * (b.den : Int))) (a.den * b.num.natAbs)
  else qmk (a.num * (b.den : Int)) (a.den * b.num.natAbs)

def qneg (a : Q) : Q := qmk (-a.num) a.den

/-- Value of a `Q` as a Mathlib rational (used only in proofs). -/
def toRat (a : Q) : Rat := (a.num : Rat) / (a.den : Rat)

/-- Floor of a `Q` value (denominator positive). -/
def qfloor (a : Q) : Int := a.num / (a.den : Int)

/-- Python `int()` applied to a number: truncation toward zero. -/
def qtrunc (a : Q) : Int :=
  if a.num < 0 then -((-a.num) / (a.den : Int)) else a.num / (a.den : Int)

/-- Python `round()` with no digits argument: round half to even, to an
integer. -/
def qroundHalfEven (a : Q) : Int :=
  let f := qfloor a
  let r2 : Int := 2 * (a.num - f * (a.den : Int))
  if r2 < (a.den : Int) then f
  else if (a.den : Int) < r2 then f + 1
  else if f % 2 = 0 then f else f + 1

/-- Python `round(x, 6)`: round half to even at the sixth decimal. -/
def qround6 (a : Q) : Q := qmk (qroundHalfEven (qmul a (qofInt 1000000))) 1000000

def qIsZero (a : Q) : Bool := a.num == 0

def qle (a b : Q) : Bool := decide (a.num * (b.den : Int) ≤ b.num * (a.den : Int))

def qlt (a b : Q) : Bool := decide (a.num * (b.den : Int) < b.num * (a.den : Int))

theorem qmk_den_pos (n : Int) (d : Nat) : 0 < (qmk n d).den := by
  unfold qmk
  by_cases h : d = 0
  · simp [h]
  · simp only [h, if_false]
    have hg : Int.gcd n (d : Int) ∣ d := by
      have := Int.gcd_dvd_right (a := n) (b := (d : Int))
      exact Int.ofNat_dvd.mp (by simpa using this)
    have hgpos : 0 < Int.gcd n (d : Int) := by
      rcases Nat.eq_zero_or_pos (Int.gcd n (d : Int)) with h0 | h0
      · exact absurd (Nat.eq_zero_of_zero_dvd (h0 ▸ hg)) h
      · exact h0
    exact Nat.div_pos (Nat.le_of_dvd (Nat.pos_of_ne_zero h) hg) hgpos

theorem toRat_qmk (n : Int) (d : Nat) (hd : d ≠ 0) :
    toRat (qmk n d) = (n : Rat) / (d : Rat) := by
  unfold qmk toRat
  simp only [hd, if_false]
  have hg1 : ((Int.gcd n (d : Int) : Int)) ∣ n := Int.gcd_dvd_left
  have hg2 : Int.gcd n (d : Int) ∣ d := by
    have := Int.gcd_dvd_right (a := n) (b := (d : Int))
    exact Int.ofNat_dvd.mp (by simpa using this)
  have hgpos : 0 < Int.gcd n (d : Int) := by
    rcases Nat.eq_zero_or_pos (Int.gcd n (d : Int)) with h0 | h0
    · exact absurd (Nat.eq_zero_of_zero_dvd (h0 ▸ hg2)) hd
    · exact h0
  have htd : Int.tdiv n (Int.gcd n (d : Int) : Int) * (Int.gcd n (d : Int) : Int) = n :=
    Int.tdiv_mul_cancel hg1
  have hdd : (d / Int.gcd n (d : Int)) * Int.gcd n (d : Int) = d :=
    Nat.div_mul_cancel hg2
  have hdQ : ((d : Nat) : Rat) ≠ 0 := by exact_mod_cast hd
  have hddQ : (((d / Int.gcd n (d : Int)) : Nat) : Rat) ≠ 0 := by
    have : 0 < d / Int.gcd n (d : Int) := Nat.div_pos (Nat.le_of_dvd (Nat.pos_of_ne_zero hd) hg2) hgpos
    exact_mod_cast this.ne.symm
  rw [div_eq_div_iff hddQ hdQ]
  have h1 : ((Int.tdiv n (Int.gcd n (d : Int) : Int) : Int) : Rat) * ((Int.gcd n (d : Int) : Nat) : Rat) = (n : Rat) := by
    exact_mod_cast congrArg (fun z : Int => (z : Rat)) htd
  have h2 : (((d / Int.gcd n (d : Int)) : Nat) : Rat) * ((Int.gcd n (d : Int) : Nat) : Rat) = (d : Rat) := by
    exact_mod_cast congrArg (fun z : Nat => (z : Rat)) hdd
  calc ((Int.tdiv n (Int.gcd n (d : Int) : Int) : Int) : Rat) * (d : Rat)
      = ((Int.tdiv n (Int.gcd n (d : Int) : Int) : Int) : Rat) * ((((d / Int.gcd n (d : Int)) : Nat) : Rat) * ((Int.gcd n (d : Int) : Nat) : Rat)) := by rw [h2]
    _ = (((Int.tdiv n (Int.gcd n (d : Int) : Int) : Int) : Rat) * ((Int.gcd n (d : Int) : Nat) : Rat)) * (((d / Int.gcd n (d : Int)) : Nat) : Rat) := by ring
    _ = (n : Rat) * (((d / Int.gcd n (d : Int)) : Nat) : Rat) := by rw [h1]

theorem toRat_qofInt (n : Int) : toRat (qofInt n) = (n : Rat) := by
  unfold toRat qofInt
  simp

theorem toRat_qofNat (n : Nat) : toRat (qofNat n) = (n : Rat) := by
  unfold toRat qofNat
  simp

theorem qadd_den_pos (a b : Q) : 0 < (qadd a b).den := qmk_den_pos _ _

theorem qsub_den_pos (a b : Q) : 0 < (qsub a b).den := qmk_den_pos _ _

theorem qmul_den_pos (a b : Q) : 0 < (qmul a b).den := qmk_den_pos _ _

theorem qdiv_den_pos (a b : Q) : 0 < (qdiv a b).den := by
  unfold qdiv
  by_cases h : b.num < 0 <;> simp [h, qmk_den_pos]

theorem toRat_qadd (a b : Q) (ha : a.den ≠ 0) (hb : b.den ≠ 0) :
    toRat (qadd a b) = toRat a + toRat b := by
  unfold qadd
  rw [toRat_qmk _ _ (by positivity)]
  unfold toRat
  have haQ : ((a.den : Nat) : Rat) ≠ 0 := by exact_mod_cast ha
  have hbQ : ((b.den : Nat) : Rat) ≠ 0 := by exact_mod_cast hb
  field_simp
  try push_cast
  try ring

theorem toRat_qsub (a b : Q) (ha : a.den ≠ 0) (hb : b.den ≠ 0) :
    toRat (qsub a b) = toRat a - toRat b := by
  unfold qsub
  rw [toRat_qmk _ _ (by positivity)]
  unfold toRat
  have haQ : ((a.den : Nat) : Rat) ≠ 0 := by exact_mod_cast ha
  have hbQ : ((b.den : Nat) : Rat) ≠ 0 := by exact_mod_cast hb
  field_simp
  try push_cast
  try ring

theorem toRat_qmul (a b : Q) (ha : a.den ≠ 0) (hb : b.den ≠ 0) :
    toRat (qmul a b) = toRat a * toRat b := by
  unfold qmul
  rw [toRat_qmk _ _ (by positivity)]
  unfold toRat
  have haQ : ((a.den : Nat) : Rat) ≠ 0 := by exact_mod_cast ha
  have hbQ : ((b.den : Nat) : Rat) ≠ 0 := by exact_mod_cast hb
  field_simp
  try push_cast
  try ring

theorem toRat_qneg (a : Q) (ha : a.den ≠ 0) : toRat (qneg a) = -(toRat a) := by
  unfold qneg
  rw [toRat_qmk _ _ ha]
  unfold toRat
  push_cast
  ring

theorem toRat_qdiv (a b : Q) (ha : a.den ≠ 0) (hb : b.den ≠ 0) :
    toRat (qdiv a b) = toRat a / toRat b := by
  have hrhs : toRat a / toRat b
      = ((a.num : Rat) * ((b.den : Nat) : Rat)) / (((a.den : Nat) : Rat) * (b.num : Rat)) := by
    unfold toRat
    rw [div_eq_mul_inv ((a.num : Rat) / _), inv_div, div_mul_div_comm]
  rw [hrhs]
  unfold qdiv
  by_cases h0 : b.num = 0
  · have hz : b.num.natAbs = 0 := by omega
    simp [h0, hz, qmk, toRat]
  · by_cases hneg : b.num < 0
    · simp only [hneg, if_true]
      rw [toRat_qmk _ _ (by
        have h1 : b.num.natAbs ≠ 0 := Int.natAbs_ne_zero.mpr h0
        positivity)]
      have key : ((a.den * b.num.natAbs : Nat) : Rat) = -(((a.den : Nat) : Rat) * (b.num : Rat)) := by
        push_cast
        rw [Int.cast_natAbs, abs_of_neg hneg]
        push_cast
        ring
      rw [key]
      push_cast
      rw [neg_div_neg_eq]
    · simp only [hneg, if_false]
      rw [toRat_qmk _ _ (by
        have h1 : b.num.natAbs ≠ 0 := Int.natAbs_ne_zero.mpr h0
        positivity)]
      have key : ((a.den * b.num.natAbs : Nat) : Rat) = ((a.den : Nat) : Rat) * (b.num : Rat) := by
        push_cast
        rw [Int.cast_natAbs, abs_of_nonneg (le_of_not_lt hneg)]
      rw [key]
      push_cast
      ring_nf

theorem qfloor_eq (a : Q) (ha : a.den ≠ 0) : qfloor a = ⌊toRat a⌋ := by
  unfold qfloor toRat
  exact (Rat.floor_intCast_div_natCast a.num a.den).symm

theorem qround_bounds (a : Q) :
    qfloor a ≤ qroundHalfEven a ∧ qroundHalfEven a ≤ qfloor a + 1 := by
  unfold qroundHalfEven
  by_cases h1 : 2 * (a.num - qfloor a * (a.den : Int)) < (a.den : Int)
  · simp [h1]
  · by_cases h2 : (a.den : Int) < 2 * (a.num - qfloor a * (a.den : Int))
    · simp [h1, h2]
    · by_cases h3 : qfloor a % 2 = 0 <;> simp [h1, h2, h3]

theorem qnum_neg_iff (a : Q) (ha : a.den ≠ 0) : a.num < 0 ↔ toRat a < 0 := by
  unfold toRat
  have hd : (0 : Rat) < ((a.den : Nat) : Rat) := by
    have := Nat.pos_of_ne_zero ha
    exact_mod_cast this
  rw [div_neg_iff]
  constructor
  · intro h
    right
    constructor
    · exact_mod_cast h
    · exact hd
  · intro h
    rcases h with ⟨h1, h2⟩ | ⟨h1, h2⟩
    · exact absurd hd (not_lt.mpr (le_of_lt h2))
    · exact_mod_cast h1

theorem qIsZero_iff (a : Q) (ha : a.den ≠ 0) : qIsZero a = true ↔ toRat a = 0 := by
  unfold qIsZero toRat
  have hd : ((a.den : Nat) : Rat) ≠ 0 := by exact_mod_cast ha
  rw [div_eq_zero_iff]
  constructor
  · intro h
    left
    exact_mod_cast beq_iff_eq.mp h
  · intro h
    rcases h with h | h
    · exact beq_iff_eq.mpr (by exact_mod_cast h)
    · exact absurd h hd

theorem qlt_iff (a b : Q) (ha : a.den ≠ 0) (hb : b.den ≠ 0) :
    qlt a b = true ↔ toRat a < toRat b := by
  unfold qlt toRat
  have ha2 : (0 : Rat) < ((a.den : Nat) : Rat) := by
    exact_mod_cast Nat.pos_of_ne_zero ha
  have hb2 : (0 : Rat) < ((b.den : Nat) : Rat) := by
    exact_mod_cast Nat.pos_of_ne_zero hb
  rw [div_lt_div_iff ha2 hb2, decide_eq_true_eq]
  constructor
  · intro h
    exact_mod_cast h
  · intro h
    exact_mod_cast h

theorem qle_iff (a b : Q) (ha : a.den ≠ 0) (hb : b.den ≠ 0) :
    qle a b = true ↔ toRat a ≤ toRat b := by
  unfold qle toRat
  have ha2 : (0 : Rat) < ((a.den : Nat) : Rat) := by
    exact_mod_cast Nat.pos_of_ne_zero ha
  have hb2 : (0 : Rat) < ((b.den : Nat) : Rat) := by
    exact_mod_cast Nat.pos_of_ne_zero hb
  rw [div_le_div_iff ha2 hb2, decide_eq_true_eq]
  constructor
  · intro h
    exact_mod_cast h
  · intro h
    exact_mod_cast h

/-!
Calendar arithmetic.  CPython `datetime` uses the proleptic Gregorian
calendar with years 1..9999; `fromtimestamp` and `timestamp` convert between
epoch time and calendar fields.  The day-count conversions below follow the
standard civil-from-days / days-from-civil algorithms on unbounded integers.
-/

/-- Leap year in the proleptic Gregorian calendar. -/
def isLeapYear (y : Int) : Bool := y % 4 == 0 && (y % 100 != 0 || y % 400 == 0)

/-- Leap-day count of a year: 1 for leap years, 0 otherwise. -/
def leapE (y : Int) : Nat := if isLeapYear y = true then 1 else 0

/-- Days in a month, from the leap-day count `e` of the year (month 1..12). -/
def dimE (e : Nat) (m : Nat) : Nat :=
  if m = 2 then 28 + e
  else if m = 4 || m = 6 || m = 9 || m = 11 then 30
  else 31

/-- Number of days in a month (month 1..12). -/
def daysInMonth (y : Int) (m : Nat) : Nat := dimE (leapE y) m

/-- Days before month `m` within a year (0-based day of year of the first of
the month), from the leap-day count `e` of the year. -/
def dbmE (e : Nat) (m : Nat) : Nat :=
  match m with
  | 1 => 0
  | 2 => 31
  | 3 => 59 + e
  | 4 => 90 + e
  | 5 => 120 + e
  | 6 => 151 + e
  | 7 => 181 + e
  | 8 => 212 + e
  | 9 => 243 + e
  | 10 => 273 + e
  | 11 => 304 + e
  | _ => 334 + e

/-- Month and day from a 0-based day of year, from the leap-day count `e`. -/
def mdE (e : Nat) (doy : Nat) : Nat × Nat :=
  if doy < 31 then (1, doy + 1)
  else if doy < 59 + e then (2, doy - 31 + 1)
  else if doy < 90 + e then (3, doy - (59 + e) + 1)
  else if doy < 120 + e then (4, doy - (90 + e) + 1)
  else if doy < 151 + e then (5, doy - (120 + e) + 1)
  else if doy < 181 + e then (6, doy - (151 + e) + 1)
  else if doy < 212 + e then (7, doy - (181 + e) + 1)
  else if doy < 243 + e then (8, doy - (212 + e) + 1)
  else if doy < 273 + e then (9, doy - (243 + e) + 1)
  else if doy < 304 + e then (10, doy - (273 + e) + 1)
  else if doy < 334 + e then (11, doy - (304 + e) + 1)
  else (12, doy - (334 + e) + 1)

/-- Days since the Unix epoch of a civil date (proleptic Gregorian),
following the ordinal formula of CPython `datetime` (`_ymd2ord` shifted so
that 1970-01-01 is day 0). -/
def daysFromCivil (y : Int) (m : Nat) (d : Nat) : Int :=
  365 * (y - 1) + (y - 1) / 4 - (y - 1) / 100 + (y - 1) / 400
    + (dbmE (leapE y) m : Int) + (d : Int) - 1 - 719162

/-- Final step of the 400/100/4/1-year cycle decomposition: assemble the
year from the cycle indices and read month and day off the day of year. -/
def civilYmd4 (q400 q100 q4 q1 r1 : Int) : Int × Nat × Nat :=
  ((400 * q400 + 100 * q100 + 4 * q4 + q1 + 1 : Int),
   (mdE (leapE (400 * q400 + 100 * q100 + 4 * q4 + q1 + 1)) r1.toNat).1,
   (mdE (leapE (400 * q400 + 100 * q100 + 4 * q4 + q1 + 1)) r1.toNat).2)

/-- Civil date (year, month, day) of a count of days since the Unix epoch,
following the 400/100/4/1-year cycle decomposition of CPython `_ord2ymd`. -/
def civilFromDays (z : Int) : Int × Nat × Nat :=
  let o : Int := z + 719162
  let r400 : Int := o % 146097
  let q100 : Int := min (r400 / 36524) 3
  let r100 : Int := r400 - q100 * 36524
  let r4 : Int := r100 % 1461
  let q1 : Int := min (r4 / 365) 3
  civilYmd4 (o / 146097) q100 (r100 / 1461) q1 (r4 - q1 * 365)

theorem mdE_spec (e doy m d : Nat) (he : e ≤ 1) (hdoy : doy ≤ 364 + e)
    (h : mdE e doy = (m, d)) :
    1 ≤ m ∧ m ≤ 12 ∧ 1 ≤ d ∧ d ≤ dimE e m ∧ dbmE e m + (d - 1) = doy := by
  unfold mdE at h
  by_cases h1 : doy < 31
  · rw [if_pos h1] at h
    cases h
    simp [dimE, dbmE]
    omega
  · rw [if_neg h1] at h
    by_cases h2 : doy < 59 + e
    · rw [if_pos h2] at h
      cases h
      simp [dimE, dbmE]
      omega
    · rw [if_neg h2] at h
      by_cases h3 : doy < 90 + e
      · rw [if_pos h3] at h
        cases h
        simp [dimE, dbmE]
        omega
      · rw [if_neg h3] at h
        by_cases h4 : doy < 120 + e
        · rw [if_pos h4] at h
          cases h
          simp [dimE, dbmE]
          omega
        · rw [if_neg h4] at h
          by_cases h5 : doy < 151 + e
          · rw [if_pos h5] at h
            cases h
            simp [dimE, dbmE]
            omega
          · rw [if_neg h5] at h
            by_cases h6 : doy < 181 + e
            · rw [if_pos h6] at h
              cases h
              simp [dimE, dbmE]
              omega
            · rw [if_neg h6] at h
              by_cases h7 : doy < 212 + e
              · rw [if_pos h7] at h
                cases h
                simp [dimE, dbmE]
                omega
              · rw [if_neg h7] at h
                by_cases h8 : doy < 243 + e
                · rw [if_pos h8] at h
                  cases h
                  simp [dimE, dbmE]
                  omega
                · rw [if_neg h8] at h
                  by_cases h9 : doy < 273 + e
                  · rw [if_pos h9] at h
                    cases h
                    simp [dimE, dbmE]
                    omega
                  · rw [if_neg h9] at h
                    by_cases h10 : doy < 304 + e
                    · rw [if_pos h10] at h
                      cases h
                      simp [dimE, dbmE]
                      omega
                    · rw [if_neg h10] at h
                      by_cases h11 : doy < 334 + e
                      · rw [if_pos h11] at h
                        cases h
                        simp [dimE, dbmE]
                        omega
                      · rw [if_neg h11] at h
                        cases h
                        simp [dimE, dbmE]
                        omega

theorem civilYmd4_spec (q400 q100 q4 q1 r1 : Int) (y : Int) (m d : Nat)
    (hq100 : 0 ≤ q100 ∧ q100 ≤ 3) (hq4 : 0 ≤ q4 ∧ q4 ≤ 24) (hq1 : 0 ≤ q1 ∧ q1 ≤ 3)
    (hr1 : 0 ≤ r1)
    (hr1up : r1 ≤ 364 ∨ (r1 = 365 ∧ q1 = 3 ∧ (q4 ≠ 24 ∨ q100 = 3)))
    (h : civilYmd4 q400 q100 q4 q1 r1 = (y, m, d)) :
    daysFromCivil y m d = 146097 * q400 + 36524 * q100 + 1461 * q4 + 365 * q1 + r1 - 719162 ∧
    1 ≤ m ∧ m ≤ 12 ∧ 1 ≤ d ∧ d ≤ daysInMonth y m := by
  have hleap : isLeapYear (400 * q400 + 100 * q100 + 4 * q4 + q1 + 1) = true
      ↔ (q1 = 3 ∧ (q4 ≠ 24 ∨ q100 = 3)) := by
    unfold isLeapYear
    simp only [Bool.and_eq_true, Bool.or_eq_true, beq_iff_eq, bne_iff_ne, decide_eq_true_eq]
    omega
  have hE1 : leapE (400 * q400 + 100 * q100 + 4 * q4 + q1 + 1) ≤ 1 := by
    unfold leapE
    split <;> omega
  have hE2 : leapE (400 * q400 + 100 * q100 + 4 * q4 + q1 + 1) = 1
      ↔ (q1 = 3 ∧ (q4 ≠ 24 ∨ q100 = 3)) := by
    unfold leapE
    by_cases hb : isLeapYear (400 * q400 + 100 * q100 + 4 * q4 + q1 + 1) = true
    · rw [if_pos hb]
      constructor
      · intro h1
        exact hleap.mp hb
      · intro h2
        rfl
    · rw [if_neg hb]
      constructor
      · intro h1
        omega
      · intro h2
        exact absurd (hleap.mpr h2) hb
  unfold civilYmd4 at h
  injection h with hy h2
  injection h2 with hm hd
  subst hy
  have hpair : mdE (leapE (400 * q400 + 100 * q100 + 4 * q4 + q1 + 1)) r1.toNat = (m, d) := by
    rw [← hm, ← hd]
  have hdoy : r1.toNat ≤ 364 + leapE (400 * q400 + 100 * q100 + 4 * q4 + q1 + 1) := by
    rcases hr1up with hA | ⟨hA1, hA2, hA3⟩
    · omega
    · have hEeq := hE2.mpr ⟨hA2, hA3⟩
      omega
  obtain ⟨hm1, hm2, hd1, hd2, hsum⟩ :=
    mdE_spec (leapE (400 * q400 + 100 * q100 + 4 * q4 + q1 + 1)) r1.toNat m d hE1 hdoy hpair
  unfold daysFromCivil daysInMonth
  rcases hr1up with hA | ⟨hA1, hA2, hA3⟩
  · omega
  · have hEeq := hE2.mpr ⟨hA2, hA3⟩
    omega

theorem civilFromDays_inv (z : Int) :
    daysFromCivil (civilFromDays z).1 (civilFromDays z).2.1 (civilFromDays z).2.2 = z := by
  obtain ⟨heq, -⟩ := civilYmd4_spec ((z + 719162) / 146097)
    (min ((z + 719162) % 146097 / 36524) 3)
    (((z + 719162) % 146097 - min ((z + 719162) % 146097 / 36524) 3 * 36524) / 1461)
    (min (((z + 719162) % 146097 - min ((z + 719162) % 146097 / 36524) 3 * 36524) % 1461 / 365) 3)
    (((z + 719162) % 146097 - min ((z + 719162) % 146097 / 36524) 3 * 36524) % 1461
      - min (((z + 719162) % 146097 - min ((z + 719162) % 146097 / 36524) 3 * 36524) % 1461 / 365) 3 * 365)
    (civilFromDays z).1 (civilFromDays z).2.1 (civilFromDays z).2.2
    (by omega) (by omega) (by omega) (by omega) (by omega) rfl
  rw [heq]
  omega

theorem civilFromDays_valid (z : Int) :
    1 ≤ (civilFromDays z).2.1 ∧ (civilFromDays z).2.1 ≤ 12 ∧
    1 ≤ (civilFromDays z).2.2 ∧
    (civilFromDays z).2.2 ≤ daysInMonth (civilFromDays z).1 (civilFromDays z).2.1 := by
  obtain ⟨-, hrest⟩ := civilYmd4_spec ((z + 719162) / 146097)
    (min ((z + 719162) % 146097 / 36524) 3)
    (((z + 719162) % 146097 - min ((z + 719162) % 146097 / 36524) 3 * 36524) / 1461)
    (min (((z + 719162) % 146097 - min ((z + 719162) % 146097 / 36524) 3 * 36524) % 1461 / 365) 3)
    (((z + 719162) % 146097 - min ((z + 719162) % 146097 / 36524) 3 * 36524) % 1461
      - min (((z + 719162) % 146097 - min ((z + 719162) % 146097 / 36524) 3 * 36524) % 1461 / 365) 3 * 365)
    (civilFromDays z).1 (civilFromDays z).2.1 (civilFromDays z).2.2
    (by omega) (by omega) (by omega) (by omega) (by omega) rfl
  exact hrest

/-- Model of a CPython `datetime.datetime` value: proleptic Gregorian
calendar fields at microsecond resolution, plus an optional fixed UTC offset
(in microseconds, as built by `timezone(timedelta(...))`). -/
structure PyDatetime where
  year : Int
  month : Nat
  day : Nat
  hour : Nat
  minute : Nat
  second : Nat
  micro : Nat
  tzOffset : Option Int
deriving DecidableEq

/-- Validation performed by the `datetime` constructor: `MINYEAR = 1`,
`MAXYEAR = 9999`, month and day-of-month ranges (leap aware), time field
ranges; in particular `second = 60` (a leap second) is rejected. -/
def datetimeValid (t : PyDatetime) : Bool :=
  decide (1 ≤ t.year) && decide (t.year ≤ 9999) &&
  decide (1 ≤ t.month) && decide (t.month ≤ 12) &&
  decide (1 ≤ t.day) && decide (t.day ≤ daysInMonth t.year t.month) &&
  decide (t.hour ≤ 23) && decide (t.minute ≤ 59) && decide (t.second ≤ 59) &&
  decide (t.micro ≤ 999999)

/-- Microseconds since the Unix epoch of the naive calendar fields. -/
def dtMicros (t : PyDatetime) : Int :=
  daysFromCivil t.year t.month t.day * 86400000000
    + ((t.hour * 3600000000 + t.minute * 60000000 + t.second * 1000000 + t.micro : Nat) : Int)

/-- Microseconds since the Unix epoch of the instant denoted by an aware
datetime (`datetime.timestamp()` semantics for aware values; a missing
offset is treated as UTC, matching how the library builds its values). -/
def dtEpochMicros (t : PyDatetime) : Int :=
  dtMicros t - (t.tzOffset.getD 0)

/-- Epoch seconds of an aware datetime as an exact rational
(`datetime.timestamp()`). -/
def dtTimestamp (t : PyDatetime) : Q := qmk (dtEpochMicros t) 1000000

/-- Calendar fields (UTC) of a microsecond count since the Unix epoch; no
year-range check. -/
def microsToDTfields (us : Int) : PyDatetime :=
  let day := us / 86400000000
  let rem := us % 86400000000
  let ymd := civilFromDays day
  ⟨ymd.1, ymd.2.1, ymd.2.2, (rem / 3600000000).toNat, (rem % 3600000000 / 60000000).toNat,
   (rem % 60000000 / 1000000).toNat, (rem % 1000000).toNat, some 0⟩

/-- Model of `datetime.fromtimestamp(value, tz=UTC)`: the float seconds are
rounded half-even to microseconds, converted to UTC calendar fields, and the
year range is enforced (out of range raises, modelled as `none`). -/
def fromtimestampUTC (q : Q) : Option PyDatetime :=
  let us := qroundHalfEven (qmul q (qofInt 1000000))
  let t := microsToDTfields us
  if 1 ≤ t.year ∧ t.year ≤ 9999 then some t else none

/-- Model of `astimezone(UTC)` on an aware datetime: shift the naive fields
by the offset; CPython raises on year overflow (modelled as `none`). -/
def astimezoneUTC (t : PyDatetime) : Option PyDatetime :=
  let us := dtEpochMicros t
  let t2 := microsToDTfields us
  if 1 ≤ t2.year ∧ t2.year ≤ 9999 then some t2 else none

theorem dtMicros_microsToDTfields (us : Int) : dtMicros (microsToDTfields us) = us := by
  unfold dtMicros microsToDTfields
  simp only
  rw [civilFromDays_inv (us / 86400000000)]
  have h1 : 0 ≤ us % 86400000000 := Int.emod_nonneg us (by norm_num)
  have h2 : us % 86400000000 < 86400000000 := Int.emod_lt_of_pos us (by norm_num)
  have h3 : 86400000000 * (us / 86400000000) + us % 86400000000 = us := Int.ediv_add_emod us 86400000000
  omega

theorem microsToDTfields_fields (us : Int) :
    1 ≤ (microsToDTfields us).month ∧ (microsToDTfields us).month ≤ 12 ∧
    1 ≤ (microsToDTfields us).day ∧
    (microsToDTfields us).day ≤ daysInMonth (microsToDTfields us).year (microsToDTfields us).month ∧
    (microsToDTfields us).hour ≤ 23 ∧ (microsToDTfields us).minute ≤ 59 ∧
    (microsToDTfields us).second ≤ 59 ∧ (microsToDTfields us).micro ≤ 999999 ∧
    (microsToDTfields us).tzOffset = some 0 := by
  unfold microsToDTfields
  simp only
  obtain ⟨hv1, hv2, hv3, hv4⟩ := civilFromDays_valid (us / 86400000000)
  have h1 : 0 ≤ us % 86400000000 := Int.emod_nonneg us (by norm_num)
  have h2 : us % 86400000000 < 86400000000 := Int.emod_lt_of_pos us (by norm_num)
  refine ⟨hv1, hv2, hv3, hv4, ?_, ?_, ?_, ?_, trivial⟩ <;> omega

theorem fromtimestampUTC_valid (q : Q) (t : PyDatetime) (h : fromtimestampUTC q = some t) :
    datetimeValid t = true ∧ t.tzOffset = some 0 := by
  unfold fromtimestampUTC at h
  simp only at h
  split_ifs at h with hy
  · cases h
    obtain ⟨g1, g2, g3, g4, g5, g6, g7, g8, g9⟩ :=
      microsToDTfields_fields (qroundHalfEven (qmul q (qofInt 1000000)))
    unfold datetimeValid
    refine ⟨?_, g9⟩
    simp only [Bool.and_eq_true, decide_eq_true_eq]
    exact ⟨⟨⟨⟨⟨⟨⟨⟨⟨hy.1, hy.2⟩, g1⟩, g2⟩, g3⟩, g4⟩, g5⟩, g6⟩, g7⟩, g8⟩

deriving instance DecidableEq for Except

/-- Exception kinds raised by the embedded code. -/
inductive PyErr where
  | valueError
  | runtimeError
  | overflowError
deriving DecidableEq

/-- Decimal digit character of `n % 10`. -/
def dChar (n : Nat) : Char := Nat.digitChar (n % 10)

/-- Numeric value of a digit character. -/
def digitVal (c : Char) : Nat := c.toNat - 48

/-- Two-digit decimal rendering (zero padded). -/
def render2 (n : Nat) : List Char := [dChar (n / 10), dChar n]

/-- Four-digit decimal rendering (zero padded). -/
def render4 (n : Nat) : List Char := [dChar (n / 1000), dChar (n / 100), dChar (n / 10), dChar n]

/-- Six-digit decimal rendering (zero padded). -/
def render6 (n : Nat) : List Char :=
  [dChar (n / 100000), dChar (n / 10000), dChar (n / 1000), dChar (n / 100), dChar (n / 10), dChar n]

theorem dChar_isDigit (n : Nat) : (dChar n).isDigit = true := by
  unfold dChar
  have h : n % 10 < 10 := Nat.mod_lt _ (by norm_num)
  interval_cases h2 : (n % 10) <;> decide

theorem digitVal_dChar (n : Nat) : digitVal (dChar n) = n % 10 := by
  unfold dChar digitVal
  have h : n % 10 < 10 := Nat.mod_lt _ (by norm_num)
  interval_cases h2 : (n % 10) <;> decide

theorem dChar_ne_dash (n : Nat) : ¬(dChar n = '-') := by
  unfold dChar
  have h : n % 10 < 10 := Nat.mod_lt _ (by norm_num)
  interval_cases h2 : (n % 10) <;> decide

theorem dChar_ne_colon (n : Nat) : ¬(dChar n = ':') := by
  unfold dChar
  have h : n % 10 < 10 := Nat.mod_lt _ (by norm_num)
  interval_cases h2 : (n % 10) <;> decide

theorem dChar_ne_dot (n : Nat) : ¬(dChar n = '.') := by
  unfold dChar
  have h : n % 10 < 10 := Nat.mod_lt _ (by norm_num)
  interval_cases h2 : (n % 10) <;> decide

theorem dChar_ne_plus (n : Nat) : ¬(dChar n = '+') := by
  unfold dChar
  have h : n % 10 < 10 := Nat.mod_lt _ (by norm_num)
  interval_cases h2 : (n % 10) <;> decide

theorem dChar_ne_tUp (n : Nat) : ¬(dChar n = 'T') := by
  unfold dChar
  have h : n % 10 < 10 := Nat.mod_lt _ (by norm_num)
  interval_cases h2 : (n % 10) <;> decide

theorem dChar_ne_tLo (n : Nat) : ¬(dChar n = 't') := by
  unfold dChar
  have h : n % 10 < 10 := Nat.mod_lt _ (by norm_num)
  interval_cases h2 : (n % 10) <;> decide

theorem dChar_ne_zUp (n : Nat) : ¬(dChar n = 'Z') := by
  unfold dChar
  have h : n % 10 < 10 := Nat.mod_lt _ (by norm_num)
  interval_cases h2 : (n % 10) <;> decide

theorem dChar_ne_zLo (n : Nat) : ¬(dChar n = 'z') := by
  unfold dChar
  have h : n % 10 < 10 := Nat.mod_lt _ (by norm_num)
  interval_cases h2 : (n % 10) <;> decide

theorem dChar_ne_slash (n : Nat) : ¬(dChar n = '/') := by
  unfold dChar
  have h : n % 10 < 10 := Nat.mod_lt _ (by norm_num)
  interval_cases h2 : (n % 10) <;> decide

theorem dChar_ne_uUp (n : Nat) : ¬(dChar n = 'U') := by
  unfold dChar
  have h : n % 10 < 10 := Nat.mod_lt _ (by norm_num)
  interval_cases h2 : (n % 10) <;> decide

theorem dChar_ne_cUp (n : Nat) : ¬(dChar n = 'C') := by
  unfold dChar
  have h : n % 10 < 10 := Nat.mod_lt _ (by norm_num)
  interval_cases h2 : (n % 10) <;> decide

theorem dChar_ne_nLo (n : Nat) : ¬(dChar n = 'n') := by
  unfold dChar
  have h : n % 10 < 10 := Nat.mod_lt _ (by norm_num)
  interval_cases h2 : (n % 10) <;> decide

theorem dChar_ne_uLo (n : Nat) : ¬(dChar n = 'u') := by
  unfold dChar
  have h : n % 10 < 10 := Nat.mod_lt _ (by norm_num)
  interval_cases h2 : (n % 10) <;> decide

theorem dChar_ne_mLo (n : Nat) : ¬(dChar n = 'm') := by
  unfold dChar
  have h : n % 10 < 10 := Nat.mod_lt _ (by norm_num)
  interval_cases h2 : (n % 10) <;> decide

theorem dChar_ne_sLo (n : Nat) : ¬(dChar n = 's') := by
  unfold dChar
  have h : n % 10 < 10 := Nat.mod_lt _ (by norm_num)
  interval_cases h2 : (n % 10) <;> decide

theorem dChar_ne_hLo (n : Nat) : ¬(dChar n = 'h') := by
  unfold dChar
  have h : n % 10 < 10 := Nat.mod_lt _ (by norm_num)
  interval_cases h2 : (n % 10) <;> decide

theorem dChar_ne_dLo (n : Nat) : ¬(dChar n = 'd') := by
  unfold dChar
  have h : n % 10 < 10 := Nat.mod_lt _ (by norm_num)
  interval_cases h2 : (n % 10) <;> decide

theorem dChar_ne_mu (n : Nat) : ¬(dChar n = 'µ') := by
  unfold dChar
  have h : n % 10 < 10 := Nat.mod_lt _ (by norm_num)
  interval_cases h2 : (n % 10) <;> decide

theorem dChar_ne_space (n : Nat) : ¬(dChar n = Char.ofNat 32) := by
  unfold dChar
  have h : n % 10 < 10 := Nat.mod_lt _ (by norm_num)
  interval_cases h2 : (n % 10) <;> decide

/-- Whitespace characters stripped by Python `str.strip()` (ASCII subset). -/
def isPySpace (c : Char) : Bool :=
  c = Char.ofNat 32 || c = Char.ofNat 9 || c = Char.ofNat 10 ||
  c = Char.ofNat 13 || c = Char.ofNat 11 || c = Char.ofNat 12

/-- Python `str.strip()`: remove leading and trailing whitespace. -/
def pyStrip (cs : List Char) : List Char :=
  ((cs.dropWhile isPySpace).reverse.dropWhile isPySpace).reverse

theorem isPySpace_dChar (n : Nat) : isPySpace (dChar n) = false := by
  unfold dChar isPySpace
  have h : n % 10 < 10 := Nat.mod_lt _ (by norm_num)
  interval_cases h2 : (n % 10) <;> decide

/-- Python `str.upper()` on a single character (ASCII). -/
def pyUpperChar (c : Char) : Char :=
  if 'a' ≤ c ∧ c ≤ 'z' then Char.ofNat (c.toNat - 32) else c

theorem pyUpperChar_dChar (n : Nat) : pyUpperChar (dChar n) = dChar n := by
  unfold dChar pyUpperChar
  have h : n % 10 < 10 := Nat.mod_lt _ (by norm_num)
  interval_cases h2 : (n % 10) <;> decide

/-- Value of a list of digit characters, most significant first
(Python `int()` digit accumulation). -/
def digitsVal (ds : List Char) : Nat := ds.foldl (fun a c => a * 10 + digitVal c) 0

/-- Python `int(s)` for an optionally signed decimal string; `none` models
`ValueError`. -/
def pyIntOfStr (cs : List Char) : Option Int :=
  match cs with
  | [] => none
  | '+' :: rest =>
    if rest ≠ [] ∧ rest.all Char.isDigit then some (digitsVal rest : Int) else none
  | '-' :: rest =>
    if rest ≠ [] ∧ rest.all Char.isDigit then some (-(digitsVal rest : Int)) else none
  | _ =>
    if cs.all Char.isDigit then some (digitsVal cs : Int) else none

/-- Python `float(s)` for a plain decimal string (sign, digits, at most one
point; exponent and inf/nan forms are not modelled); `none` models
`ValueError`.  The value is exact, eliding binary64 rounding. -/
def pyFloatCore (cs : List Char) : Option Q :=
  let intPart := cs.takeWhile Char.isDigit
  let rest := cs.drop intPart.length
  match rest with
  | [] => if intPart = [] then none else some (qofNat (digitsVal intPart))
  | '.' :: frac =>
    if frac.all Char.isDigit ∧ (intPart ≠ [] ∨ frac ≠ []) then
      some (qadd (qofNat (digitsVal intPart)) (qmk (digitsVal frac : Int) (10 ^ frac.length)))
    else none
  | _ => none

def pyFloatOfStr (cs : List Char) : Option Q :=
  match cs with
  | '+' :: rest => pyFloatCore rest
  | '-' :: rest => (pyFloatCore rest).map qneg
  | _ => pyFloatCore cs

/-- Python `str.lower()` on one character (ASCII). -/
def pyLowerChar (c : Char) : Char :=
  if 'A' ≤ c ∧ c ≤ 'Z' then Char.ofNat (c.toNat + 32) else c

/-- Fields captured by a `_strptime` match, with CPython defaults
(year 1900, month 1, day 1).  `ff` is microseconds; `fz` the UTC offset in
microseconds (`none` when the format had no `%z` or it matched nothing). -/
structure FParse where
  fY : Nat
  fm : Nat
  fd : Nat
  fH : Nat
  fM : Nat
  fS : Nat
  ff : Nat
  fz : Option Int
deriving DecidableEq

def FParse.dflt : FParse := ⟨1900, 1, 1, 0, 0, 0, 0, none⟩

/-- Tokens of a strptime format string: field directives, literal characters
(matched case-insensitively, as `_strptime` compiles with `re.IGNORECASE`),
and runs of whitespace (a space in the format is compiled to `\s+`). -/
inductive FTok where
  | lit (c : Char)
  | ws
  | dY
  | dm
  | dd
  | dH
  | dM
  | dS
  | df
  | dz
deriving DecidableEq

/-- Offset value in microseconds from `%z` components. -/
def tzValue (neg : Bool) (hh mm ss : Nat) (fracUs : Nat) : Int :=
  let a : Int := ((hh * 3600 + mm * 60 + ss) * 1000000 + fracUs : Nat)
  if neg then -a else a

/-- Match a `%z` directive: regex
`[+-]\d\d:?\d\d(:?\d\d(\.\d{1,6})?)?|Z` with Python backtracking order
(greedy options first); `k` is the continuation on the rest of the input. -/
def matchTz (cs : List Char) (k : Option Int → List Char → Option (FParse × List Char)) :
    Option (FParse × List Char) :=
  match cs with
  | c0 :: c1 :: c2 :: rest =>
    if (c0 = '+' ∨ c0 = '-') ∧ c1.isDigit ∧ c2.isDigit then
      let neg := c0 = '-'
      let hh := digitVal c1 * 10 + digitVal c2
      (match rest with
       | ':' :: c3 :: c4 :: rest2 =>
         if c3.isDigit ∧ c4.isDigit then
           matchTzSec neg hh (digitVal c3 * 10 + digitVal c4) rest2 k
         else none
       | _ => none)
      <|>
      (match rest with
       | c3 :: c4 :: rest2 =>
         if c3.isDigit ∧ c4.isDigit then
           matchTzSec neg hh (digitVal c3 * 10 + digitVal c4) rest2 k
         else none
       | _ => none)
    else if c0 = 'Z' then k (some 0) (c1 :: c2 :: rest)
    else none
  | c0 :: rest => if c0 = 'Z' then k (some 0) rest else none
  | [] => none
where
  /-- Optional seconds (and fraction) part of a `%z` match, greedy first. -/
  matchTzSec (neg : Bool) (hh mm : Nat) (cs : List Char)
      (k : Option Int → List Char → Option (FParse × List Char)) :
      Option (FParse × List Char) :=
    (match cs with
     | ':' :: c5 :: c6 :: rest =>
       if c5.isDigit ∧ c6.isDigit then
         matchTzFrac neg hh mm (digitVal c5 * 10 + digitVal c6) rest k
       else none
     | _ => none)
    <|>
    (match cs with
     | c5 :: c6 :: rest =>
       if c5.isDigit ∧ c6.isDigit then
         matchTzFrac neg hh mm (digitVal c5 * 10 + digitVal c6) rest k
       else none
     | _ => none)
    <|> k (some (tzValue neg hh mm 0 0)) cs
  /-- Optional fractional part `(\.\d{1,6})?` of a `%z` match, longest
  digit run first. -/
  matchTzFrac (neg : Bool) (hh mm ss : Nat) (cs : List Char)
      (k : Option Int → List Char → Option (FParse × List Char)) :
      Option (FParse × List Char) :=
    (match cs with
     | '.' :: d1 :: d2 :: d3 :: d4 :: d5 :: d6 :: rest =>
       if d1.isDigit ∧ d2.isDigit ∧ d3.isDigit ∧ d4.isDigit ∧ d5.isDigit ∧ d6.isDigit then
         k (some (tzValue neg hh mm ss (((((digitVal d1 * 10 + digitVal d2) * 10 + digitVal d3) * 10
           + digitVal d4) * 10 + digitVal d5) * 10 + digitVal d6))) rest
       else none
     | _ => none)
    <|>
    (match cs with
     | '.' :: d1 :: d2 :: d3 :: d4 :: d5 :: rest =>
       if d1.isDigit ∧ d2.isDigit ∧ d3.isDigit ∧ d4.isDigit ∧ d5.isDigit then
         k (some (tzValue neg hh mm ss (((((digitVal d1 * 10 + digitVal d2) * 10 + digitVal d3) * 10
           + digitVal d4) * 10 + digitVal d5) * 10))) rest
       else none
     | _ => none)
    <|>
    (match cs with
     | '.' :: d1 :: d2 :: d3 :: d4 :: rest =>
       if d1.isDigit ∧ d2.isDigit ∧ d3.isDigit ∧ d4.isDigit then
         k (some (tzValue neg hh mm ss ((((digitVal d1 * 10 + digitVal d2) * 10 + digitVal d3) * 10
           + digitVal d4) * 100))) rest
       else none
     | _ => none)
    <|>
    (match cs with
     | '.' :: d1 :: d2 :: d3 :: rest =>
       if d1.isDigit ∧ d2.isDigit ∧ d3.isDigit then
         k (some (tzValue neg hh mm ss (((digitVal d1 * 10 + digitVal d2) * 10 + digitVal d3) * 1000))) rest
       else none
     | _ => none)
    <|>
    (match cs with
     | '.' :: d1 :: d2 :: rest =>
       if d1.isDigit ∧ d2.isDigit then
         k (some (tzValue neg hh mm ss ((digitVal d1 * 10 + digitVal d2) * 10000))) rest
       else none
     | _ => none)
    <|>
    (match cs with
     | '.' :: d1 :: rest =>
       if d1.isDigit then
         k (some (tzValue neg hh mm ss (digitVal d1 * 100000))) rest
       else none
     | _ => none)
    <|> k (some (tzValue neg hh mm ss 0)) cs

/-- Backtracking matcher over a strptime token list: returns the first
full-pattern prefix match in Python `re` backtracking order, together with
the unconsumed input. -/
def matchToks : List FTok → List Char → FParse → Option (FParse × List Char)
  | [], cs, acc => some (acc, cs)
  | .lit c :: rest, cs, acc =>
    (match cs with
     | x :: cs2 => if pyLowerChar x = pyLowerChar c then matchToks rest cs2 acc else none
     | [] => none)
  | .ws :: rest, cs, acc =>
    let run := cs.takeWhile isPySpace
    if run = [] then none else matchToks rest (cs.drop run.length) acc
  | .dY :: rest, cs, acc =>
    (match cs with
     | c1 :: c2 :: c3 :: c4 :: cs2 =>
       if c1.isDigit ∧ c2.isDigit ∧ c3.isDigit ∧ c4.isDigit then
         matchToks rest cs2 {acc with
           fY := ((digitVal c1 * 10 + digitVal c2) * 10 + digitVal c3) * 10 + digitVal c4}
       else none
     | _ => none)
  | .dm :: rest, cs, acc =>
    (match cs with
     | c1 :: c2 :: cs2 =>
       if c1 = '1' ∧ c2.isDigit ∧ digitVal c2 ≤ 2 then
         matchToks rest cs2 {acc with fm := 10 + digitVal c2}
       else none
     | _ => none)
    <|>
    (match cs with
     | c1 :: c2 :: cs2 =>
       if c1 = '0' ∧ c2.isDigit ∧ 1 ≤ digitVal c2 then
         matchToks rest cs2 {acc with fm := digitVal c2}
       else none
     | _ => none)
    <|>
    (match cs with
     | c1 :: cs2 =>
       if c1.isDigit ∧ 1 ≤ digitVal c1 then matchToks rest cs2 {acc with fm := digitVal c1}
       else none
     | _ => none)
  | .dd :: rest, cs, acc =>
    (match cs with
     | c1 :: c2 :: cs2 =>
       if c1 = '3' ∧ c2.isDigit ∧ digitVal c2 ≤ 1 then
         matchToks rest cs2 {acc with fd := 30 + digitVal c2}
       else none
     | _ => none)
    <|>
    (match cs with
     | c1 :: c2 :: cs2 =>
       if (c1 = '1' ∨ c1 = '2') ∧ c2.isDigit then
         matchToks rest cs2 {acc with fd := digitVal c1 * 10 + digitVal c2}
       else none
     | _ => none)
    <|>
    (match cs with
     | c1 :: c2 :: cs2 =>
       if c1 = '0' ∧ c2.isDigit ∧ 1 ≤ digitVal c2 then
         matchToks rest cs2 {acc with fd := digitVal c2}
       else none
     | _ => none)
    <|>
    (match cs with
     | c1 :: cs2 =>
       if c1.isDigit ∧ 1 ≤ digitVal c1 then matchToks rest cs2 {acc with fd := digitVal c1}
       else none
     | _ => none)
  | .dH :: rest, cs, acc =>
    (match cs with
     | c1 :: c2 :: cs2 =>
       if c1 = '2' ∧ c2.isDigit ∧ digitVal c2 ≤ 3 then
         matchToks rest cs2 {acc with fH := 20 + digitVal c2}
       else none
     | _ => none)
    <|>
    (match cs with
     | c1 :: c2 :: cs2 =>
       if (c1 = '0' ∨ c1 = '1') ∧ c2.isDigit then
         matchToks rest cs2 {acc with fH := digitVal c1 * 10 + digitVal c2}
       else none
     | _ => none)
    <|>
    (match cs with
     | c1 :: cs2 =>
       if c1.isDigit then matchToks rest cs2 {acc with fH := digitVal c1} else none
     | _ => none)
  | .dM :: rest, cs, acc =>
    (match cs with
     | c1 :: c2 :: cs2 =>
       if c1.isDigit ∧ digitVal c1 ≤ 5 ∧ c2.isDigit then
         matchToks rest cs2 {acc with fM := digitVal c1 * 10 + digitVal c2}
       else none
     | _ => none)
    <|>
    (match cs with
     | c1 :: cs2 =>
       if c1.isDigit then matchToks rest cs2 {acc with fM := digitVal c1} else none
     | _ => none)
  | .dS :: rest, cs, acc =>
    (match cs with
     | c1 :: c2 :: cs2 =>
       if c1 = '6' ∧ c2.isDigit ∧ digitVal c2 ≤ 1 then
         matchToks rest cs2 {acc with fS := 60 + digitVal c2}
       else none
     | _ => none)
    <|>
    (match cs with
     | c1 :: c2 :: cs2 =>
       if c1.isDigit ∧ digitVal c1 ≤ 5 ∧ c2.isDigit then
         matchToks rest cs2 {acc with fS := digitVal c1 * 10 + digitVal c2}
       else none
     | _ => none)
    <|>
    (match cs with
     | c1 :: cs2 =>
       if c1.isDigit then matchToks rest cs2 {acc with fS := digitVal c1} else none
     | _ => none)
  | .df :: rest, cs, acc =>
    (match cs with
     | d1 :: d2 :: d3 :: d4 :: d5 :: d6 :: cs2 =>
       if d1.isDigit ∧ d2.isDigit ∧ d3.isDigit ∧ d4.isDigit ∧ d5.isDigit ∧ d6.isDigit then
         matchToks rest cs2 {acc with ff := ((((digitVal d1 * 10 + digitVal d2) * 10 + digitVal d3) * 10
           + digitVal d4) * 10 + digitVal d5) * 10 + digitVal d6}
       else none
     | _ => none)
    <|>
    (match cs with
     | d1 :: d2 :: d3 :: d4 :: d5 :: cs2 =>
       if d1.isDigit ∧ d2.isDigit ∧ d3.isDigit ∧ d4.isDigit ∧ d5.isDigit then
         matchToks rest cs2 {acc with ff := (((((digitVal d1 * 10 + digitVal d2) * 10 + digitVal d3) * 10
           + digitVal d4) * 10 + digitVal d5) * 10)}
       else none
     | _ => none)
    <|>
    (match cs with
     | d1 :: d2 :: d3 :: d4 :: cs2 =>
       if d1.isDigit ∧ d2.isDigit ∧ d3.isDigit ∧ d4.isDigit then
         matchToks rest cs2 {acc with ff := ((((digitVal d1 * 10 + digitVal d2) * 10 + digitVal d3) * 10
           + digitVal d4) * 100)}
       else none
     | _ => none)
    <|>
    (match cs with
     | d1 :: d2 :: d3 :: cs2 =>
       if d1.isDigit ∧ d2.isDigit ∧ d3.isDigit then
         matchToks rest cs2 {acc with ff := (((digitVal d1 * 10 + digitVal d2) * 10 + digitVal d3) * 1000)}
       else none
     | _ => none)
    <|>
    (match cs with
     | d1 :: d2 :: cs2 =>
       if d1.isDigit ∧ d2.isDigit then
         matchToks rest cs2 {acc with ff := ((digitVal d1 * 10 + digitVal d2) * 10000)}
       else none
     | _ => none)
    <|>
    (match cs with
     | d1 :: cs2 =>
       if d1.isDigit then matchToks rest cs2 {acc with ff := digitVal d1 * 100000} else none
     | _ => none)
  | .dz :: rest, cs, acc =>
    matchTz cs (fun off cs2 => matchToks rest cs2 {acc with fz := off})

/-- The 21 accepted strptime input formats of the library
(`_ACCEPTED_INPUT_FORMAT_VALUES`), in source order. -/
def _ACCEPTED_INPUT_FORMAT_VALUES : List (List FTok) := [
  [.dY, .lit '-', .dm, .lit '-', .dd, .lit 'T', .dH, .lit ':', .dM, .lit ':', .dS, .lit '.', .df, .dz],  -- "%Y-%m-%dT%H:%M:%S.%f%z"
  [.dY, .lit '-', .dm, .lit '-', .dd, .ws, .dH, .lit ':', .dM, .lit ':', .dS, .lit '.', .df, .dz],  -- "%Y-%m-%d %H:%M:%S.%f%z"
  [.dY, .lit '-', .dm, .lit '-', .dd, .lit 'T', .dH, .lit ':', .dM, .lit ':', .dS, .lit '.', .df, .ws, .dz],  -- "%Y-%m-%dT%H:%M:%S.%f %z"
  [.dY, .lit '-', .dm, .lit '-', .dd, .ws, .dH, .lit ':', .dM, .lit ':', .dS, .lit '.', .df, .ws, .dz],  -- "%Y-%m-%d %H:%M:%S.%f %z"
  [.dY, .lit '-', .dm, .lit '-', .dd, .lit 'T', .dH, .lit ':', .dM, .lit ':', .dS, .lit '.', .df],  -- "%Y-%m-%dT%H:%M:%S.%f"
  [.dY, .lit '-', .dm, .lit '-', .dd, .ws, .dH, .lit ':', .dM, .lit ':', .dS, .lit '.', .df],  -- "%Y-%m-%d %H:%M:%S.%f"
  [.dY, .lit '-', .dm, .lit '-', .dd, .lit 'T', .dH, .lit ':', .dM, .lit ':', .dS, .dz],  -- "%Y-%m-%dT%H:%M:%S%z"
  [.dY, .lit '-', .dm, .lit '-', .dd, .ws, .dH, .lit ':', .dM, .lit ':', .dS, .dz],  -- "%Y-%m-%d %H:%M:%S%z"
  [.dY, .lit '-', .dm, .lit '-', .dd, .lit 'T', .dH, .lit ':', .dM, .lit ':', .dS, .ws, .dz],  -- "%Y-%m-%dT%H:%M:%S %z"
  [.dY, .lit '-', .dm, .lit '-', .dd, .ws, .dH, .lit ':', .dM, .lit ':', .dS, .ws, .dz],  -- "%Y-%m-%d %H:%M:%S %z"
  [.dY, .lit '-', .dm, .lit '-', .dd, .lit 'T', .dH, .lit ':', .dM, .lit ':', .dS],  -- "%Y-%m-%dT%H:%M:%S"
  [.dY, .lit '-', .dm, .lit '-', .dd, .ws, .dH, .lit ':', .dM, .lit ':', .dS],  -- "%Y-%m-%d %H:%M:%S"
  [.dY, .lit '-', .dm, .lit '-', .dd, .lit 'T', .dH, .lit ':', .dM, .dz],  -- "%Y-%m-%dT%H:%M%z"
  [.dY, .lit '-', .dm, .lit '-', .dd, .ws, .dH, .lit ':', .dM, .dz],  -- "%Y-%m-%d %H:%M%z"
  [.dY, .lit '-', .dm, .lit '-', .dd, .lit 'T', .dH, .lit ':', .dM, .ws, .dz],  -- "%Y-%m-%dT%H:%M %z"
  [.dY, .lit '-', .dm, .lit '-', .dd, .ws, .dH, .lit ':', .dM, .ws, .dz],  -- "%Y-%m-%d %H:%M %z"
  [.dY, .lit '-', .dm, .lit '-', .dd, .dz],  -- "%Y-%m-%d%z"
  [.dY, .lit '-', .dm, .lit '-', .dd, .lit 'T', .dH, .lit ':', .dM],  -- "%Y-%m-%dT%H:%M"
  [.dY, .lit '-', .dm, .lit '-', .dd, .ws, .dH, .lit ':', .dM],  -- "%Y-%m-%d %H:%M"
  [.dY, .lit '-', .dm, .lit '-', .dd, .ws, .dz],  -- "%Y-%m-%d %z"
  [.dY, .lit '-', .dm, .lit '-', .dd]]  -- "%Y-%m-%d"

/-- Validation done after a strptime match: the `timezone(timedelta(...))`
construction (offset strictly within one day) and the `datetime`
constructor checks; a failure raises `ValueError`, caught by the format
loop (modelled as `none`). -/
def mkDatetimeChecked (fp : FParse) : Option PyDatetime :=
  let tzOk : Bool := match fp.fz with
    | none => true
    | some off => decide (-86400000000 < off) && decide (off < 86400000000)
  let t : PyDatetime := ⟨(fp.fY : Int), fp.fm, fp.fd, fp.fH, fp.fM, fp.fS, fp.ff, fp.fz⟩
  if tzOk && datetimeValid t then some t else none

/-- Model of `datetime.strptime(data, format)`: regex prefix match in
backtracking order, then the `found.end() == len(data)` check, then
datetime construction. -/
def strptimeFormat (toks : List FTok) (cs : List Char) : Option PyDatetime :=
  match matchToks toks cs FParse.dflt with
  | none => none
  | some (fp, rest) => if rest = [] then mkDatetimeChecked fp else none

/-- The `for format_ in _ACCEPTED_INPUT_FORMAT_VALUES` loop of
`_transform_value`: first format whose strptime succeeds wins; a successful
parse that carries a tzinfo while a literal `" UTC"` suffix was stripped is
a double timezone declaration (`ValueError`); exhaustion is `ValueError`. -/
def strptimeLoop (fmts : List (List FTok)) (cs : List Char) (endsUtc : Bool) :
    Except PyErr PyDatetime :=
  match fmts with
  | [] => .error .valueError
  | f :: rest =>
    match strptimeFormat f cs with
    | some t =>
      if endsUtc ∧ t.tzOffset ≠ none then .error .valueError else .ok t
    | none => strptimeLoop rest cs endsUtc

/-- Python `str_value.endswith(" UTC")` (case sensitive). -/
def endsWithUTCsp (cs : List Char) : Bool :=
  decide (cs.reverse.take 4 = ['C', 'T', 'U', Char.ofNat 32])

/-- Canonical 27-character rendering of a UTC instant:
`isoformat(timespec="microseconds")` of an aware UTC datetime with the
trailing `+00:00` replaced by `Z` (equivalently, of a naive datetime with a
literal `Z` appended). -/
def renderCanonicalList (t : PyDatetime) : List Char :=
  render4 t.year.toNat ++ '-' :: render2 t.month ++ '-' :: render2 t.day
    ++ 'T' :: render2 t.hour ++ ':' :: render2 t.minute ++ ':' :: render2 t.second
    ++ '.' :: render6 t.micro ++ ['Z']

/-- Python `isoformat` rendering of a fixed UTC offset (`+HH:MM`, with
seconds and microseconds appended only when nonzero); `off` in
microseconds. -/
def renderOffset (off : Int) : List Char :=
  let sign := if off < 0 then '-' else '+'
  let a := off.natAbs
  let hh := a / 3600000000
  let mm := a % 3600000000 / 60000000
  let ss := a % 60000000 / 1000000
  let us := a % 1000000
  sign :: render2 hh ++ ':' :: render2 mm
    ++ (if ss = 0 ∧ us = 0 then [] else ':' :: render2 ss ++ (if us = 0 then [] else '.' :: render6 us))

/-- Python `str(datetime_value)`: `isoformat(sep=" ")`, microseconds shown
only when nonzero, offset appended for aware values. -/
def pyStrOfDatetime (t : PyDatetime) : List Char :=
  render4 t.year.toNat ++ '-' :: render2 t.month ++ '-' :: render2 t.day
    ++ Char.ofNat 32 :: render2 t.hour ++ ':' :: render2 t.minute ++ ':' :: render2 t.second
    ++ (if t.micro = 0 then [] else '.' :: render6 t.micro)
    ++ (match t.tzOffset with
        | none => []
        | some off => renderOffset off)

/-- Character-class checks of `PREFERRED_FORMAT_REGEX`. -/
def classMonth (c1 c2 : Char) : Bool :=
  (decide (c1 = '0') && c2.isDigit && decide (1 ≤ digitVal c2)) ||
  (decide (c1 = '1') && (decide (c2 = '0') || decide (c2 = '1') || decide (c2 = '2')))

def classDay (c1 c2 : Char) : Bool :=
  (decide (c1 = '0') && c2.isDigit && decide (1 ≤ digitVal c2)) ||
  ((decide (c1 = '1') || decide (c1 = '2')) && c2.isDigit) ||
  (decide (c1 = '3') && (decide (c2 = '0') || decide (c2 = '1')))

def classHour (c1 c2 : Char) : Bool :=
  ((decide (c1 = '0') || decide (c1 = '1')) && c2.isDigit) ||
  (decide (c1 = '2') && c2.isDigit && decide (digitVal c2 ≤ 3))

def classMinSec (c1 c2 : Char) : Bool :=
  c1.isDigit && decide (digitVal c1 ≤ 5) && c2.isDigit

/-- Python `rstrip("Z")`: remove every trailing `Z` (case sensitive). -/
def pyRstripZ (cs : List Char) : List Char :=
  (cs.reverse.dropWhile (fun c => c = 'Z')).reverse

/-- Python `s.rsplit(pat)[0]`: the part of `s` before the first occurrence
of `pat` (the whole of `s` when `pat` does not occur). -/
def takeBeforeFirst (pat : List Char) (cs : List Char) : List Char :=
  match cs with
  | [] => []
  | c :: rest => if List.isPrefixOf pat (c :: rest) then [] else c :: takeBeforeFirst pat rest

/-- The splice of the preferred-format fast path:
`(str_value[:10] + "T" + str_value[11:]).upper().rstrip("Z")
.rsplit("+00:00")[0].rsplit("-00:00")[0] + "Z"`. -/
def spliceValue (cs : List Char) : List Char :=
  let t1 := cs.take 10 ++ 'T' :: cs.drop 11
  let t2 := t1.map pyUpperChar
  let t3 := pyRstripZ t2
  let t4 := takeBeforeFirst ['+', '0', '0', ':', '0', '0'] t3
  let t5 := takeBeforeFirst ['-', '0', '0', ':', '0', '0'] t4
  t5 ++ ['Z']

/-- The `%Y-%m-%d` format (used for the day-of-month validation reparse). -/
def fmtDateOnly : List FTok := [.dY, .lit '-', .dm, .lit '-', .dd]

/-- The fast path of `_transform_value`: `PREFERRED_FORMAT_REGEX.match` —
`none` when the regex does not match, otherwise the branch result.  Note
the unescaped `.` of the source regex between seconds and the six
fractional digits: that position matches any character. -/
def preferredBranch (cs : List Char) : Option (Except PyErr (List Char)) :=
  match cs with
  | y1 :: y2 :: y3 :: y4 :: '-' :: m1 :: m2 :: '-' :: d1 :: d2 :: sep :: h1 :: h2 :: ':'
      :: mi1 :: mi2 :: ':' :: se1 :: se2 :: _dot :: f1 :: f2 :: f3 :: f4 :: f5 :: f6 :: suffix =>
    if y1.isDigit && y2.isDigit && y3.isDigit && y4.isDigit && classMonth m1 m2 && classDay d1 d2
        && (decide (sep = 'T') || decide (sep = 't') || decide (sep = Char.ofNat 32))
        && classHour h1 h2 && classMinSec mi1 mi2 && classMinSec se1 se2
        && f1.isDigit && f2.isDigit && f3.isDigit && f4.isDigit && f5.isDigit && f6.isDigit
        && (decide (suffix = []) || decide (suffix = ['Z']) || decide (suffix = ['z'])
            || decide (suffix = ['+', '0', '0', ':', '0', '0'])
            || decide (suffix = ['-', '0', '0', ':', '0', '0'])) then
      let dayN := digitVal d1 * 10 + digitVal d2
      let monN := digitVal m1 * 10 + digitVal m2
      some (if 30 ≤ dayN ∨ (monN = 2 ∧ 28 ≤ dayN) then
              match strptimeFormat fmtDateOnly (cs.take 10) with
              | none => .error .valueError
              | some _ => .ok (spliceValue cs)
            else .ok (spliceValue cs))
    else none
  | _ => none

/-- Embedding of `NUMERIC_REGEX`:
`^[-]?([0-9]+|[.][0-9]+|[0-9]+[.]|[0-9]+[.][0-9]+)$`. -/
def numericCore (cs : List Char) : Bool :=
  match cs with
  | [] => false
  | '.' :: rest => decide (rest ≠ []) && rest.all Char.isDigit
  | _ =>
    let ds := cs.takeWhile Char.isDigit
    if ds = [] then false
    else
      match cs.drop ds.length with
      | [] => true
      | '.' :: tail => tail.all Char.isDigit
      | _ => false

/-- `_is_numeric`: does the token match `NUMERIC_REGEX`? -/
def _is_numeric (cs : List Char) : Bool :=
  match cs with
  | '-' :: rest => numericCore rest
  | _ => numericCore cs

/-- The guard of the bare-epoch shortcut of `_transform_value`. -/
def numericShortcut (cs : List Char) : Bool :=
  decide (cs ≠ []) && decide (cs.length ≤ 21) && !(cs.contains 'T') && !(cs.contains ':')
    && !(cs.contains '/') && decide (cs.count '-' ≤ 1) && _is_numeric cs

/-- Tagged union of the input values accepted by the engine (the protobuf
and bytes variants are normalized to epoch numbers by `_init_modifier`
before reaching `_transform_value`). -/
inductive Value where
  | str (s : String)
  | int (n : Int)
  | float (q : Q)
  | dt (d : PyDatetime)
  | now
deriving DecidableEq

/-- String pipeline of `_transform_value` (applied after `strip()`): the
bare-numeric shortcut (which replaces the working string by the canonical
rendering of the epoch value), then the preferred-format fast path, then
the `" UTC"` stripping and the strptime format loop, then timezone
collapsing. -/
def transformStr (cs0 : List Char) : Except PyErr (List Char) :=
  let step1 : Except PyErr (List Char) :=
    if numericShortcut cs0 then
      match pyFloatOfStr cs0 with
      | none => .error .valueError
      | some q =>
        match fromtimestampUTC q with
        | none => .error .valueError
        | some t => .ok (renderCanonicalList t)
    else .ok cs0
  match step1 with
  | .error e => .error e
  | .ok cs =>
    match preferredBranch cs with
    | some r => r
    | none =>
      let utc := endsWithUTCsp cs
      let cs2 := if utc then cs.take (cs.length - 4) else cs
      match strptimeLoop _ACCEPTED_INPUT_FORMAT_VALUES cs2 utc with
      | .error e => .error e
      | .ok t =>
        match t.tzOffset with
        | none => .ok (renderCanonicalList t)
        | some _ =>
          match astimezoneUTC t with
          | none => .error .overflowError
          | some t2 => .ok (renderCanonicalList t2)

/-- Embedding of `_transform_value`: normalize any accepted input value to
the canonical RFC 3339 string.  Numeric values go straight through
`fromtimestamp` (exceptions re-raised as `ValueError`); datetime values are
turned into `str(value)` and reparsed; the `NOW` sentinel never reaches
this function in the source (its `str()` would match no format), modelled
as `ValueError`. -/
def _transform_value (v : Value) : Except PyErr (List Char) :=
  match v with
  | .int n =>
    match fromtimestampUTC (qofInt n) with
    | none => .error .valueError
    | some t => .ok (renderCanonicalList t)
  | .float q =>
    match fromtimestampUTC q with
    | none => .error .valueError
    | some t => .ok (renderCanonicalList t)
  | .dt d => transformStr (pyStrip (pyStrOfDatetime d))
  | .str s => transformStr (pyStrip s.data)
  | .now => .error .valueError

/-- The modifier argument of the public operations: `None`, a number, or a
string of the modifier grammar. -/
inductive PyMod where
  | none
  | int (n : Int)
  | float (q : Q)
  | str (s : String)
deriving DecidableEq

/-- Python truthiness of the modifier argument (`not modifier`). -/
def modFalsy : PyMod → Bool
  | .none => true
  | .int n => n == 0
  | .float q => qIsZero q
  | .str s => s.data.isEmpty

/-- Python `s[-n:]` (whole string when it is shorter than `n`). -/
def lastN (n : Nat) (cs : List Char) : List Char := cs.drop (cs.length - n)

/-- Membership of a string in `MODIFIER_MUL`
(`ns`, `us`, `µs`, `ms`, `s`, `m`, `h`, `d`). -/
def inMul (cs : List Char) : Bool :=
  match cs with
  | [c] => decide (c = 's') || decide (c = 'm') || decide (c = 'h') || decide (c = 'd')
  | [a, b] =>
    decide (b = 's') && (decide (a = 'n') || decide (a = 'u') || decide (a = 'µ') || decide (a = 'm'))
  | _ => false

/-- Value of a `MODIFIER_MUL` key, as an exact rational (the source holds
the floats 1e-9, 1e-6, 1e-3 here; the binary64 rounding is elided). -/
def mulVal (cs : List Char) : Q :=
  match cs with
  | ['n', 's'] => qmk 1 1000000000
  | ['u', 's'] => qmk 1 1000000
  | ['µ', 's'] => qmk 1 1000000
  | ['m', 's'] => qmk 1 1000
  | ['s'] => qofInt 1
  | ['m'] => qofInt 60
  | ['h'] => qofInt 3600
  | ['d'] => qofInt 86400
  | _ => qofInt 1

/-- Processing of a string modifier in `_init_modifier_lru`: longest-match
unit suffix detection (`modifier[-2:]` checked before `modifier[-1]`), unit
stripping when preceded by a digit or a dot, then Python `int()` or
`float()` of the remaining number, scaled by the unit multiplier.  `none`
models the `ValueError` of a malformed number (including the `IndexError`
on an empty modifier string). -/
def pmsMulStr (cs : List Char) : List Char :=
  if inMul (lastN 2 cs) = true then lastN 2 cs else lastN 1 cs

def pmsPrevOk (cs m : List Char) : Bool :=
  match cs.get? (cs.length - m.length - 1) with
  | some c => c.isDigit || decide (c = '.')
  | none => false

def pmsStrip (cs m : List Char) : Bool :=
  decide (1 < cs.length) && inMul m && decide (m.length < cs.length) && pmsPrevOk cs m

def parseModStr (cs : List Char) : Option Q :=
  if cs = [] then none
  else
    let m := pmsMulStr cs
    let strip := pmsStrip cs m
    let numPart := if strip = true then cs.take (cs.length - m.length) else cs
    let mul := if strip = true then mulVal m else qofInt 1
    if numPart.contains '.' = true then
      match pyFloatOfStr numPart with
      | none => none
      | some q => some (qmul q mul)
    else
      match pyIntOfStr numPart with
      | none => none
      | some n => some (qmul (qofInt n) mul)

/-- Python `str.lower()` of a string (ASCII). -/
def pyLowerStr (cs : List Char) : List Char := cs.map pyLowerChar

/-- Embedding of `_init_modifier_lru`: reinterpret a `+`/`-`-prefixed
unit-suffixed string value as a modifier against "now", default the
modifier to 0, parse string modifiers, and collapse case variants of
`"now"` and `"today"` to the `NOW` sentinel. -/
def _init_modifier_lru (value : Value) (modifier : PyMod) : Except PyErr (Value × Q) :=
  let vm : Value × PyMod :=
    match value with
    | .str s =>
      match s.data with
      | [] => (value, modifier)
      | c :: _ =>
        if ((c = '+' ∨ c = '-') ∧ modFalsy modifier = true
            ∧ (inMul (lastN 1 s.data) = true ∨ inMul (lastN 2 s.data) = true)) then
          (Value.now, PyMod.str s)
        else (value, modifier)
    | _ => (value, modifier)
  let m2 : PyMod := match vm.2 with | .none => .int 0 | m => m
  let mq : Except PyErr Q :=
    match m2 with
    | .none => .ok (qofInt 0)
    | .int n => .ok (qofInt n)
    | .float q => .ok q
    | .str s =>
      match parseModStr s.data with
      | none => .error .valueError
      | some q => .ok q
  match mq with
  | .error e => .error e
  | .ok q =>
    let v3 : Value :=
      match vm.1 with
      | .str s =>
        if pyLowerStr s.data = "now".data ∨ pyLowerStr s.data = "today".data then Value.now
        else .str s
      | v => v
    .ok (v3, q)

/-- Embedding of `_init_modifier` (the protobuf-message normalization of
the wrapper is `_init_modifier_pb` below). -/
def _init_modifier (value : Value) (modifier : PyMod) : Except PyErr (Value × Q) :=
  _init_modifier_lru value modifier

/-- The `TimestampProtobufMessage` branch of `_init_modifier`: the message
becomes the epoch number `seconds + round(nanos * 1e-9, 9)`. -/
def _init_modifier_pb (seconds nanos : Int) (modifier : PyMod) : Except PyErr (Value × Q) :=
  _init_modifier_lru (.float (qadd (qofInt seconds) (qmk nanos 1000000000))) modifier

/-- State of the `TimeSynchronizer` machinery: the main singleton flag and
frozen time, the identity of the current `_controller` child, and the
per-child `_frozen` flags and candidate times.  `_datetime` is derived
from `_time_ns` (the source keeps both in lockstep). -/
structure SyncSt where
  mainFrozen : Bool
  controller : Option Nat
  mainTimeNs : Int
  nextId : Nat
  children : List (Nat × Bool × Int)
deriving DecidableEq

def initialSyncSt : SyncSt := ⟨false, none, 0, 0, []⟩

def childLookup (st : SyncSt) (cid : Nat) : Option (Bool × Int) :=
  (st.children.find? (fun p => p.1 == cid)).map (fun p => p.2)

def setChildFrozen (children : List (Nat × Bool × Int)) (cid : Nat) : List (Nat × Bool × Int) :=
  children.map (fun p => if p.1 == cid then (p.1, true, p.2.2) else p)

/-- `TimeSynchronizer.__call__` on the main synchronizer: constructing a
new pending child.  Raises `RuntimeError` when a context is already active
(test: "cannot be nested"); otherwise the new child becomes the
`_controller`.  The candidate time (computed by the source from the value,
modifier and clock before being stored) is passed in as `candTimeNs`. -/
def syncCall (st : SyncSt) (candTimeNs : Int) : Except PyErr (SyncSt × Nat) :=
  if st.mainFrozen then .error .runtimeError
  else
    .ok ({ st with controller := some st.nextId, nextId := st.nextId + 1, children := (st.nextId, false, candTimeNs) :: st.children }, st.nextId)

/-- `TimeSynchronizer.__enter__` on a child handle: rejects an already
frozen child (deactivated, i.e. previously entered) or an already frozen
main (nested context); rejects a child that is no longer the
`_controller` (expired); otherwise freezes the child, copies its time into
the main synchronizer and freezes it. -/
def syncEnterChild (st : SyncSt) (cid : Nat) : Except PyErr SyncSt :=
  match childLookup st cid with
  | none => .error .runtimeError
  | some (cfrozen, ctime) =>
    if cfrozen = true ∨ st.mainFrozen = true then .error .runtimeError
    else if st.controller ≠ some cid then .error .runtimeError
    else
      .ok { st with mainFrozen := true, mainTimeNs := ctime, children := setChildFrozen st.children cid }

/-- `TimeSynchronizer.__enter__` on the main synchronizer: rejects nesting;
expires a still-pending controller child; freezes at the current clock
when no controller remains. -/
def syncEnterMain (st : SyncSt) (clockNs : Int) : Except PyErr SyncSt :=
  if st.mainFrozen then .error .runtimeError
  else
    let st1 :=
      match st.controller with
      | some cid =>
        match childLookup st cid with
        | some (false, _) => { st with controller := none }
        | _ => st
      | none => st
    let st2 :=
      if st1.controller = none then
        { st1 with mainTimeNs := qroundHalfEven (qmk clockNs 1000) * 1000 }
      else st1
    .ok { st2 with mainFrozen := true }

/-- `TimeSynchronizer.__exit__` on a child handle. -/
def syncExitChild (st : SyncSt) (cid : Nat) : SyncSt :=
  if st.controller = some cid ∧ st.mainFrozen = true then
    { st with mainFrozen := false, controller := none }
  else st

/-- `TimeSynchronizer.__exit__` on the main synchronizer. -/
def syncExitMain (st : SyncSt) : SyncSt :=
  if st.mainFrozen = true then { st with mainFrozen := false, controller := none } else st

/-- Child status as printed by `__repr__`: deactivated means entered in the
past and no longer the controller. -/
def childDeactivated (st : SyncSt) (cid : Nat) : Prop :=
  (∃ t, childLookup st cid = some (true, t)) ∧ st.controller ≠ some cid

/-- Child status as printed by `__repr__`: expired means never activated
and superseded as controller. -/
def childExpired (st : SyncSt) (cid : Nat) : Prop :=
  (∃ t, childLookup st cid = some (false, t)) ∧ st.controller ≠ some cid

/-- `synchronizer.time_ns`: the frozen nanosecond count, or the live clock
truncated to microsecond granularity. -/
def syncTimeNs (st : SyncSt) (clockNs : Int) : Int :=
  if st.mainFrozen then st.mainTimeNs else qroundHalfEven (qmk clockNs 1000) * 1000

/-- `synchronizer.time`: `round(time_ns * 1e-9, 6)`. -/
def syncTime (st : SyncSt) (clockNs : Int) : Q :=
  qround6 (qmk (syncTimeNs st clockNs) 1000000000)

/-- `synchronizer.datetime`: the frozen datetime, or `datetime.now(UTC)`. -/
def syncDatetime (st : SyncSt) (clockNs : Int) : Option PyDatetime :=
  fromtimestampUTC (syncTime st clockNs)

/-- `datetime + timedelta(seconds=q)`: the timedelta is rounded half-even
to whole microseconds; a result outside years 1..9999 overflows
(modelled as `none`). -/
def dtAddSeconds (t : PyDatetime) (q : Q) : Option PyDatetime :=
  let dUs := qroundHalfEven (qmul q (qofInt 1000000))
  let us := dtMicros t + dUs
  let t2 := microsToDTfields us
  if 1 ≤ t2.year ∧ t2.year ≤ 9999 then some { t2 with tzOffset := t.tzOffset } else none

/-- The canonical reparse format `"%Y-%m-%dT%H:%M:%S.%f%z"` used by
`_timestamp_to_datetime`. -/
def fmtCanonical : List FTok :=
  [.dY, .lit '-', .dm, .lit '-', .dd, .lit 'T', .dH, .lit ':', .dM, .lit ':', .dS, .lit '.', .df, .dz]

/-- Embedding of `_timestamp_to_datetime`: canonicalize, then reparse the
canonical string with the fixed canonical format. -/
def _timestamp_to_datetime (value : Value) : Except PyErr PyDatetime :=
  match _transform_value value with
  | .error e => .error e
  | .ok cs =>
    match strptimeFormat fmtCanonical cs with
    | none => .error .valueError
    | some t => .ok t

/-- Embedding of `_timestamp_to_unixtime`: `.timestamp()` of the parsed
canonical datetime. -/
def _timestamp_to_unixtime (value : Value) : Except PyErr Q :=
  match _timestamp_to_datetime value with
  | .error e => .error e
  | .ok t => .ok (dtTimestamp t)

/-- Embedding of `_unixtime_to_protobuf`: split a float epoch into the
`(seconds, nanos)` pair of a `google.protobuf.Timestamp`. -/
def _unixtime_to_protobuf (u : Q) : Int × Int :=
  let seconds := qtrunc u
  let nanos := qroundHalfEven (qmul (qsub u (qofInt seconds)) (qofInt 1000000)) * 1000
  if nanos < 0 then (seconds - 1, nanos + 1000000000) else (seconds, nanos)

/-- Embedding of `utcnow.rfc3339_timestamp` (equally `utcnow.as_string`,
the module call, …): the state of the synchronizer and the live clock (in
nanoseconds) are explicit parameters. -/
def rfc3339_timestamp (st : SyncSt) (clockNs : Int) (value : Value) (modifier : PyMod) :
    Except PyErr (List Char) :=
  match _init_modifier value modifier with
  | .error e => .error e
  | .ok (v, mq) =>
    match v with
    | .now =>
      match syncDatetime st clockNs with
      | none => .error .overflowError
      | some t =>
        if qIsZero mq then .ok (renderCanonicalList t)
        else
          match dtAddSeconds t mq with
          | none => .error .overflowError
          | some t2 => .ok (renderCanonicalList t2)
    | _ =>
      if qIsZero mq then _transform_value v
      else
        match _timestamp_to_unixtime v with
        | .error e => .error e
        | .ok u => _transform_value (.float (qadd u mq))

/-- Embedding of `utcnow.as_datetime`. -/
def as_datetime (st : SyncSt) (clockNs : Int) (value : Value) (modifier : PyMod) :
    Except PyErr PyDatetime :=
  match _init_modifier value modifier with
  | .error e => .error e
  | .ok (v, mq) =>
    match v with
    | .now =>
      match syncDatetime st clockNs with
      | none => .error .overflowError
      | some t =>
        if qIsZero mq then .ok t
        else
          match dtAddSeconds t mq with
          | none => .error .overflowError
          | some t2 => .ok t2
    | _ =>
      match _timestamp_to_datetime v with
      | .error e => .error e
      | .ok t =>
        if qIsZero mq then .ok t
        else
          match dtAddSeconds t mq with
          | none => .error .overflowError
          | some t2 => .ok t2

/-- Embedding of `utcnow.as_unixtime`. -/
def as_unixtime (st : SyncSt) (clockNs : Int) (value : Value) (modifier : PyMod) :
    Except PyErr Q :=
  match _init_modifier value modifier with
  | .error e => .error e
  | .ok (v, mq) =>
    match v with
    | .now => .ok (qadd (syncTime st clockNs) mq)
    | _ =>
      match _timestamp_to_unixtime v with
      | .error e => .error e
      | .ok u => .ok (qadd u mq)

/-- Embedding of `utcnow.as_protobuf`. -/
def as_protobuf (st : SyncSt) (clockNs : Int) (value : Value) (modifier : PyMod) :
    Except PyErr (Int × Int) :=
  match _init_modifier value modifier with
  | .error e => .error e
  | .ok (v, mq) =>
    match v with
    | .now => .ok (_unixtime_to_protobuf (qadd (syncTime st clockNs) mq))
    | _ =>
      match _timestamp_to_unixtime v with
      | .error e => .error e
      | .ok u => .ok (_unixtime_to_protobuf (qadd u mq))

/-- Embedding of `utcnow.timediff`: when the synchronizer is not frozen the
two endpoint conversions run inside a freshly entered main-synchronizer
scope (so that two "now" endpoints observe one clock reading); the delta of
the two datetimes (exact, in microseconds) is then scaled by the requested
unit. -/
def timediffChain (ts : Q) (u : List Char) : Except PyErr Q :=
  if u ∈ ["nanoseconds".data, "nanosecond".data, "nsec".data, "ns".data, "nanos".data,
      "nano".data, "nanosec".data] then
    .ok (qofInt (qtrunc (qmul ts (qofInt 1000000)) * 1000))
  else if u ∈ ["microseconds".data, "microsecond".data, "usec".data, "us".data, "micros".data,
      "micro".data, "microsec".data, "µs".data] then
    .ok (qmul ts (qofInt 1000000))
  else if u ∈ ["milliseconds".data, "millisecond".data, "msec".data, "ms".data, "millis".data,
      "milli".data, "millisec".data] then
    .ok (qmul ts (qofInt 1000))
  else if u ∈ ["seconds".data, "second".data, "sec".data, "s".data] then
    .ok ts
  else if u ∈ ["minutes".data, "minute".data, "min".data, "m".data] then
    .ok (qdiv ts (qofInt 60))
  else if u ∈ ["hours".data, "hour".data, "h".data] then
    .ok (qdiv ts (qofInt 3600))
  else if u ∈ ["days".data, "day".data, "d".data] then
    .ok (qdiv ts (qofInt 86400))
  else if u ∈ ["weeks".data, "week".data, "w".data] then
    .ok (qdiv ts (qofInt (86400 * 7)))
  else .error .valueError

def timediff (st : SyncSt) (clockNs : Int) (bval eval2 : Value) (unit : String) :
    Except PyErr Q :=
  let stx : SyncSt :=
    if st.mainFrozen = false then
      match syncEnterMain st clockNs with
      | .ok s => s
      | .error _ => st
    else st
  match as_datetime stx clockNs eval2 (.int 0), as_datetime stx clockNs bval (.int 0) with
  | .error e, _ => .error e
  | _, .error e => .error e
  | .ok tEnd, .ok tBegin =>
    timediffChain (qmk (dtEpochMicros tEnd - dtEpochMicros tBegin) 1000000)
      (pyLowerStr unit.data)

/-- Python `str.upper()` of a string (ASCII). -/
def pyUpperStr (cs : List Char) : List Char := cs.map pyUpperChar

/-- Embedding of `_timezone_from_string`: UTC synonyms, or a `±HH:MM` /
`±HHMM` offset, with the exactly-24-hour offset clamped to one microsecond
less than a day; the result is the offset in microseconds (`none` when the
token is not recognized). -/
def _timezone_from_string (cs : List Char) : Option Int :=
  if pyUpperStr cs ∈ ["UTC".data, "GMT".data, "UTC+0".data, "UTC-0".data, "GMT+0".data,
      "GMT-0".data, "Z".data, "ZULU".data, "00:00".data, "+00:00".data, "-00:00".data,
      "0000".data, "+0000".data, "-0000".data] then
    some 0
  else
    match cs with
    | c :: rest =>
      if c = '+' ∨ c = '-' then
        let sign : Int := if c = '+' then 1 else -1
        match rest with
        | [h1, h2, ':', m1, m2] =>
          if h1.isDigit ∧ h2.isDigit ∧ m1.isDigit ∧ m2.isDigit then
            let mins := (digitVal h1 * 10 + digitVal h2) * 60 + digitVal m1 * 10 + digitVal m2
            let us : Int := if mins = 1440 then 86399999999 else (mins : Int) * 60000000
            if us < 86400000000 then some (sign * us) else none
          else none
        | [h1, h2, m1, m2] =>
          if h1.isDigit ∧ h2.isDigit ∧ m1.isDigit ∧ m2.isDigit then
            let mins := (digitVal h1 * 10 + digitVal h2) * 60 + digitVal m1 * 10 + digitVal m2
            let us : Int := if mins = 1440 then 86399999999 else (mins : Int) * 60000000
            if us < 86400000000 then some (sign * us) else none
          else none
        | _ => none
      else none
    | [] => none

/-- The timezone argument of `as_date_string` / `today`. -/
inductive TzArg where
  | noTz
  | tzinfo (offUs : Int)
  | str (s : String)
deriving DecidableEq

/-- Model of `datetime.fromtimestamp(t, tz)` for a fixed-offset timezone:
UTC fields shifted by the offset (year range enforced). -/
def fromtimestampTz (q : Q) (offUs : Int) : Option PyDatetime :=
  let us := qroundHalfEven (qmul q (qofInt 1000000)) + offUs
  let t := microsToDTfields us
  if 1 ≤ t.year ∧ t.year ≤ 9999 then some { t with tzOffset := some offUs } else none

/-- Model of `astimezone(tz)` for a fixed-offset timezone. -/
def astimezoneTz (t : PyDatetime) (offUs : Int) : Option PyDatetime :=
  let us := dtEpochMicros t + offUs
  let t2 := microsToDTfields us
  if 1 ≤ t2.year ∧ t2.year ≤ 9999 then some { t2 with tzOffset := some offUs } else none

/-- `date().isoformat()`: the `YYYY-MM-DD` projection. -/
def renderDateList (t : PyDatetime) : List Char :=
  render4 t.year.toNat ++ '-' :: render2 t.month ++ '-' :: render2 t.day

/-- Embedding of `utcnow.as_date_string` (and thereby `utcnow.today`,
which is `as_date_string` with the value left unset). -/
def as_date_string (st : SyncSt) (clockNs : Int) (value : Value) (tz : TzArg) :
    Except PyErr (List Char) :=
  let dateTz : Option Int :=
    match tz with
    | .noTz => some 0
    | .tzinfo off => some off
    | .str s => if s.data = [] then some 0 else _timezone_from_string s.data
  match dateTz with
  | none => .error .valueError
  | some off =>
    match value with
    | .now =>
      match fromtimestampTz (syncTime st clockNs) off with
      | none => .error .overflowError
      | some t => .ok (renderDateList t)
    | .str s =>
      if pyLowerStr s.data = "now".data ∨ pyLowerStr s.data = "today".data then
        match fromtimestampTz (syncTime st clockNs) off with
        | none => .error .overflowError
        | some t => .ok (renderDateList t)
      else
        match _timestamp_to_datetime value with
        | .error e => .error e
        | .ok t =>
          match astimezoneTz t off with
          | none => .error .overflowError
          | some t2 => .ok (renderDateList t2)
    | _ =>
      match _timestamp_to_datetime value with
      | .error e => .error e
      | .ok t =>
        match astimezoneTz t off with
        | none => .error .overflowError
        | some t2 => .ok (renderDateList t2)

theorem int_cast_le_rat {x y : Int} (h : x ≤ y) : ((x : Int) : Rat) ≤ ((y : Int) : Rat) := by
  exact_mod_cast h

theorem int_cast_lt_rat {x y : Int} (h : x < y) : ((x : Int) : Rat) < ((y : Int) : Rat) := by
  exact_mod_cast h

theorem qtrunc_bounds (a : Q) (hd : a.den ≠ 0) :
    (qtrunc a : Rat) - 1 < toRat a ∧ toRat a < (qtrunc a : Rat) + 1 := by
  have hdQ : (0 : Rat) < ((a.den : Nat) : Rat) := by
    exact_mod_cast Nat.pos_of_ne_zero hd
  have hdne : ((a.den : Int)) ≠ 0 := by exact_mod_cast hd
  have hdpos : (0 : Int) < (a.den : Int) := by exact_mod_cast Nat.pos_of_ne_zero hd
  unfold qtrunc toRat
  by_cases hn : a.num < 0
  · simp only [hn, if_true]
    have hk := Int.ediv_add_emod (-a.num) (a.den : Int)
    have hk1 : 0 ≤ (-a.num) % (a.den : Int) := Int.emod_nonneg _ hdne
    have hk2 : (-a.num) % (a.den : Int) < (a.den : Int) := Int.emod_lt_of_pos _ hdpos
    set k := (-a.num) / (a.den : Int) with hkdef
    have hz1 : (a.den : Int) * (-k - 1) < a.num := by linarith
    have hz2 : a.num ≤ (a.den : Int) * (-k) := by linarith
    have hq1 : ((-k : Int) : Rat) - 1 < ((a.num : Int) : Rat) / ((a.den : Nat) : Rat) := by
      have hstep : ((-k - 1 : Int) : Rat) < ((a.num : Int) : Rat) / ((a.den : Nat) : Rat) := by
        rw [lt_div_iff hdQ]
        have := int_cast_lt_rat hz1
        push_cast at this ⊢
        nlinarith
      push_cast at hstep ⊢
      linarith
    have hq2 : ((a.num : Int) : Rat) / ((a.den : Nat) : Rat) < ((-k : Int) : Rat) + 1 := by
      rw [div_lt_iff hdQ]
      have := int_cast_le_rat hz2
      push_cast at this ⊢
      nlinarith
    constructor
    · push_cast at hq1 ⊢
      linarith
    · push_cast at hq2 ⊢
      linarith
  · simp only [hn, if_false]
    have hk := Int.ediv_add_emod a.num (a.den : Int)
    have hk1 : 0 ≤ a.num % (a.den : Int) := Int.emod_nonneg _ hdne
    have hk2 : a.num % (a.den : Int) < (a.den : Int) := Int.emod_lt_of_pos _ hdpos
    set k := a.num / (a.den : Int) with hkdef
    have hz1 : (a.den : Int) * (k - 1) < a.num := by linarith
    have hz2 : a.num < (a.den : Int) * (k + 1) := by linarith
    have hq1 : ((k : Int) : Rat) - 1 < ((a.num : Int) : Rat) / ((a.den : Nat) : Rat) := by
      have hstep : ((k - 1 : Int) : Rat) < ((a.num : Int) : Rat) / ((a.den : Nat) : Rat) := by
        rw [lt_div_iff hdQ]
        have := int_cast_lt_rat hz1
        push_cast at this ⊢
        nlinarith
      push_cast at hstep ⊢
      linarith
    have hq2 : ((a.num : Int) : Rat) / ((a.den : Nat) : Rat) < ((k : Int) : Rat) + 1 := by
      rw [div_lt_iff hdQ]
      have := int_cast_lt_rat hz2
      push_cast at this ⊢
      nlinarith
    constructor
    · push_cast at hq1 ⊢
      linarith
    · push_cast at hq2 ⊢
      linarith

theorem qroundHalfEven_le (a : Q) (hd : a.den ≠ 0) (bound : Int)
    (h : toRat a < (bound : Rat)) : qroundHalfEven a ≤ bound := by
  obtain ⟨h1, h2⟩ := qround_bounds a
  have hf : qfloor a = ⌊toRat a⌋ := qfloor_eq a hd
  have hlt : ⌊toRat a⌋ < bound := by
    rw [Int.floor_lt]
    exact h
  omega

theorem qroundHalfEven_ge (a : Q) (hd : a.den ≠ 0) (bound : Int)
    (h : (bound : Rat) ≤ toRat a) : bound ≤ qroundHalfEven a := by
  obtain ⟨h1, h2⟩ := qround_bounds a
  have hf : qfloor a = ⌊toRat a⌋ := qfloor_eq a hd
  have hle : bound ≤ ⌊toRat a⌋ := Int.le_floor.mpr h
  omega

/-- Bounds of the extracted nanosecond component before the negative-carry
branch: for any float epoch value the rounded microsecond remainder times
1000 lies in `[-10^9, 10^9]`. -/
theorem unixtime_nanos_pre_bounds (u : Q) (hd : u.den ≠ 0) :
    -1000000000 ≤ qroundHalfEven (qmul (qsub u (qofInt (qtrunc u))) (qofInt 1000000)) * 1000 ∧
    qroundHalfEven (qmul (qsub u (qofInt (qtrunc u))) (qofInt 1000000)) * 1000 ≤ 1000000000 := by
  obtain ⟨hb1, hb2⟩ := qtrunc_bounds u hd
  have hsub : toRat (qsub u (qofInt (qtrunc u))) = toRat u - ((qtrunc u : Int) : Rat) := by
    rw [toRat_qsub u (qofInt (qtrunc u)) hd (by unfold qofInt; norm_num), toRat_qofInt]
  have hmul : toRat (qmul (qsub u (qofInt (qtrunc u))) (qofInt 1000000))
      = (toRat u - ((qtrunc u : Int) : Rat)) * 1000000 := by
    rw [toRat_qmul _ _ (by have := qsub_den_pos u (qofInt (qtrunc u)); omega)
      (by unfold qofInt; norm_num), hsub, toRat_qofInt]
    norm_num
  have hdm : (qmul (qsub u (qofInt (qtrunc u))) (qofInt 1000000)).den ≠ 0 := by
    have := qmul_den_pos (qsub u (qofInt (qtrunc u))) (qofInt 1000000)
    omega
  constructor
  · have hge := qroundHalfEven_ge (qmul (qsub u (qofInt (qtrunc u))) (qofInt 1000000)) hdm
      (-1000000) (by
        rw [hmul]
        push_cast
        nlinarith)
    omega
  · have hle := qroundHalfEven_le (qmul (qsub u (qofInt (qtrunc u))) (qofInt 1000000)) hdm
      1000000 (by
        rw [hmul]
        push_cast
        nlinarith)
    omega

/-- C6, counterexample: the claim "nanos is always in the half-open
interval [0, 1e9)" fails at the float epoch value 0.9999999, whose wire
split is `(seconds = 0, nanos = 1000000000)`: the fractional remainder
0.9999999 s is rounded to a full 1000000 microseconds, so nanos reaches
the closed upper bound 10^9. -/
theorem claimC6_counterexample :
    _unixtime_to_protobuf (qmk 9999999 10000000) = (0, 1000000000) ∧
    ¬((_unixtime_to_protobuf (qmk 9999999 10000000)).2 < 1000000000) := by
  constructor
  · decide
  · decide

/-- C6, amended: for every float epoch value, the wire-format split
`_unixtime_to_protobuf` yields nanos in the closed interval [0, 1e9] (the
upper bound 10^9 itself is reachable, see the counterexample), for
negative instants the fractional remainder is folded forward with one
second borrowed, and nanos is always an integer multiple of 1000. -/
theorem claimC6_nanos_bounds (u : Q) (hd : 0 < u.den) :
    0 ≤ (_unixtime_to_protobuf u).2 ∧ (_unixtime_to_protobuf u).2 ≤ 1000000000 ∧
    (_unixtime_to_protobuf u).2 % 1000 = 0 := by
  obtain ⟨hlo, hhi⟩ := unixtime_nanos_pre_bounds u (by omega)
  unfold _unixtime_to_protobuf
  by_cases hneg :
      qroundHalfEven (qmul (qsub u (qofInt (qtrunc u))) (qofInt 1000000)) * 1000 < 0
  · simp only [hneg, if_true]
    omega
  · simp only [hneg, if_false]
    omega

/-- C6, witness for the amended bounds at the concrete value 0.5. -/
theorem claimC6_nanos_bounds_witness :
    0 < (qmk 1 2).den ∧
    (0 ≤ (_unixtime_to_protobuf (qmk 1 2)).2 ∧ (_unixtime_to_protobuf (qmk 1 2)).2 ≤ 1000000000 ∧
     (_unixtime_to_protobuf (qmk 1 2)).2 % 1000 = 0) :=
  ⟨by decide, claimC6_nanos_bounds (qmk 1 2) (by decide)⟩

/-- C8: synchronizer lifecycle errors.  Entering a deactivated or expired
child handle raises `RuntimeError`; while a context is active (the main
synchronizer is frozen), entering any child, entering the main
synchronizer, and constructing a new child via `__call__` all raise
`RuntimeError` immediately. -/
theorem claimC8_lifecycle (st : SyncSt) (cid : Nat) (clockNs candNs : Int) :
    (childDeactivated st cid ∨ childExpired st cid →
      syncEnterChild st cid = .error .runtimeError) ∧
    (st.mainFrozen = true →
      syncEnterChild st cid = .error .runtimeError ∧
      syncEnterMain st clockNs = .error .runtimeError ∧
      syncCall st candNs = .error .runtimeError) := by
  constructor
  · rintro (⟨⟨t, hl⟩, hc⟩ | ⟨⟨t, hl⟩, hc⟩)
    · unfold syncEnterChild
      rw [hl]
      simp
    · unfold syncEnterChild
      rw [hl]
      by_cases hm : st.mainFrozen = true
      · simp [hm]
      · simp [hm, hc]
  · intro hm
    refine ⟨?_, ?_, ?_⟩
    · unfold syncEnterChild
      cases hl : childLookup st cid with
      | none => rfl
      | some p =>
        obtain ⟨f, t⟩ := p
        simp [hm]
    · unfold syncEnterMain
      simp [hm]
    · unfold syncCall
      simp [hm]

/-- C8, witness: after `call`, `enter`, `exit` the child
(state `⟨false, none, 5000, 1, [(0, true, 5000)]⟩`) is deactivated and
re-entering it errors; in the active state `⟨true, some 0, 5000, 1,
[(0, true, 5000)]⟩` entering a child, entering main and calling all
error. -/
theorem claimC8_lifecycle_witness :
    ((childDeactivated ⟨false, none, 5000, 1, [(0, true, 5000)]⟩ 0 ∨
      childExpired ⟨false, none, 5000, 1, [(0, true, 5000)]⟩ 0) ∧
     syncEnterChild ⟨false, none, 5000, 1, [(0, true, 5000)]⟩ 0 = .error .runtimeError) ∧
    ((⟨true, some 0, 5000, 1, [(0, true, 5000)]⟩ : SyncSt).mainFrozen = true ∧
     (syncEnterChild ⟨true, some 0, 5000, 1, [(0, true, 5000)]⟩ 0 = .error .runtimeError ∧
      syncEnterMain ⟨true, some 0, 5000, 1, [(0, true, 5000)]⟩ 77 = .error .runtimeError ∧
      syncCall ⟨true, some 0, 5000, 1, [(0, true, 5000)]⟩ 99 = .error .runtimeError)) := by
  have hdeact : childDeactivated ⟨false, none, 5000, 1, [(0, true, 5000)]⟩ 0 :=
    ⟨⟨5000, by decide⟩, by decide⟩
  refine ⟨⟨Or.inl hdeact, ?_⟩, by decide, ?_⟩
  · exact (claimC8_lifecycle ⟨false, none, 5000, 1, [(0, true, 5000)]⟩ 0 0 0).1 (Or.inl hdeact)
  · exact (claimC8_lifecycle ⟨true, some 0, 5000, 1, [(0, true, 5000)]⟩ 0 77 99).2 (by decide)

theorem init_modifier_sentinel (s : String) (m : PyMod)
    (h : pyLowerStr s.data = "now".data ∨ pyLowerStr s.data = "today".data) :
    _init_modifier (.str s) m = _init_modifier .now m := by
  unfold _init_modifier _init_modifier_lru
  match hs : s.data with
  | [] =>
    exfalso
    rw [hs] at h
    rcases h with h | h <;> simp [pyLowerStr] at h
  | c :: rest =>
    rw [hs] at h
    have hc : ¬((c = '+' ∨ c = '-') ∧ modFalsy m = true
        ∧ (inMul (lastN 1 (c :: rest)) = true ∨ inMul (lastN 2 (c :: rest)) = true)) := by
      rintro ⟨hpm, -, -⟩
      rcases h with h | h <;> rcases hpm with rfl | rfl <;>
        simp [pyLowerStr, pyLowerChar] at h <;> omega
    simp only [hs, hc, if_false, if_neg hc]
    have hsent :
        (pyLowerStr (c :: rest) = "now".data ∨ pyLowerStr (c :: rest) = "today".data) := h
    simp only [hsent, if_pos hsent]
    simp

/-- C10: every letter-case variant of "now" and "today" passed as the value
argument of the public conversion operations is treated as the `NOW`
sentinel, giving the same result as the sentinel itself under the same
synchronizer state and clock reading. -/
theorem claimC10_sentinel_case (s : String) (st : SyncSt) (clockNs : Int) (m : PyMod)
    (tz : TzArg)
    (h : pyLowerStr s.data = "now".data ∨ pyLowerStr s.data = "today".data) :
    rfc3339_timestamp st clockNs (.str s) m = rfc3339_timestamp st clockNs .now m ∧
    as_datetime st clockNs (.str s) m = as_datetime st clockNs .now m ∧
    as_unixtime st clockNs (.str s) m = as_unixtime st clockNs .now m ∧
    as_protobuf st clockNs (.str s) m = as_protobuf st clockNs .now m ∧
    as_date_string st clockNs (.str s) tz = as_date_string st clockNs .now tz := by
  have hinit := init_modifier_sentinel s m h
  refine ⟨?_, ?_, ?_, ?_, ?_⟩
  · unfold rfc3339_timestamp
    rw [hinit]
  · unfold as_datetime
    rw [hinit]
  · unfold as_unixtime
    rw [hinit]
  · unfold as_protobuf
    rw [hinit]
  · unfold as_date_string
    simp only [h, if_pos h]
    simp

/-- C10, witness at the concrete variants "NOW" (and implicitly via the
theorem, any state): the five operations agree with the sentinel. -/
theorem claimC10_sentinel_case_witness :
    (pyLowerStr "NOW".data = "now".data ∨ pyLowerStr "NOW".data = "today".data) ∧
    (rfc3339_timestamp initialSyncSt 0 (.str "NOW") (.int 0)
       = rfc3339_timestamp initialSyncSt 0 .now (.int 0) ∧
     as_datetime initialSyncSt 0 (.str "NOW") (.int 0)
       = as_datetime initialSyncSt 0 .now (.int 0) ∧
     as_unixtime initialSyncSt 0 (.str "NOW") (.int 0)
       = as_unixtime initialSyncSt 0 .now (.int 0) ∧
     as_protobuf initialSyncSt 0 (.str "NOW") (.int 0)
       = as_protobuf initialSyncSt 0 .now (.int 0) ∧
     as_date_string initialSyncSt 0 (.str "NOW") .noTz
       = as_date_string initialSyncSt 0 .now .noTz) :=
  ⟨Or.inl (by decide),
   claimC10_sentinel_case "NOW" initialSyncSt 0 (.int 0) .noTz (Or.inl (by decide))⟩

theorem digit_ne (c x : Char) (h : c.isDigit = true) (hx : x.isDigit = false) : ¬(c = x) := by
  intro heq
  rw [heq] at h
  rw [h] at hx
  cases hx

theorem allDigits_not_contains_dot (ds : List Char) (h : ds.all Char.isDigit = true) :
    ds.contains '.' = false := by
  induction ds with
  | nil => rfl
  | cons c rest ih =>
    simp only [List.all_cons, Bool.and_eq_true] at h
    have hc : ¬('.' = c) := fun heq => digit_ne c '.' h.1 (by decide) heq.symm
    simp only [List.contains_cons, Bool.or_eq_false_iff]
    constructor
    · simp [hc]
    · exact ih h.2

theorem lastN_suffix (xs ys : List Char) : lastN ys.length (xs ++ ys) = ys := by
  unfold lastN
  have h : (xs ++ ys).length - ys.length = xs.length := by
    simp [List.length_append]
  rw [h, List.drop_left]

theorem inMul_digit_unit1 (lc u : Char) (hlc : lc.isDigit = true) :
    inMul [lc, u] = false := by
  have h1 : ¬(lc = 'n') := digit_ne lc 'n' hlc (by decide)
  have h2 : ¬(lc = 'u') := digit_ne lc 'u' hlc (by decide)
  have h3 : ¬(lc = 'µ') := digit_ne lc 'µ' hlc (by decide)
  have h4 : ¬(lc = 'm') := digit_ne lc 'm' hlc (by decide)
  unfold inMul
  simp [h1, h2, h3, h4]

/-- Result of Python `int()` on a signed digit string, as used by the
modifier parser. -/
def signedVal (sgn : Char) (ds : List Char) : Int :=
  if sgn = '-' then -(digitsVal ds : Int) else (digitsVal ds : Int)

theorem pyIntOfStr_signed (sgn : Char) (ds : List Char) (hsgn : sgn = '+' ∨ sgn = '-')
    (hne : ds ≠ []) (hdig : ds.all Char.isDigit = true) :
    pyIntOfStr (sgn :: ds) = some (signedVal sgn ds) := by
  rcases hsgn with rfl | rfl
  · unfold pyIntOfStr signedVal
    simp [hne, hdig]
  · unfold pyIntOfStr signedVal
    simp [hne, hdig]

theorem get_q_mid (l : List Char) (e : Char) (rest : List Char) :
    (l ++ e :: rest).get? l.length = some e := by
  induction l with
  | nil => rfl
  | cons x xs ih => exact ih

theorem pmsMulStr_unit2 (sgn : Char) (ds : List Char) (a b : Char)
    (hin : inMul [a, b] = true) :
    pmsMulStr (sgn :: ds ++ [a, b]) = [a, b] := by
  have hlast2 : lastN 2 (sgn :: ds ++ [a, b]) = [a, b] := lastN_suffix (sgn :: ds) [a, b]
  unfold pmsMulStr
  rw [hlast2, if_pos hin]

theorem pmsStrip_unit2 (sgn : Char) (ds : List Char) (a b : Char)
    (hne : ds ≠ []) (hdig : ds.all Char.isDigit = true) (hin : inMul [a, b] = true) :
    pmsStrip (sgn :: ds ++ [a, b]) [a, b] = true := by
  have hlen : (sgn :: ds ++ [a, b]).length = ds.length + 3 := by simp
  have hpos : 0 < ds.length := List.length_pos.mpr hne
  have hidx : (sgn :: ds ++ [a, b]).length - ([a, b] : List Char).length - 1 = ds.length := by
    simp
  have hds := List.dropLast_append_getLast hne
  have hre : sgn :: ds ++ [a, b] = (sgn :: ds.dropLast) ++ (ds.getLast hne :: [a, b]) := by
    conv_lhs => rw [← hds]
    simp
  have hlen2 : (sgn :: ds.dropLast).length = ds.length := by
    simp [List.length_dropLast]
    omega
  have hget : (sgn :: ds ++ [a, b]).get? ds.length = some (ds.getLast hne) := by
    rw [hre, ← hlen2]
    exact get_q_mid (sgn :: ds.dropLast) (ds.getLast hne) [a, b]
  have hlastdig : (ds.getLast hne).isDigit = true := by
    simp only [List.all_eq_true] at hdig
    exact hdig _ (List.getLast_mem hne)
  unfold pmsStrip pmsPrevOk
  rw [hidx, hget, hin]
  have h1 : 1 < (sgn :: ds ++ [a, b]).length := by rw [hlen]; omega
  have h2 : ([a, b] : List Char).length < (sgn :: ds ++ [a, b]).length := by rw [hlen]; simp
  simp [h1, h2, hlastdig]

theorem parseModStr_unit2 (sgn : Char) (ds : List Char) (a b : Char)
    (hsgn : sgn = '+' ∨ sgn = '-') (hne : ds ≠ []) (hdig : ds.all Char.isDigit = true)
    (hin : inMul [a, b] = true) :
    parseModStr (sgn :: ds ++ [a, b]) = some (qmul (qofInt (signedVal sgn ds)) (mulVal [a, b])) := by
  have hm : pmsMulStr (sgn :: ds ++ [a, b]) = [a, b] := pmsMulStr_unit2 sgn ds a b hin
  have hstrip : pmsStrip (sgn :: ds ++ [a, b]) [a, b] = true :=
    pmsStrip_unit2 sgn ds a b hne hdig hin
  have htake : (sgn :: ds ++ [a, b]).take
      ((sgn :: ds ++ [a, b]).length - ([a, b] : List Char).length) = sgn :: ds := by
    have hl : (sgn :: ds ++ [a, b]).length - ([a, b] : List Char).length
        = (sgn :: ds).length := by simp
    rw [hl]
    exact List.take_left (sgn :: ds) [a, b]
  have hdsno : ('.' : Char) ∉ ds := by
    intro hmem
    exact absurd (List.all_eq_true.mp hdig _ hmem) (by decide)
  have hnodot : (sgn :: ds).contains '.' = false := by
    rcases hsgn with rfl | rfl <;> simp [List.contains_cons, hdsno]
  unfold parseModStr
  rw [if_neg (by simp : ¬(sgn :: ds ++ [a, b] = []))]
  simp only [hm, hstrip, eq_self_iff_true, if_true]
  rw [htake, hnodot]
  rw [if_neg (by simp : ¬(false = true))]
  rw [pyIntOfStr_signed sgn ds hsgn hne hdig]

theorem pmsMulStr_unit1 (sgn u : Char) (ds : List Char)
    (hne : ds ≠ []) (hdig : ds.all Char.isDigit = true) :
    pmsMulStr (sgn :: ds ++ [u]) = [u] := by
  have hds := List.dropLast_append_getLast hne
  have hre : sgn :: ds ++ [u] = (sgn :: ds.dropLast) ++ [ds.getLast hne, u] := by
    conv_lhs => rw [← hds]
    simp
  have hlast2 : lastN 2 (sgn :: ds ++ [u]) = [ds.getLast hne, u] := by
    rw [hre]
    exact lastN_suffix (sgn :: ds.dropLast) [ds.getLast hne, u]
  have hlastdig : (ds.getLast hne).isDigit = true := by
    simp only [List.all_eq_true] at hdig
    exact hdig _ (List.getLast_mem hne)
  have hfalse : inMul [ds.getLast hne, u] = false := inMul_digit_unit1 _ u hlastdig
  unfold pmsMulStr
  rw [hlast2, hfalse, if_neg (by simp : ¬(false = true))]
  exact lastN_suffix (sgn :: ds) [u]

theorem pmsStrip_unit1 (sgn u : Char) (ds : List Char)
    (hne : ds ≠ []) (hdig : ds.all Char.isDigit = true) (hinu : inMul [u] = true) :
    pmsStrip (sgn :: ds ++ [u]) [u] = true := by
  have hlen : (sgn :: ds ++ [u]).length = ds.length + 2 := by simp
  have hidx : (sgn :: ds ++ [u]).length - ([u] : List Char).length - 1 = ds.length := by simp
  have hds := List.dropLast_append_getLast hne
  have hre : sgn :: ds ++ [u] = (sgn :: ds.dropLast) ++ (ds.getLast hne :: [u]) := by
    conv_lhs => rw [← hds]
    simp
  have hpos : 0 < ds.length := List.length_pos.mpr hne
  have hlen2 : (sgn :: ds.dropLast).length = ds.length := by
    simp [List.length_dropLast]
    omega
  have hget : (sgn :: ds ++ [u]).get? ds.length = some (ds.getLast hne) := by
    rw [hre, ← hlen2]
    exact get_q_mid (sgn :: ds.dropLast) (ds.getLast hne) [u]
  have hlastdig : (ds.getLast hne).isDigit = true := by
    simp only [List.all_eq_true] at hdig
    exact hdig _ (List.getLast_mem hne)
  unfold pmsStrip pmsPrevOk
  rw [hidx, hget, hinu]
  have h1 : 1 < (sgn :: ds ++ [u]).length := by rw [hlen]; omega
  have h2 : ([u] : List Char).length < (sgn :: ds ++ [u]).length := by rw [hlen]; simp
  simp [h1, h2, hlastdig]

theorem parseModStr_unit1 (sgn u : Char) (ds : List Char)
    (hsgn : sgn = '+' ∨ sgn = '-') (hne : ds ≠ []) (hdig : ds.all Char.isDigit = true)
    (hinu : inMul [u] = true) :
    parseModStr (sgn :: ds ++ [u]) = some (qmul (qofInt (signedVal sgn ds)) (mulVal [u])) := by
  have hm : pmsMulStr (sgn :: ds ++ [u]) = [u] := pmsMulStr_unit1 sgn u ds hne hdig
  have hstrip : pmsStrip (sgn :: ds ++ [u]) [u] = true := pmsStrip_unit1 sgn u ds hne hdig hinu
  have htake : (sgn :: ds ++ [u]).take
      ((sgn :: ds ++ [u]).length - ([u] : List Char).length) = sgn :: ds := by
    have hl : (sgn :: ds ++ [u]).length - ([u] : List Char).length = (sgn :: ds).length := by simp
    rw [hl]
    exact List.take_left (sgn :: ds) [u]
  have hdsno : ('.' : Char) ∉ ds := by
    intro hmem
    exact absurd (List.all_eq_true.mp hdig _ hmem) (by decide)
  have hnodot : (sgn :: ds).contains '.' = false := by
    rcases hsgn with rfl | rfl <;> simp [List.contains_cons, hdsno]
  unfold parseModStr
  rw [if_neg (by simp : ¬(sgn :: ds ++ [u] = []))]
  simp only [hm, hstrip, eq_self_iff_true, if_true]
  rw [htake, hnodot]
  rw [if_neg (by simp : ¬(false = true))]
  rw [pyIntOfStr_signed sgn ds hsgn hne hdig]

theorem as_unixtime_float_mod (st : SyncSt) (clockNs : Int) (q u p : Q) (s : String)
    (h : _timestamp_to_unixtime (.float q) = .ok u) (hp : parseModStr s.data = some p) :
    as_unixtime st clockNs (.float q) (.str s) = .ok (qadd u p) := by
  unfold as_unixtime _init_modifier _init_modifier_lru
  simp only [hp, h]

/-- C5: modifier unit arithmetic. For every modifier text `[+-]<digits><unit>`
with a 2-character unit (`ns`, `us`, `µs`, `ms`) or a 1-character unit
(`s`, `m`, `h`, `d`), `_init_modifier_lru`'s string parser yields the signed
number scaled by the unit's multiplier (2-character suffixes are tried before
the 1-character fallback: the `lastN 2` table lookup precedes `lastN 1`, and
`"+5ms"` parses as 5/1000 rather than via the `s` fallback); the multipliers
are ns=1e-9, us=µs=1e-6, ms=1e-3, s=1, m=60, h=3600, d=86400; the parsed
value is added to the base instant's epoch seconds; and the claim's two
examples hold: `"+7d"` on epoch 0 renders `"1970-01-08T00:00:00.000000Z"`,
and `"-10s"` on epoch 1666019834.321119 renders
`"2022-10-17T15:17:04.321119Z"`. -/
theorem claimC5_modifier_arithmetic :
    (∀ (sgn : Char) (ds : List Char) (a b : Char),
        (sgn = '+' ∨ sgn = '-') → ds ≠ [] → ds.all Char.isDigit = true →
        inMul [a, b] = true →
        parseModStr (sgn :: ds ++ [a, b])
          = some (qmul (qofInt (signedVal sgn ds)) (mulVal [a, b]))) ∧
    (∀ (sgn u : Char) (ds : List Char),
        (sgn = '+' ∨ sgn = '-') → ds ≠ [] → ds.all Char.isDigit = true →
        inMul [u] = true →
        parseModStr (sgn :: ds ++ [u])
          = some (qmul (qofInt (signedVal sgn ds)) (mulVal [u]))) ∧
    (mulVal "ns".data = qmk 1 1000000000 ∧ mulVal "us".data = qmk 1 1000000 ∧
     mulVal "µs".data = qmk 1 1000000 ∧ mulVal "ms".data = qmk 1 1000 ∧
     mulVal "s".data = qofInt 1 ∧ mulVal "m".data = qofInt 60 ∧
     mulVal "h".data = qofInt 3600 ∧ mulVal "d".data = qofInt 86400) ∧
    parseModStr "+5ms".data = some (qmk 1 200) ∧
    (∀ (st : SyncSt) (clockNs : Int) (q u p : Q) (s : String),
        _timestamp_to_unixtime (.float q) = .ok u → parseModStr s.data = some p →
        as_unixtime st clockNs (.float q) (.str s) = .ok (qadd u p)) ∧
    rfc3339_timestamp initialSyncSt 0 (.int 0) (.str "+7d")
      = .ok "1970-01-08T00:00:00.000000Z".data ∧
    rfc3339_timestamp initialSyncSt 0 (.float (qmk 1666019834321119 1000000)) (.str "-10s")
      = .ok "2022-10-17T15:17:04.321119Z".data :=
  ⟨parseModStr_unit2, parseModStr_unit1, by decide, by decide,
   as_unixtime_float_mod, by decide, by decide⟩

theorem claimC5_modifier_arithmetic_witness :
    parseModStr ('+' :: ['7'] ++ ['m', 's'])
      = some (qmul (qofInt (signedVal '+' ['7'])) (mulVal ['m', 's'])) :=
  claimC5_modifier_arithmetic.1 '+' ['7'] 'm' 's'
    (Or.inl rfl) (by decide) (by decide) (by decide)

theorem inMul_pair_digit (x e : Char) (he : e.isDigit = true) : inMul [x, e] = false := by
  have h := digit_ne e 's' he (by decide)
  unfold inMul
  simp [h]

theorem inMul_single_digit (e : Char) (he : e.isDigit = true) : inMul [e] = false := by
  have h1 := digit_ne e 's' he (by decide)
  have h2 := digit_ne e 'm' he (by decide)
  have h3 := digit_ne e 'h' he (by decide)
  have h4 := digit_ne e 'd' he (by decide)
  unfold inMul
  simp [h1, h2, h3, h4]

theorem pmsStrip_dotfrac_aux (ds : List Char) (hne : ds ≠ []) (hdig : ds.all Char.isDigit = true) :
    inMul (pmsMulStr ('.' :: ds)) = false := by
  have hlastdig : (ds.getLast hne).isDigit = true := by
    simp only [List.all_eq_true] at hdig
    exact hdig _ (List.getLast_mem hne)
  have hds := List.dropLast_append_getLast hne
  have hlast1 : lastN 1 ('.' :: ds) = [ds.getLast hne] := by
    have hre : '.' :: ds = ('.' :: ds.dropLast) ++ [ds.getLast hne] := by
      conv_lhs => rw [← hds]
      rfl
    rw [hre]
    exact lastN_suffix ('.' :: ds.dropLast) [ds.getLast hne]
  have hin2 : inMul (lastN 2 ('.' :: ds)) = false := by
    rcases List.eq_nil_or_concat ds.dropLast with hnil | ⟨l, p, hlp⟩
    · have hds1 : ds = [ds.getLast hne] := by
        rw [hnil] at hds
        simpa using hds.symm
      have hl2 : lastN 2 ('.' :: ds) = ['.', ds.getLast hne] := by
        conv_lhs => rw [hds1]
        rfl
      rw [hl2]
      exact inMul_pair_digit _ _ hlastdig
    · have hre2 : '.' :: ds = ('.' :: l) ++ [p, ds.getLast hne] := by
        conv_lhs => rw [← hds, hlp]
        simp
      have hl2 : lastN 2 ('.' :: ds) = [p, ds.getLast hne] := by
        conv_lhs => rw [hre2]
        exact lastN_suffix ('.' :: l) [p, ds.getLast hne]
      rw [hl2]
      exact inMul_pair_digit _ _ hlastdig
  unfold pmsMulStr
  rw [hin2, if_neg (by simp : ¬(false = true)), hlast1]
  exact inMul_single_digit _ hlastdig

theorem parseModStr_dotfrac (ds : List Char) (hne : ds ≠ []) (hdig : ds.all Char.isDigit = true) :
    parseModStr ('.' :: ds)
      = some (qmul (qadd (qofNat 0) (qmk (digitsVal ds : Int) (10 ^ ds.length))) (qofInt 1)) := by
  have hin : inMul (pmsMulStr ('.' :: ds)) = false := pmsStrip_dotfrac_aux ds hne hdig
  have hstrip : pmsStrip ('.' :: ds) (pmsMulStr ('.' :: ds)) = false := by
    unfold pmsStrip
    rw [hin]
    simp
  have hfloat : pyFloatOfStr ('.' :: ds)
      = some (qadd (qofNat 0) (qmk (digitsVal ds : Int) (10 ^ ds.length))) := by
    show pyFloatCore ('.' :: ds) = _
    unfold pyFloatCore
    simp [hdig, hne]
    rfl
  unfold parseModStr
  rw [if_neg (by simp : ¬('.' :: ds = []))]
  simp only [hstrip, Bool.false_eq_true, if_false]
  have hdot : ('.' :: ds).contains '.' = true := by simp [List.contains_cons]
  rw [hdot, if_pos rfl, hfloat]

/-- C4 (counterexample): the spec claims a modifier `.<digits>` REPLACES the
fractional-second component of the base timestamp.  In the code it is parsed
as the float `0.<digits>` and ADDED: on base `2022-10-17T15:15:22.556084Z`
the modifier `".4"` yields `...:22.956084Z` (0.4 s added), not the
replacement result `...:22.400000Z`. -/
theorem claimC4_counterexample :
    rfc3339_timestamp initialSyncSt 0 (.str "2022-10-17T15:15:22.556084Z") (.str ".4")
      = .ok "2022-10-17T15:15:22.956084Z".data ∧
    ¬ (rfc3339_timestamp initialSyncSt 0 (.str "2022-10-17T15:15:22.556084Z") (.str ".4")
      = .ok "2022-10-17T15:15:22.400000Z".data) := by
  constructor
  · decide
  · decide

/-- C4 (amended): a modifier of the pattern `.<digits>` is parsed by
`_init_modifier_lru` as the float `0.<digits>`, i.e. `digits / 10^len`
seconds (the unit table does not match, so the multiplier is 1), and --- like
every numeric modifier --- this amount is added to the base instant's epoch
seconds; on the repository's own test vector, `".4"` applied to
`2022-10-17T15:15:22.556084Z` gives `2022-10-17T15:15:22.956084Z`. -/
theorem claimC4_fraction_added :
    (∀ (ds : List Char), ds ≠ [] → ds.all Char.isDigit = true →
        ∃ q, parseModStr ('.' :: ds) = some q ∧
          toRat q = (digitsVal ds : Rat) / (10 : Rat) ^ ds.length) ∧
    (∀ (st : SyncSt) (clockNs : Int) (b u p : Q) (s : String),
        _timestamp_to_unixtime (.float b) = .ok u → parseModStr s.data = some p →
        as_unixtime st clockNs (.float b) (.str s) = .ok (qadd u p)) ∧
    rfc3339_timestamp initialSyncSt 0 (.str "2022-10-17T15:15:22.556084Z") (.str ".4")
      = .ok "2022-10-17T15:15:22.956084Z".data := by
  refine ⟨?_, as_unixtime_float_mod, by decide⟩
  intro ds hne hdig
  refine ⟨_, parseModStr_dotfrac ds hne hdig, ?_⟩
  rw [toRat_qmul _ _ (qadd_den_pos _ _).ne' (by decide)]
  rw [toRat_qadd _ _ (by decide) (qmk_den_pos _ _).ne']
  rw [toRat_qofNat, toRat_qofInt, toRat_qmk _ _ (by positivity)]
  push_cast
  ring

theorem claimC4_fraction_added_witness :
    ∃ q, parseModStr ['.', '4'] = some q ∧
      toRat q = (digitsVal ['4'] : Rat) / (10 : Rat) ^ (['4'] : List Char).length :=
  claimC4_fraction_added.1 ['4'] (by decide) (by decide)

/-- Shape of the canonical 27-character output claimed by the spec
(`YYYY-MM-DDTHH:mm:ss.ffffffZ`); written from the spec's words, to be
compared with what the code produces. -/
def specCanonicalShape (cs : List Char) : Bool :=
  match cs with
  | [y1, y2, y3, y4, c1, m1, m2, c2, d1, d2, ct, h1, h2, c3, n1, n2, c4, s1, s2, cd,
     f1, f2, f3, f4, f5, f6, cz] =>
    y1.isDigit && y2.isDigit && y3.isDigit && y4.isDigit && decide (c1 = '-') &&
    m1.isDigit && m2.isDigit && decide (c2 = '-') && d1.isDigit && d2.isDigit &&
    decide (ct = 'T') && h1.isDigit && h2.isDigit && decide (c3 = ':') &&
    n1.isDigit && n2.isDigit && decide (c4 = ':') && s1.isDigit && s2.isDigit &&
    decide (cd = '.') && f1.isDigit && f2.isDigit && f3.isDigit && f4.isDigit &&
    f5.isDigit && f6.isDigit && decide (cz = 'Z')
  | _ => false

/-- C2: refuted (code bug).  `PREFERRED_FORMAT_REGEX` has an unescaped `.`
before `[0-9]{6}`, so `"2023-01-01T00:00:00x123456"` is accepted by the
preferred-format fast path; the code returns
`"2023-01-01T00:00:00X123456Z"` --- 27 characters, but with `X` where the
spec's canonical shape requires the `.` fraction separator (third conjunct:
the honest canonical string does satisfy the spec's shape). -/
theorem claimC2_regex_dot_bug :
    rfc3339_timestamp initialSyncSt 0 (.str "2023-01-01T00:00:00x123456") .none
      = .ok "2023-01-01T00:00:00X123456Z".data ∧
    specCanonicalShape "2023-01-01T00:00:00X123456Z".data = false ∧
    specCanonicalShape "2023-01-01T00:00:00.123456Z".data = true := by
  refine ⟨by decide, by decide, by decide⟩

theorem qtrunc_int (a : Q) (k : Int) (hd : a.den ≠ 0) (hk : toRat a = (k : Rat)) :
    qtrunc a = k := by
  have hd2 : ((a.den : Nat) : Rat) ≠ 0 := by exact_mod_cast hd
  have hdz : (a.den : Int) ≠ 0 := by exact_mod_cast hd
  have hnum : a.num = k * (a.den : Int) := by
    unfold toRat at hk
    field_simp at hk
    exact_mod_cast hk
  unfold qtrunc
  by_cases h : a.num < 0
  · rw [if_pos h, hnum, ← neg_mul, Int.mul_ediv_cancel _ hdz]
    ring
  · rw [if_neg h, hnum, Int.mul_ediv_cancel _ hdz]

theorem timediff_frozen_eval (st : SyncSt) (clockNs : Int) (b e : Value) (unit : String)
    (tB tE : PyDatetime) (hf : st.mainFrozen = true)
    (hB : as_datetime st clockNs b (.int 0) = .ok tB)
    (hE : as_datetime st clockNs e (.int 0) = .ok tE) :
    timediff st clockNs b e unit
      = timediffChain (qmk (dtEpochMicros tE - dtEpochMicros tB) 1000000)
          (pyLowerStr unit.data) := by
  unfold timediff
  rw [hf]
  simp only [Bool.true_eq_false, if_false, hB, hE]

theorem toRat_ts (d : Int) :
    toRat (qmk d 1000000) = (d : Rat) / 1000000 := by
  rw [toRat_qmk _ _ (by norm_num)]
  norm_num

theorem timediffChain_ns (d : Int) (u : List Char)
    (hmem : u ∈ ["nanoseconds".data, "nanosecond".data, "nsec".data, "ns".data, "nanos".data,
      "nano".data, "nanosec".data]) :
    Except.map toRat (timediffChain (qmk d 1000000) u)
      = .ok ((d : Rat) / 1000000 * 1000000000) := by
  have hval : toRat (qmul (qmk d 1000000) (qofInt 1000000)) = (d : Rat) := by
    rw [toRat_qmul _ _ (qmk_den_pos _ _).ne' (by decide), toRat_ts, toRat_qofInt]
    push_cast
    field_simp
  have ht : qtrunc (qmul (qmk d 1000000) (qofInt 1000000)) = d :=
    qtrunc_int _ _ (qmul_den_pos _ _).ne' hval
  unfold timediffChain
  rw [if_pos hmem]
  simp only [Except.map, ht, toRat_qofInt]
  congr 1
  push_cast
  ring

theorem timediffChain_us (d : Int) (u : List Char)
    (hmem : u ∈ ["microseconds".data, "microsecond".data, "usec".data, "us".data, "micros".data,
      "micro".data, "microsec".data, "µs".data]) :
    Except.map toRat (timediffChain (qmk d 1000000) u)
      = .ok ((d : Rat) / 1000000 * 1000000) := by
  unfold timediffChain
  simp only [List.mem_cons, List.not_mem_nil, or_false] at hmem
  rcases hmem with rfl|rfl|rfl|rfl|rfl|rfl|rfl|rfl
  all_goals rw [if_neg (by decide), if_pos (by decide)]
  all_goals simp only [Except.map]
  all_goals congr 1
  all_goals rw [toRat_qmul _ _ (qmk_den_pos _ _).ne' (by decide), toRat_ts, toRat_qofInt]
  all_goals push_cast
  all_goals ring

theorem timediffChain_ms (d : Int) (u : List Char)
    (hmem : u ∈ ["milliseconds".data, "millisecond".data, "msec".data, "ms".data, "millis".data,
      "milli".data, "millisec".data]) :
    Except.map toRat (timediffChain (qmk d 1000000) u)
      = .ok ((d : Rat) / 1000000 * 1000) := by
  unfold timediffChain
  simp only [List.mem_cons, List.not_mem_nil, or_false] at hmem
  rcases hmem with rfl|rfl|rfl|rfl|rfl|rfl|rfl
  all_goals rw [if_neg (by decide), if_neg (by decide), if_pos (by decide)]
  all_goals simp only [Except.map]
  all_goals congr 1
  all_goals rw [toRat_qmul _ _ (qmk_den_pos _ _).ne' (by decide), toRat_ts, toRat_qofInt]
  all_goals push_cast
  all_goals ring

theorem timediffChain_s (d : Int) (u : List Char)
    (hmem : u ∈ ["seconds".data, "second".data, "sec".data, "s".data]) :
    Except.map toRat (timediffChain (qmk d 1000000) u)
      = .ok ((d : Rat) / 1000000) := by
  unfold timediffChain
  simp only [List.mem_cons, List.not_mem_nil, or_false] at hmem
  rcases hmem with rfl|rfl|rfl|rfl
  all_goals rw [if_neg (by decide), if_neg (by decide), if_neg (by decide),
    if_pos (by decide)]
  all_goals simp only [Except.map]
  all_goals congr 1
  all_goals exact toRat_ts d

theorem timediffChain_min (d : Int) (u : List Char)
    (hmem : u ∈ ["minutes".data, "minute".data, "min".data, "m".data]) :
    Except.map toRat (timediffChain (qmk d 1000000) u)
      = .ok ((d : Rat) / 1000000 / 60) := by
  unfold timediffChain
  simp only [List.mem_cons, List.not_mem_nil, or_false] at hmem
  rcases hmem with rfl|rfl|rfl|rfl
  all_goals rw [if_neg (by decide), if_neg (by decide), if_neg (by decide),
    if_neg (by decide), if_pos (by decide)]
  all_goals simp only [Except.map]
  all_goals congr 1
  all_goals rw [toRat_qdiv _ _ (qmk_den_pos _ _).ne' (by decide), toRat_ts, toRat_qofInt]
  all_goals push_cast
  all_goals ring

theorem timediffChain_h (d : Int) (u : List Char)
    (hmem : u ∈ ["hours".data, "hour".data, "h".data]) :
    Except.map toRat (timediffChain (qmk d 1000000) u)
      = .ok ((d : Rat) / 1000000 / 3600) := by
  unfold timediffChain
  simp only [List.mem_cons, List.not_mem_nil, or_false] at hmem
  rcases hmem with rfl|rfl|rfl
  all_goals rw [if_neg (by decide), if_neg (by decide), if_neg (by decide),
    if_neg (by decide), if_neg (by decide), if_pos (by decide)]
  all_goals simp only [Except.map]
  all_goals congr 1
  all_goals rw [toRat_qdiv _ _ (qmk_den_pos _ _).ne' (by decide), toRat_ts, toRat_qofInt]
  all_goals push_cast
  all_goals ring

theorem timediffChain_d (d : Int) (u : List Char)
    (hmem : u ∈ ["days".data, "day".data, "d".data]) :
    Except.map toRat (timediffChain (qmk d 1000000) u)
      = .ok ((d : Rat) / 1000000 / 86400) := by
  unfold timediffChain
  simp only [List.mem_cons, List.not_mem_nil, or_false] at hmem
  rcases hmem with rfl|rfl|rfl
  all_goals rw [if_neg (by decide), if_neg (by decide), if_neg (by decide),
    if_neg (by decide), if_neg (by decide), if_neg (by decide), if_pos (by decide)]
  all_goals simp only [Except.map]
  all_goals congr 1
  all_goals rw [toRat_qdiv _ _ (qmk_den_pos _ _).ne' (by decide), toRat_ts, toRat_qofInt]
  all_goals push_cast
  all_goals ring

theorem timediffChain_w (d : Int) (u : List Char)
    (hmem : u ∈ ["weeks".data, "week".data, "w".data]) :
    Except.map toRat (timediffChain (qmk d 1000000) u)
      = .ok ((d : Rat) / 1000000 / 604800) := by
  unfold timediffChain
  simp only [List.mem_cons, List.not_mem_nil, or_false] at hmem
  rcases hmem with rfl|rfl|rfl
  all_goals rw [if_neg (by decide), if_neg (by decide), if_neg (by decide),
    if_neg (by decide), if_neg (by decide), if_neg (by decide), if_neg (by decide),
    if_pos (by decide)]
  all_goals simp only [Except.map]
  all_goals congr 1
  all_goals rw [toRat_qdiv _ _ (qmk_den_pos _ _).ne' (by decide), toRat_ts, toRat_qofInt]
  all_goals push_cast
  all_goals norm_num

theorem timediffChain_unknown (ts : Q) (u : List Char)
    (h1 : u ∉ ["nanoseconds".data, "nanosecond".data, "nsec".data, "ns".data, "nanos".data,
      "nano".data, "nanosec".data])
    (h2 : u ∉ ["microseconds".data, "microsecond".data, "usec".data, "us".data, "micros".data,
      "micro".data, "microsec".data, "µs".data])
    (h3 : u ∉ ["milliseconds".data, "millisecond".data, "msec".data, "ms".data, "millis".data,
      "milli".data, "millisec".data])
    (h4 : u ∉ ["seconds".data, "second".data, "sec".data, "s".data])
    (h5 : u ∉ ["minutes".data, "minute".data, "min".data, "m".data])
    (h6 : u ∉ ["hours".data, "hour".data, "h".data])
    (h7 : u ∉ ["days".data, "day".data, "d".data])
    (h8 : u ∉ ["weeks".data, "week".data, "w".data]) :
    timediffChain ts u = .error .valueError := by
  unfold timediffChain
  rw [if_neg h1, if_neg h2, if_neg h3, if_neg h4, if_neg h5, if_neg h6, if_neg h7, if_neg h8]


/-- C9: the difference-engine contract.  For every pair of accepted begin/end
values (any values on which `as_datetime` succeeds, in a frozen-synchronizer
state, matching the `with synchronizer:` wrap of the source), `timediff`
returns the signed difference `end - begin` in seconds divided by the
recognized unit's scale --- for the nanosecond synonyms this equals the
seconds difference multiplied by 1e9 (the code's `int(...*1e6)*1000` is exact
here because parser outputs are microsecond-grained), down through
weeks = 604800 --- and an unrecognized unit yields `ValueError`; moreover
`diff(0,0) = 0`, `diff(0,1,"milliseconds") = 1000`, and
`diff(0,86400,"days") = 1`. -/
theorem claimC9_timediff_contract :
    (∀ (st : SyncSt) (clockNs : Int) (b e : Value) (unit : String) (tB tE : PyDatetime),
        st.mainFrozen = true →
        as_datetime st clockNs b (.int 0) = .ok tB →
        as_datetime st clockNs e (.int 0) = .ok tE →
        (pyLowerStr unit.data ∈ ["nanoseconds".data, "nanosecond".data, "nsec".data, "ns".data,
            "nanos".data, "nano".data, "nanosec".data] →
          Except.map toRat (timediff st clockNs b e unit)
            = .ok (((dtEpochMicros tE - dtEpochMicros tB : Int) : Rat) / 1000000 * 1000000000)) ∧
        (pyLowerStr unit.data ∈ ["microseconds".data, "microsecond".data, "usec".data, "us".data,
            "micros".data, "micro".data, "microsec".data, "µs".data] →
          Except.map toRat (timediff st clockNs b e unit)
            = .ok (((dtEpochMicros tE - dtEpochMicros tB : Int) : Rat) / 1000000 * 1000000)) ∧
        (pyLowerStr unit.data ∈ ["milliseconds".data, "millisecond".data, "msec".data, "ms".data,
            "millis".data, "milli".data, "millisec".data] →
          Except.map toRat (timediff st clockNs b e unit)
            = .ok (((dtEpochMicros tE - dtEpochMicros tB : Int) : Rat) / 1000000 * 1000)) ∧
        (pyLowerStr unit.data ∈ ["seconds".data, "second".data, "sec".data, "s".data] →
          Except.map toRat (timediff st clockNs b e unit)
            = .ok (((dtEpochMicros tE - dtEpochMicros tB : Int) : Rat) / 1000000)) ∧
        (pyLowerStr unit.data ∈ ["minutes".data, "minute".data, "min".data, "m".data] →
          Except.map toRat (timediff st clockNs b e unit)
            = .ok (((dtEpochMicros tE - dtEpochMicros tB : Int) : Rat) / 1000000 / 60)) ∧
        (pyLowerStr unit.data ∈ ["hours".data, "hour".data, "h".data] →
          Except.map toRat (timediff st clockNs b e unit)
            = .ok (((dtEpochMicros tE - dtEpochMicros tB : Int) : Rat) / 1000000 / 3600)) ∧
        (pyLowerStr unit.data ∈ ["days".data, "day".data, "d".data] →
          Except.map toRat (timediff st clockNs b e unit)
            = .ok (((dtEpochMicros tE - dtEpochMicros tB : Int) : Rat) / 1000000 / 86400)) ∧
        (pyLowerStr unit.data ∈ ["weeks".data, "week".data, "w".data] →
          Except.map toRat (timediff st clockNs b e unit)
            = .ok (((dtEpochMicros tE - dtEpochMicros tB : Int) : Rat) / 1000000 / 604800)) ∧
        (pyLowerStr unit.data ∉ ["nanoseconds".data, "nanosecond".data, "nsec".data, "ns".data,
            "nanos".data, "nano".data, "nanosec".data] →
         pyLowerStr unit.data ∉ ["microseconds".data, "microsecond".data, "usec".data, "us".data,
            "micros".data, "micro".data, "microsec".data, "µs".data] →
         pyLowerStr unit.data ∉ ["milliseconds".data, "millisecond".data, "msec".data, "ms".data,
            "millis".data, "milli".data, "millisec".data] →
         pyLowerStr unit.data ∉ ["seconds".data, "second".data, "sec".data, "s".data] →
         pyLowerStr unit.data ∉ ["minutes".data, "minute".data, "min".data, "m".data] →
         pyLowerStr unit.data ∉ ["hours".data, "hour".data, "h".data] →
         pyLowerStr unit.data ∉ ["days".data, "day".data, "d".data] →
         pyLowerStr unit.data ∉ ["weeks".data, "week".data, "w".data] →
          timediff st clockNs b e unit = .error .valueError)) ∧
    timediff initialSyncSt 0 (.int 0) (.int 0) "seconds" = .ok (qofInt 0) ∧
    timediff initialSyncSt 0 (.int 0) (.int 1) "milliseconds" = .ok (qofInt 1000) ∧
    timediff initialSyncSt 0 (.int 0) (.int 86400) "days" = .ok (qofInt 1) := by
  refine ⟨?_, by decide, by decide, by decide⟩
  intro st clockNs b e unit tB tE hf hB hE
  have heq := timediff_frozen_eval st clockNs b e unit tB tE hf hB hE
  refine ⟨?_, ?_, ?_, ?_, ?_, ?_, ?_, ?_, ?_⟩
  · intro hmem
    rw [heq]
    exact timediffChain_ns _ _ hmem
  · intro hmem
    rw [heq]
    exact timediffChain_us _ _ hmem
  · intro hmem
    rw [heq]
    exact timediffChain_ms _ _ hmem
  · intro hmem
    rw [heq]
    exact timediffChain_s _ _ hmem
  · intro hmem
    rw [heq]
    exact timediffChain_min _ _ hmem
  · intro hmem
    rw [heq]
    exact timediffChain_h _ _ hmem
  · intro hmem
    rw [heq]
    exact timediffChain_d _ _ hmem
  · intro hmem
    rw [heq]
    exact timediffChain_w _ _ hmem
  · intro h1 h2 h3 h4 h5 h6 h7 h8
    rw [heq]
    exact timediffChain_unknown _ _ h1 h2 h3 h4 h5 h6 h7 h8

theorem claimC9_timediff_contract_witness :
    Except.map toRat (timediff (⟨true, none, 0, 0, []⟩ : SyncSt) 0 (.int 0) (.int 86400) "days")
      = .ok (((dtEpochMicros ⟨1970, 1, 2, 0, 0, 0, 0, some 0⟩
          - dtEpochMicros ⟨1970, 1, 1, 0, 0, 0, 0, some 0⟩ : Int) : Rat) / 1000000 / 86400) :=
  (claimC9_timediff_contract.1 (⟨true, none, 0, 0, []⟩ : SyncSt) 0 (.int 0) (.int 86400) "days"
      ⟨1970, 1, 1, 0, 0, 0, 0, some 0⟩ ⟨1970, 1, 2, 0, 0, 0, 0, some 0⟩
      (by decide) (by decide) (by decide)).2.2.2.2.2.2.1 (by decide)

theorem dChar_eq0 (n : Nat) : dChar n = '0' ↔ n % 10 = 0 := by
  unfold dChar
  have h : n % 10 < 10 := Nat.mod_lt _ (by norm_num)
  interval_cases h2 : (n % 10) <;> decide

theorem dChar_eq1 (n : Nat) : dChar n = '1' ↔ n % 10 = 1 := by
  unfold dChar
  have h : n % 10 < 10 := Nat.mod_lt _ (by norm_num)
  interval_cases h2 : (n % 10) <;> decide

theorem dChar_eq2 (n : Nat) : dChar n = '2' ↔ n % 10 = 2 := by
  unfold dChar
  have h : n % 10 < 10 := Nat.mod_lt _ (by norm_num)
  interval_cases h2 : (n % 10) <;> decide

theorem dChar_eq3 (n : Nat) : dChar n = '3' ↔ n % 10 = 3 := by
  unfold dChar
  have h : n % 10 < 10 := Nat.mod_lt _ (by norm_num)
  interval_cases h2 : (n % 10) <;> decide

theorem dChar_eq6 (n : Nat) : dChar n = '6' ↔ n % 10 = 6 := by
  unfold dChar
  have h : n % 10 < 10 := Nat.mod_lt _ (by norm_num)
  interval_cases h2 : (n % 10) <;> decide

theorem mt_lit (c : Char) (rest : List FTok) (cs : List Char) (acc : FParse) :
    matchToks (.lit c :: rest) (c :: cs) acc = matchToks rest cs acc := by
  have e1 : matchToks (.lit c :: rest) (c :: cs) acc
      = if pyLowerChar c = pyLowerChar c then matchToks rest cs acc else none := rfl
  rw [e1, if_pos rfl]

theorem mt_dY (rest : List FTok) (cs : List Char) (acc : FParse) (Y : Nat) (hY : Y ≤ 9999) :
    matchToks (.dY :: rest) (render4 Y ++ cs) acc = matchToks rest cs {acc with fY := Y} := by
  have e1 : matchToks (.dY :: rest) (render4 Y ++ cs) acc
      = if (dChar (Y / 1000)).isDigit ∧ (dChar (Y / 100)).isDigit ∧ (dChar (Y / 10)).isDigit
            ∧ (dChar Y).isDigit then
          matchToks rest cs {acc with fY :=
            ((digitVal (dChar (Y / 1000)) * 10 + digitVal (dChar (Y / 100))) * 10
              + digitVal (dChar (Y / 10))) * 10 + digitVal (dChar Y)}
        else none := rfl
  rw [e1, if_pos ⟨dChar_isDigit _, dChar_isDigit _, dChar_isDigit _, dChar_isDigit _⟩]
  have hval : ((digitVal (dChar (Y / 1000)) * 10 + digitVal (dChar (Y / 100))) * 10
      + digitVal (dChar (Y / 10))) * 10 + digitVal (dChar Y) = Y := by
    simp only [digitVal_dChar]
    omega
  rw [hval]

theorem mt_dm (rest : List FTok) (cs : List Char) (acc : FParse) (m : Nat)
    (r : FParse × List Char) (h1 : 1 ≤ m) (h2 : m ≤ 12)
    (hc : matchToks rest cs {acc with fm := m} = some r) :
    matchToks (.dm :: rest) (render2 m ++ cs) acc = some r := by
  have e1 : matchToks (.dm :: rest) (render2 m ++ cs) acc
      = ((if dChar (m / 10) = '1' ∧ (dChar m).isDigit ∧ digitVal (dChar m) ≤ 2 then
           matchToks rest cs {acc with fm := 10 + digitVal (dChar m)} else none)
        <|> ((if dChar (m / 10) = '0' ∧ (dChar m).isDigit ∧ 1 ≤ digitVal (dChar m) then
           matchToks rest cs {acc with fm := digitVal (dChar m)} else none)
        <|> (if (dChar (m / 10)).isDigit ∧ 1 ≤ digitVal (dChar (m / 10)) then
           matchToks rest (dChar m :: cs) {acc with fm := digitVal (dChar (m / 10))}
         else none))) := rfl
  rw [e1]
  by_cases hm : m ≤ 9
  · have hn1 : ¬(dChar (m / 10) = '1' ∧ (dChar m).isDigit ∧ digitVal (dChar m) ≤ 2) := by
      intro h
      have := (dChar_eq1 _).mp h.1
      omega
    have hp2 : dChar (m / 10) = '0' ∧ (dChar m).isDigit ∧ 1 ≤ digitVal (dChar m) := by
      refine ⟨(dChar_eq0 _).mpr (by omega), dChar_isDigit _, ?_⟩
      rw [digitVal_dChar]
      omega
    rw [if_neg hn1, if_pos hp2]
    have hval : digitVal (dChar m) = m := by rw [digitVal_dChar]; omega
    rw [hval, hc]
    rfl
  · have hp1 : dChar (m / 10) = '1' ∧ (dChar m).isDigit ∧ digitVal (dChar m) ≤ 2 := by
      refine ⟨(dChar_eq1 _).mpr (by omega), dChar_isDigit _, ?_⟩
      rw [digitVal_dChar]
      omega
    rw [if_pos hp1]
    have hval : 10 + digitVal (dChar m) = m := by rw [digitVal_dChar]; omega
    rw [hval, hc]
    rfl

theorem mt_dd (rest : List FTok) (cs : List Char) (acc : FParse) (d : Nat)
    (r : FParse × List Char) (h1 : 1 ≤ d) (h2 : d ≤ 31)
    (hc : matchToks rest cs {acc with fd := d} = some r) :
    matchToks (.dd :: rest) (render2 d ++ cs) acc = some r := by
  have e1 : matchToks (.dd :: rest) (render2 d ++ cs) acc
      = ((if dChar (d / 10) = '3' ∧ (dChar d).isDigit ∧ digitVal (dChar d) ≤ 1 then
           matchToks rest cs {acc with fd := 30 + digitVal (dChar d)} else none)
        <|> ((if (dChar (d / 10) = '1' ∨ dChar (d / 10) = '2') ∧ (dChar d).isDigit then
           matchToks rest cs {acc with fd := digitVal (dChar (d / 10)) * 10 + digitVal (dChar d)}
         else none)
        <|> ((if dChar (d / 10) = '0' ∧ (dChar d).isDigit ∧ 1 ≤ digitVal (dChar d) then
           matchToks rest cs {acc with fd := digitVal (dChar d)} else none)
        <|> (if (dChar (d / 10)).isDigit ∧ 1 ≤ digitVal (dChar (d / 10)) then
           matchToks rest (dChar d :: cs) {acc with fd := digitVal (dChar (d / 10))}
         else none)))) := rfl
  rw [e1]
  by_cases hd30 : 30 ≤ d
  · have hp1 : dChar (d / 10) = '3' ∧ (dChar d).isDigit ∧ digitVal (dChar d) ≤ 1 := by
      refine ⟨(dChar_eq3 _).mpr (by omega), dChar_isDigit _, ?_⟩
      rw [digitVal_dChar]
      omega
    rw [if_pos hp1]
    have hval : 30 + digitVal (dChar d) = d := by rw [digitVal_dChar]; omega
    rw [hval, hc]
    rfl
  · by_cases hd10 : 10 ≤ d
    · have hn1 : ¬(dChar (d / 10) = '3' ∧ (dChar d).isDigit ∧ digitVal (dChar d) ≤ 1) := by
        intro h
        have := (dChar_eq3 _).mp h.1
        omega
      have hp2 : (dChar (d / 10) = '1' ∨ dChar (d / 10) = '2') ∧ (dChar d).isDigit := by
        constructor
        · by_cases hx : d ≤ 19
          · exact Or.inl ((dChar_eq1 _).mpr (by omega))
          · exact Or.inr ((dChar_eq2 _).mpr (by omega))
        · exact dChar_isDigit _
      rw [if_neg hn1, if_pos hp2]
      have hval : digitVal (dChar (d / 10)) * 10 + digitVal (dChar d) = d := by
        simp only [digitVal_dChar]
        omega
      rw [hval, hc]
      rfl
    · have hn1 : ¬(dChar (d / 10) = '3' ∧ (dChar d).isDigit ∧ digitVal (dChar d) ≤ 1) := by
        intro h
        have := (dChar_eq3 _).mp h.1
        omega
      have hn2 : ¬((dChar (d / 10) = '1' ∨ dChar (d / 10) = '2') ∧ (dChar d).isDigit) := by
        intro h
        rcases h.1 with hx | hx
        · have := (dChar_eq1 _).mp hx
          omega
        · have := (dChar_eq2 _).mp hx
          omega
      have hp3 : dChar (d / 10) = '0' ∧ (dChar d).isDigit ∧ 1 ≤ digitVal (dChar d) := by
        refine ⟨(dChar_eq0 _).mpr (by omega), dChar_isDigit _, ?_⟩
        rw [digitVal_dChar]
        omega
      rw [if_neg hn1, if_neg hn2, if_pos hp3]
      have hval : digitVal (dChar d) = d := by rw [digitVal_dChar]; omega
      rw [hval, hc]
      rfl

theorem mt_dH (rest : List FTok) (cs : List Char) (acc : FParse) (H : Nat)
    (r : FParse × List Char) (h2 : H ≤ 23)
    (hc : matchToks rest cs {acc with fH := H} = some r) :
    matchToks (.dH :: rest) (render2 H ++ cs) acc = some r := by
  have e1 : matchToks (.dH :: rest) (render2 H ++ cs) acc
      = ((if dChar (H / 10) = '2' ∧ (dChar H).isDigit ∧ digitVal (dChar H) ≤ 3 then
           matchToks rest cs {acc with fH := 20 + digitVal (dChar H)} else none)
        <|> ((if (dChar (H / 10) = '0' ∨ dChar (H / 10) = '1') ∧ (dChar H).isDigit then
           matchToks rest cs {acc with fH := digitVal (dChar (H / 10)) * 10 + digitVal (dChar H)}
         else none)
        <|> (if (dChar (H / 10)).isDigit then
           matchToks rest (dChar H :: cs) {acc with fH := digitVal (dChar (H / 10))}
         else none))) := rfl
  rw [e1]
  by_cases hh : 20 ≤ H
  · have hp1 : dChar (H / 10) = '2' ∧ (dChar H).isDigit ∧ digitVal (dChar H) ≤ 3 := by
      refine ⟨(dChar_eq2 _).mpr (by omega), dChar_isDigit _, ?_⟩
      rw [digitVal_dChar]
      omega
    rw [if_pos hp1]
    have hval : 20 + digitVal (dChar H) = H := by rw [digitVal_dChar]; omega
    rw [hval, hc]
    rfl
  · have hn1 : ¬(dChar (H / 10) = '2' ∧ (dChar H).isDigit ∧ digitVal (dChar H) ≤ 3) := by
      intro h
      have := (dChar_eq2 _).mp h.1
      omega
    have hp2 : (dChar (H / 10) = '0' ∨ dChar (H / 10) = '1') ∧ (dChar H).isDigit := by
      constructor
      · by_cases hx : H ≤ 9
        · exact Or.inl ((dChar_eq0 _).mpr (by omega))
        · exact Or.inr ((dChar_eq1 _).mpr (by omega))
      · exact dChar_isDigit _
    rw [if_neg hn1, if_pos hp2]
    have hval : digitVal (dChar (H / 10)) * 10 + digitVal (dChar H) = H := by
      simp only [digitVal_dChar]
      omega
    rw [hval, hc]
    rfl

theorem mt_dM (rest : List FTok) (cs : List Char) (acc : FParse) (M : Nat)
    (r : FParse × List Char) (h2 : M ≤ 59)
    (hc : matchToks rest cs {acc with fM := M} = some r) :
    matchToks (.dM :: rest) (render2 M ++ cs) acc = some r := by
  have e1 : matchToks (.dM :: rest) (render2 M ++ cs) acc
      = ((if (dChar (M / 10)).isDigit ∧ digitVal (dChar (M / 10)) ≤ 5 ∧ (dChar M).isDigit then
           matchToks rest cs {acc with fM := digitVal (dChar (M / 10)) * 10 + digitVal (dChar M)}
         else none)
        <|> (if (dChar (M / 10)).isDigit then
           matchToks rest (dChar M :: cs) {acc with fM := digitVal (dChar (M / 10))}
         else none)) := rfl
  rw [e1]
  have hp1 : (dChar (M / 10)).isDigit ∧ digitVal (dChar (M / 10)) ≤ 5 ∧ (dChar M).isDigit := by
    refine ⟨dChar_isDigit _, ?_, dChar_isDigit _⟩
    rw [digitVal_dChar]
    omega
  rw [if_pos hp1]
  have hval : digitVal (dChar (M / 10)) * 10 + digitVal (dChar M) = M := by
    simp only [digitVal_dChar]
    omega
  rw [hval, hc]
  rfl

theorem mt_dS (rest : List FTok) (cs : List Char) (acc : FParse) (S : Nat)
    (r : FParse × List Char) (h2 : S ≤ 59)
    (hc : matchToks rest cs {acc with fS := S} = some r) :
    matchToks (.dS :: rest) (render2 S ++ cs) acc = some r := by
  have e1 : matchToks (.dS :: rest) (render2 S ++ cs) acc
      = ((if dChar (S / 10) = '6' ∧ (dChar S).isDigit ∧ digitVal (dChar S) ≤ 1 then
           matchToks rest cs {acc with fS := 60 + digitVal (dChar S)} else none)
        <|> ((if (dChar (S / 10)).isDigit ∧ digitVal (dChar (S / 10)) ≤ 5 ∧ (dChar S).isDigit then
           matchToks rest cs {acc with fS := digitVal (dChar (S / 10)) * 10 + digitVal (dChar S)}
         else none)
        <|> (if (dChar (S / 10)).isDigit then
           matchToks rest (dChar S :: cs) {acc with fS := digitVal (dChar (S / 10))}
         else none))) := rfl
  rw [e1]
  have hn1 : ¬(dChar (S / 10) = '6' ∧ (dChar S).isDigit ∧ digitVal (dChar S) ≤ 1) := by
    intro h
    have := (dChar_eq6 _).mp h.1
    omega
  have hp2 : (dChar (S / 10)).isDigit ∧ digitVal (dChar (S / 10)) ≤ 5 ∧ (dChar S).isDigit := by
    refine ⟨dChar_isDigit _, ?_, dChar_isDigit _⟩
    rw [digitVal_dChar]
    omega
  rw [if_neg hn1, if_pos hp2]
  have hval : digitVal (dChar (S / 10)) * 10 + digitVal (dChar S) = S := by
    simp only [digitVal_dChar]
    omega
  rw [hval, hc]
  rfl

theorem mt_df (rest : List FTok) (cs : List Char) (acc : FParse) (f : Nat)
    (r : FParse × List Char) (h2 : f ≤ 999999)
    (hc : matchToks rest cs {acc with ff := f} = some r) :
    matchToks (.df :: rest) (render6 f ++ cs) acc = some r := by
  have hp1 : (dChar (f / 100000)).isDigit ∧ (dChar (f / 10000)).isDigit ∧ (dChar (f / 1000)).isDigit
      ∧ (dChar (f / 100)).isDigit ∧ (dChar (f / 10)).isDigit ∧ (dChar f).isDigit :=
    ⟨dChar_isDigit _, dChar_isDigit _, dChar_isDigit _, dChar_isDigit _, dChar_isDigit _,
      dChar_isDigit _⟩
  have hval : ((((digitVal (dChar (f / 100000)) * 10 + digitVal (dChar (f / 10000))) * 10
      + digitVal (dChar (f / 1000))) * 10 + digitVal (dChar (f / 100))) * 10
      + digitVal (dChar (f / 10))) * 10 + digitVal (dChar f) = f := by
    simp only [digitVal_dChar]
    omega
  show ((if (dChar (f / 100000)).isDigit ∧ (dChar (f / 10000)).isDigit ∧ (dChar (f / 1000)).isDigit
      ∧ (dChar (f / 100)).isDigit ∧ (dChar (f / 10)).isDigit ∧ (dChar f).isDigit then
      matchToks rest cs {acc with ff :=
        ((((digitVal (dChar (f / 100000)) * 10 + digitVal (dChar (f / 10000))) * 10
          + digitVal (dChar (f / 1000))) * 10 + digitVal (dChar (f / 100))) * 10
          + digitVal (dChar (f / 10))) * 10 + digitVal (dChar f)}
    else none) <|> _) = some r
  rw [if_pos hp1, hval, hc]
  rfl

theorem daysInMonth_le31 (y : Int) (m : Nat) : daysInMonth y m ≤ 31 := by
  have he : leapE y ≤ 1 := by
    unfold leapE
    split <;> omega
  unfold daysInMonth dimE
  split
  · omega
  · split <;> omega

theorem strptime_canonical_match (t : PyDatetime)
    (hy1 : 1 ≤ t.year) (hy2 : t.year ≤ 9999) (hm1 : 1 ≤ t.month) (hm2 : t.month ≤ 12)
    (hd1 : 1 ≤ t.day) (hd2 : t.day ≤ 31) (hH : t.hour ≤ 23) (hM : t.minute ≤ 59)
    (hS : t.second ≤ 59) (hf : t.micro ≤ 999999) :
    matchToks fmtCanonical (renderCanonicalList t) FParse.dflt
      = some (⟨t.year.toNat, t.month, t.day, t.hour, t.minute, t.second, t.micro,
          some 0⟩, []) := by
  have hr : renderCanonicalList t
      = render4 t.year.toNat ++ ('-' :: (render2 t.month ++ ('-' :: (render2 t.day
        ++ ('T' :: (render2 t.hour ++ (':' :: (render2 t.minute ++ (':' :: (render2 t.second
        ++ ('.' :: (render6 t.micro ++ ['Z'])))))))))))) := by
    unfold renderCanonicalList
    simp [List.append_assoc]
  rw [hr]
  simp only [fmtCanonical]
  rw [mt_dY _ _ _ _ (by omega), mt_lit]
  refine mt_dm _ _ _ _ _ hm1 hm2 ?_
  rw [mt_lit]
  refine mt_dd _ _ _ _ _ hd1 hd2 ?_
  rw [mt_lit]
  refine mt_dH _ _ _ _ _ hH ?_
  rw [mt_lit]
  refine mt_dM _ _ _ _ _ hM ?_
  rw [mt_lit]
  refine mt_dS _ _ _ _ _ hS ?_
  rw [mt_lit]
  refine mt_df _ _ _ _ _ hf ?_
  rfl

theorem strptimeFormat_canonical (t : PyDatetime) (hv : datetimeValid t = true) :
    strptimeFormat fmtCanonical (renderCanonicalList t) = some {t with tzOffset := some 0} := by
  simp only [datetimeValid, Bool.and_eq_true, decide_eq_true_eq] at hv
  obtain ⟨⟨⟨⟨⟨⟨⟨⟨⟨hy1, hy2⟩, hm1⟩, hm2⟩, hd1⟩, hdm⟩, hH⟩, hM⟩, hS⟩, hf⟩ := hv
  have hd31 : t.day ≤ 31 := le_trans hdm (daysInMonth_le31 _ _)
  have hcast : (t.year.toNat : Int) = t.year := Int.toNat_of_nonneg (by omega)
  unfold strptimeFormat
  rw [strptime_canonical_match t hy1 hy2 hm1 hm2 hd1 hd31 hH hM hS hf]
  show mkDatetimeChecked ⟨t.year.toNat, t.month, t.day, t.hour, t.minute, t.second, t.micro,
      some 0⟩ = some {t with tzOffset := some 0}
  have hv2 : datetimeValid ⟨(t.year.toNat : Int), t.month, t.day, t.hour, t.minute, t.second,
      t.micro, some 0⟩ = true := by
    simp only [datetimeValid, Bool.and_eq_true, decide_eq_true_eq, hcast]
    refine ⟨⟨⟨⟨⟨⟨⟨⟨⟨hy1, hy2⟩, hm1⟩, hm2⟩, hd1⟩, hdm⟩, hH⟩, hM⟩, hS⟩, hf⟩
  unfold mkDatetimeChecked
  simp only [hv2, Bool.and_true, Bool.true_and]
  rw [if_pos (by decide)]
  rw [hcast]

theorem pyUpperChar_digit (c : Char) (h : c.isDigit = true) : pyUpperChar c = c := by
  unfold pyUpperChar
  rw [if_neg]
  intro hc
  simp only [Char.isDigit, Bool.and_eq_true, decide_eq_true_eq] at h
  have h9 : c ≤ ('9' : Char) := h.2
  exact absurd (le_trans hc.1 h9) (by decide)

theorem rcl_cons (t : PyDatetime) :
    renderCanonicalList t
      = [dChar (t.year.toNat / 1000), dChar (t.year.toNat / 100), dChar (t.year.toNat / 10),
         dChar t.year.toNat, '-', dChar (t.month / 10), dChar t.month, '-',
         dChar (t.day / 10), dChar t.day, 'T', dChar (t.hour / 10), dChar t.hour, ':',
         dChar (t.minute / 10), dChar t.minute, ':', dChar (t.second / 10), dChar t.second,
         '.', dChar (t.micro / 100000), dChar (t.micro / 10000), dChar (t.micro / 1000),
         dChar (t.micro / 100), dChar (t.micro / 10), dChar t.micro, 'Z'] := rfl

theorem beq_plus_dChar (n : Nat) : (('+' : Char) == dChar n) = false := by
  rw [beq_eq_false_iff_ne]
  intro h
  exact dChar_ne_plus n h.symm

theorem beq_dash_dChar (n : Nat) : (('-' : Char) == dChar n) = false := by
  rw [beq_eq_false_iff_ne]
  intro h
  exact dChar_ne_dash n h.symm

theorem beq_zero_dChar (n : Nat) (h : ¬(n % 10 = 0)) : (('0' : Char) == dChar n) = false := by
  rw [beq_eq_false_iff_ne]
  intro heq
  exact h ((dChar_eq0 n).mp heq.symm)

theorem rcl_map_upper (t : PyDatetime) :
    (renderCanonicalList t).map pyUpperChar = renderCanonicalList t := by
  rw [rcl_cons]
  simp only [List.map_cons, List.map_nil, pyUpperChar_dChar,
    (by decide : pyUpperChar '-' = '-'), (by decide : pyUpperChar ':' = ':'),
    (by decide : pyUpperChar '.' = '.'), (by decide : pyUpperChar 'T' = 'T'),
    (by decide : pyUpperChar 'Z' = 'Z')]

theorem rcl_rstrip (t : PyDatetime) :
    pyRstripZ (renderCanonicalList t)
      = [dChar (t.year.toNat / 1000),
       dChar (t.year.toNat / 100),
       dChar (t.year.toNat / 10),
       dChar t.year.toNat,
       '-',
       dChar (t.month / 10),
       dChar t.month,
       '-',
       dChar (t.day / 10),
       dChar t.day,
       'T',
       dChar (t.hour / 10),
       dChar t.hour,
       ':',
       dChar (t.minute / 10),
       dChar t.minute,
       ':',
       dChar (t.second / 10),
       dChar t.second,
       '.',
       dChar (t.micro / 100000),
       dChar (t.micro / 10000),
       dChar (t.micro / 1000),
       dChar (t.micro / 100),
       dChar (t.micro / 10),
       dChar t.micro] := by
  rw [rcl_cons]
  unfold pyRstripZ
  have hrev : ([dChar (t.year.toNat / 1000),
       dChar (t.year.toNat / 100),
       dChar (t.year.toNat / 10),
       dChar t.year.toNat,
       '-',
       dChar (t.month / 10),
       dChar t.month,
       '-',
       dChar (t.day / 10),
       dChar t.day,
       'T',
       dChar (t.hour / 10),
       dChar t.hour,
       ':',
       dChar (t.minute / 10),
       dChar t.minute,
       ':',
       dChar (t.second / 10),
       dChar t.second,
       '.',
       dChar (t.micro / 100000),
       dChar (t.micro / 10000),
       dChar (t.micro / 1000),
       dChar (t.micro / 100),
       dChar (t.micro / 10),
       dChar t.micro,
       'Z'] : List Char).reverse
      = ['Z',
       dChar t.micro,
       dChar (t.micro / 10),
       dChar (t.micro / 100),
       dChar (t.micro / 1000),
       dChar (t.micro / 10000),
       dChar (t.micro / 100000),
       '.',
       dChar t.second,
       dChar (t.second / 10),
       ':',
       dChar t.minute,
       dChar (t.minute / 10),
       ':',
       dChar t.hour,
       dChar (t.hour / 10),
       'T',
       dChar t.day,
       dChar (t.day / 10),
       '-',
       dChar t.month,
       dChar (t.month / 10),
       '-',
       dChar t.year.toNat,
       dChar (t.year.toNat / 10),
       dChar (t.year.toNat / 100),
       dChar (t.year.toNat / 1000)] := by
    simp
  rw [hrev]
  simp only [List.dropWhile_cons, decide_eq_true_eq]
  rw [if_pos trivial, if_neg (dChar_ne_zUp t.micro)]
  simp

theorem rcl_tbf_plus (t : PyDatetime) :
    takeBeforeFirst ['+', '0', '0', ':', '0', '0']
      [dChar (t.year.toNat / 1000),
       dChar (t.year.toNat / 100),
       dChar (t.year.toNat / 10),
       dChar t.year.toNat,
       '-',
       dChar (t.month / 10),
       dChar t.month,
       '-',
       dChar (t.day / 10),
       dChar t.day,
       'T',
       dChar (t.hour / 10),
       dChar t.hour,
       ':',
       dChar (t.minute / 10),
       dChar t.minute,
       ':',
       dChar (t.second / 10),
       dChar t.second,
       '.',
       dChar (t.micro / 100000),
       dChar (t.micro / 10000),
       dChar (t.micro / 1000),
       dChar (t.micro / 100),
       dChar (t.micro / 10),
       dChar t.micro]
      = [dChar (t.year.toNat / 1000),
       dChar (t.year.toNat / 100),
       dChar (t.year.toNat / 10),
       dChar t.year.toNat,
       '-',
       dChar (t.month / 10),
       dChar t.month,
       '-',
       dChar (t.day / 10),
       dChar t.day,
       'T',
       dChar (t.hour / 10),
       dChar t.hour,
       ':',
       dChar (t.minute / 10),
       dChar t.minute,
       ':',
       dChar (t.second / 10),
       dChar t.second,
       '.',
       dChar (t.micro / 100000),
       dChar (t.micro / 10000),
       dChar (t.micro / 1000),
       dChar (t.micro / 100),
       dChar (t.micro / 10),
       dChar t.micro] := by
  simp only [takeBeforeFirst, List.isPrefixOf, beq_plus_dChar, Bool.false_and, if_neg,
    (by decide : (('+' : Char) == '-') = false), (by decide : (('+' : Char) == ':') = false),
    (by decide : (('+' : Char) == 'T') = false), (by decide : (('+' : Char) == '.') = false),
    Bool.false_eq_true, if_false]

theorem rcl_tbf_dash (t : PyDatetime) :
    takeBeforeFirst ['-', '0', '0', ':', '0', '0']
      [dChar (t.year.toNat / 1000), dChar (t.year.toNat / 100), dChar (t.year.toNat / 10), dChar t.year.toNat, '-', dChar (t.month / 10), dChar t.month, '-', dChar (t.day / 10), dChar t.day, 'T', dChar (t.hour / 10), dChar t.hour, ':', dChar (t.minute / 10), dChar t.minute, ':', dChar (t.second / 10), dChar t.second, '.', dChar (t.micro / 100000), dChar (t.micro / 10000), dChar (t.micro / 1000), dChar (t.micro / 100), dChar (t.micro / 10), dChar t.micro]
      = [dChar (t.year.toNat / 1000), dChar (t.year.toNat / 100), dChar (t.year.toNat / 10), dChar t.year.toNat, '-', dChar (t.month / 10), dChar t.month, '-', dChar (t.day / 10), dChar t.day, 'T', dChar (t.hour / 10), dChar t.hour, ':', dChar (t.minute / 10), dChar t.minute, ':', dChar (t.second / 10), dChar t.second, '.', dChar (t.micro / 100000), dChar (t.micro / 10000), dChar (t.micro / 1000), dChar (t.micro / 100), dChar (t.micro / 10), dChar t.micro] := by
  simp only [takeBeforeFirst, List.isPrefixOf, beq_dash_dChar, Bool.false_and, Bool.and_false,
    beq_self_eq_true, Bool.true_and,
    (by decide : ((':' : Char) == '-') = false), (by decide : ((':' : Char) == 'T') = false),
    (by decide : (('-' : Char) == ':') = false), (by decide : (('-' : Char) == 'T') = false),
    (by decide : (('-' : Char) == '.') = false),
    Bool.false_eq_true, if_false]

theorem spliceValue_canonical (t : PyDatetime) :
    spliceValue (renderCanonicalList t) = renderCanonicalList t := by
  show takeBeforeFirst ['-', '0', '0', ':', '0', '0']
      (takeBeforeFirst ['+', '0', '0', ':', '0', '0']
        (pyRstripZ (((renderCanonicalList t).take 10
          ++ 'T' :: (renderCanonicalList t).drop 11).map pyUpperChar))) ++ ['Z']
    = renderCanonicalList t
  have h1 : (renderCanonicalList t).take 10 ++ 'T' :: (renderCanonicalList t).drop 11
      = renderCanonicalList t := rfl
  rw [h1, rcl_map_upper, rcl_rstrip, rcl_tbf_plus, rcl_tbf_dash, rcl_cons]
  rfl

theorem classMonth_render (m : Nat) (h1 : 1 ≤ m) (h2 : m ≤ 12) :
    classMonth (dChar (m / 10)) (dChar m) = true := by
  unfold classMonth
  by_cases hm : m ≤ 9
  · have hc1 : dChar (m / 10) = '0' := (dChar_eq0 _).mpr (by omega)
    have hdv : 1 ≤ digitVal (dChar m) := by rw [digitVal_dChar]; omega
    simp [hc1, dChar_isDigit, hdv]
  · have hc1 : dChar (m / 10) = '1' := (dChar_eq1 _).mpr (by omega)
    have hc2 : dChar m = '0' ∨ dChar m = '1' ∨ dChar m = '2' := by
      by_cases ha : m = 10
      · exact Or.inl ((dChar_eq0 _).mpr (by omega))
      · by_cases hb : m = 11
        · exact Or.inr (Or.inl ((dChar_eq1 _).mpr (by omega)))
        · exact Or.inr (Or.inr ((dChar_eq2 _).mpr (by omega)))
    rcases hc2 with hc2 | hc2 | hc2 <;> simp [hc1, hc2]

theorem classDay_render (d : Nat) (h1 : 1 ≤ d) (h2 : d ≤ 31) :
    classDay (dChar (d / 10)) (dChar d) = true := by
  unfold classDay
  by_cases hd9 : d ≤ 9
  · have hc1 : dChar (d / 10) = '0' := (dChar_eq0 _).mpr (by omega)
    have hdv : 1 ≤ digitVal (dChar d) := by rw [digitVal_dChar]; omega
    simp [hc1, dChar_isDigit, hdv]
  · by_cases hd29 : d ≤ 29
    · have hc1 : dChar (d / 10) = '1' ∨ dChar (d / 10) = '2' := by
        by_cases hx : d ≤ 19
        · exact Or.inl ((dChar_eq1 _).mpr (by omega))
        · exact Or.inr ((dChar_eq2 _).mpr (by omega))
      rcases hc1 with hc1 | hc1 <;> simp [hc1, dChar_isDigit]
    · have hc1 : dChar (d / 10) = '3' := (dChar_eq3 _).mpr (by omega)
      have hc2 : dChar d = '0' ∨ dChar d = '1' := by
        by_cases hx : d = 30
        · exact Or.inl ((dChar_eq0 _).mpr (by omega))
        · exact Or.inr ((dChar_eq1 _).mpr (by omega))
      rcases hc2 with hc2 | hc2 <;> simp [hc1, hc2]

theorem classHour_render (H : Nat) (h2 : H ≤ 23) :
    classHour (dChar (H / 10)) (dChar H) = true := by
  unfold classHour
  by_cases hh : H ≤ 19
  · have hc1 : dChar (H / 10) = '0' ∨ dChar (H / 10) = '1' := by
      by_cases hx : H ≤ 9
      · exact Or.inl ((dChar_eq0 _).mpr (by omega))
      · exact Or.inr ((dChar_eq1 _).mpr (by omega))
    rcases hc1 with hc1 | hc1 <;> simp [hc1, dChar_isDigit]
  · have hc1 : dChar (H / 10) = '2' := (dChar_eq2 _).mpr (by omega)
    have hdv : digitVal (dChar H) ≤ 3 := by rw [digitVal_dChar]; omega
    simp [hc1, dChar_isDigit, hdv]

theorem classMinSec_render (n : Nat) (h2 : n ≤ 59) :
    classMinSec (dChar (n / 10)) (dChar n) = true := by
  unfold classMinSec
  have hdv : digitVal (dChar (n / 10)) ≤ 5 := by rw [digitVal_dChar]; omega
  simp [dChar_isDigit, hdv]

theorem strptimeFormat_dateOnly (t : PyDatetime) (hv : datetimeValid t = true) :
    strptimeFormat fmtDateOnly
      (render4 t.year.toNat ++ ('-' :: (render2 t.month ++ ('-' :: render2 t.day))))
      = some ⟨t.year, t.month, t.day, 0, 0, 0, 0, none⟩ := by
  simp only [datetimeValid, Bool.and_eq_true, decide_eq_true_eq] at hv
  obtain ⟨⟨⟨⟨⟨⟨⟨⟨⟨hy1, hy2⟩, hm1⟩, hm2⟩, hd1⟩, hdm⟩, hH⟩, hM⟩, hS⟩, hf⟩ := hv
  have hd31 : t.day ≤ 31 := le_trans hdm (daysInMonth_le31 _ _)
  have hcast : (t.year.toNat : Int) = t.year := Int.toNat_of_nonneg (by omega)
  have hmatch : matchToks fmtDateOnly
      (render4 t.year.toNat ++ ('-' :: (render2 t.month ++ ('-' :: render2 t.day))))
      FParse.dflt
      = some (⟨t.year.toNat, t.month, t.day, 0, 0, 0, 0, none⟩, []) := by
    simp only [fmtDateOnly]
    rw [mt_dY _ _ _ _ (by omega), mt_lit]
    refine mt_dm _ _ _ _ _ hm1 hm2 ?_
    rw [mt_lit]
    exact mt_dd [] [] _ t.day _ hd1 hd31 rfl
  unfold strptimeFormat
  rw [hmatch]
  show mkDatetimeChecked ⟨t.year.toNat, t.month, t.day, 0, 0, 0, 0, none⟩
      = some ⟨t.year, t.month, t.day, 0, 0, 0, 0, none⟩
  have hv2 : datetimeValid ⟨(t.year.toNat : Int), t.month, t.day, 0, 0, 0, 0, none⟩ = true := by
    simp only [datetimeValid, Bool.and_eq_true, decide_eq_true_eq, hcast]
    refine ⟨⟨⟨⟨⟨⟨⟨⟨⟨hy1, hy2⟩, hm1⟩, hm2⟩, hd1⟩, hdm⟩, by omega⟩, by omega⟩, by omega⟩, by omega⟩
  unfold mkDatetimeChecked
  simp only [hv2]
  norm_num
  omega

theorem preferredBranch_canonical (t : PyDatetime) (hv : datetimeValid t = true) :
    preferredBranch (renderCanonicalList t) = some (.ok (renderCanonicalList t)) := by
  have hvb := hv
  simp only [datetimeValid, Bool.and_eq_true, decide_eq_true_eq] at hvb
  obtain ⟨⟨⟨⟨⟨⟨⟨⟨⟨hy1, hy2⟩, hm1⟩, hm2⟩, hd1⟩, hdm⟩, hH⟩, hM⟩, hS⟩, hf⟩ := hvb
  have hd31 : t.day ≤ 31 := le_trans hdm (daysInMonth_le31 _ _)
  rw [rcl_cons]
  simp only [preferredBranch, dChar_isDigit, classMonth_render t.month hm1 hm2,
    classDay_render t.day hd1 hd31, classHour_render t.hour hH,
    classMinSec_render t.minute hM, classMinSec_render t.second hS,
    Bool.and_true, Bool.true_and, Bool.and_self, Bool.or_true, Bool.true_or]
  have hday : digitVal (dChar (t.day / 10)) * 10 + digitVal (dChar t.day) = t.day := by
    simp only [digitVal_dChar]
    omega
  have hmon : digitVal (dChar (t.month / 10)) * 10 + digitVal (dChar t.month) = t.month := by
    simp only [digitVal_dChar]
    omega
  rw [hday, hmon]
  rw [if_pos (by decide)]
  by_cases hbig : 30 ≤ t.day ∨ (t.month = 2 ∧ 28 ≤ t.day)
  · rw [if_pos hbig]
    have htake : ([dChar (t.year.toNat / 1000), dChar (t.year.toNat / 100),
        dChar (t.year.toNat / 10), dChar t.year.toNat, '-', dChar (t.month / 10), dChar t.month,
        '-', dChar (t.day / 10), dChar t.day, 'T', dChar (t.hour / 10), dChar t.hour, ':',
        dChar (t.minute / 10), dChar t.minute, ':', dChar (t.second / 10), dChar t.second,
        '.', dChar (t.micro / 100000), dChar (t.micro / 10000), dChar (t.micro / 1000),
        dChar (t.micro / 100), dChar (t.micro / 10), dChar t.micro, 'Z'] : List Char).take 10
        = render4 t.year.toNat ++ ('-' :: (render2 t.month ++ ('-' :: render2 t.day))) := rfl
    rw [htake, strptimeFormat_dateOnly t hv]
    rw [← rcl_cons, spliceValue_canonical]
  · rw [if_neg hbig]
    rw [← rcl_cons, spliceValue_canonical]

theorem rcl_length (t : PyDatetime) : (renderCanonicalList t).length = 27 := by
  rw [rcl_cons]
  rfl

theorem numericShortcut_rcl (t : PyDatetime) :
    numericShortcut (renderCanonicalList t) = false := by
  unfold numericShortcut
  rw [rcl_length]
  simp

theorem pyStrip_rcl (t : PyDatetime) :
    pyStrip (renderCanonicalList t) = renderCanonicalList t := by
  unfold pyStrip
  rw [rcl_cons]
  have h1 : List.dropWhile isPySpace ([dChar (t.year.toNat / 1000), dChar (t.year.toNat / 100),
      dChar (t.year.toNat / 10), dChar t.year.toNat, '-', dChar (t.month / 10), dChar t.month,
      '-', dChar (t.day / 10), dChar t.day, 'T', dChar (t.hour / 10), dChar t.hour, ':',
      dChar (t.minute / 10), dChar t.minute, ':', dChar (t.second / 10), dChar t.second,
      '.', dChar (t.micro / 100000), dChar (t.micro / 10000), dChar (t.micro / 1000),
      dChar (t.micro / 100), dChar (t.micro / 10), dChar t.micro, 'Z'] : List Char) = [dChar (t.year.toNat / 1000), dChar (t.year.toNat / 100),
      dChar (t.year.toNat / 10), dChar t.year.toNat, '-', dChar (t.month / 10), dChar t.month,
      '-', dChar (t.day / 10), dChar t.day, 'T', dChar (t.hour / 10), dChar t.hour, ':',
      dChar (t.minute / 10), dChar t.minute, ':', dChar (t.second / 10), dChar t.second,
      '.', dChar (t.micro / 100000), dChar (t.micro / 10000), dChar (t.micro / 1000),
      dChar (t.micro / 100), dChar (t.micro / 10), dChar t.micro, 'Z'] := by
    rw [List.dropWhile_cons, isPySpace_dChar]
    simp
  rw [h1]
  have hrev : ([dChar (t.year.toNat / 1000), dChar (t.year.toNat / 100),
      dChar (t.year.toNat / 10), dChar t.year.toNat, '-', dChar (t.month / 10), dChar t.month,
      '-', dChar (t.day / 10), dChar t.day, 'T', dChar (t.hour / 10), dChar t.hour, ':',
      dChar (t.minute / 10), dChar t.minute, ':', dChar (t.second / 10), dChar t.second,
      '.', dChar (t.micro / 100000), dChar (t.micro / 10000), dChar (t.micro / 1000),
      dChar (t.micro / 100), dChar (t.micro / 10), dChar t.micro, 'Z'] : List Char).reverse = ['Z', dChar t.micro, dChar (t.micro / 10), dChar (t.micro / 100),
      dChar (t.micro / 1000), dChar (t.micro / 10000), dChar (t.micro / 100000), '.',
      dChar t.second, dChar (t.second / 10), ':', dChar t.minute, dChar (t.minute / 10),
      ':', dChar t.hour, dChar (t.hour / 10), 'T', dChar t.day, dChar (t.day / 10), '-',
      dChar t.month, dChar (t.month / 10), '-', dChar t.year.toNat,
      dChar (t.year.toNat / 10), dChar (t.year.toNat / 100), dChar (t.year.toNat / 1000)] := by simp
  rw [hrev]
  have h2 : List.dropWhile isPySpace (['Z', dChar t.micro, dChar (t.micro / 10), dChar (t.micro / 100),
      dChar (t.micro / 1000), dChar (t.micro / 10000), dChar (t.micro / 100000), '.',
      dChar t.second, dChar (t.second / 10), ':', dChar t.minute, dChar (t.minute / 10),
      ':', dChar t.hour, dChar (t.hour / 10), 'T', dChar t.day, dChar (t.day / 10), '-',
      dChar t.month, dChar (t.month / 10), '-', dChar t.year.toNat,
      dChar (t.year.toNat / 10), dChar (t.year.toNat / 100), dChar (t.year.toNat / 1000)] : List Char) = ['Z', dChar t.micro, dChar (t.micro / 10), dChar (t.micro / 100),
      dChar (t.micro / 1000), dChar (t.micro / 10000), dChar (t.micro / 100000), '.',
      dChar t.second, dChar (t.second / 10), ':', dChar t.minute, dChar (t.minute / 10),
      ':', dChar t.hour, dChar (t.hour / 10), 'T', dChar t.day, dChar (t.day / 10), '-',
      dChar t.month, dChar (t.month / 10), '-', dChar t.year.toNat,
      dChar (t.year.toNat / 10), dChar (t.year.toNat / 100), dChar (t.year.toNat / 1000)] := by
    rw [List.dropWhile_cons]
    simp [(by decide : isPySpace 'Z' = false)]
  rw [h2]
  rfl

theorem transformStr_canonical (t : PyDatetime) (hv : datetimeValid t = true) :
    transformStr (renderCanonicalList t) = .ok (renderCanonicalList t) := by
  unfold transformStr
  simp only [numericShortcut_rcl, Bool.false_eq_true, if_false]
  rw [preferredBranch_canonical t hv]

theorem pyLowerStr_ne_now (l : List Char) (hlen : l.length = 27) :
    ¬(pyLowerStr l = "now".data ∨ pyLowerStr l = "today".data) := by
  intro h
  have h2 : (pyLowerStr l).length = 27 := by
    unfold pyLowerStr
    rw [List.length_map, hlen]
  rcases h with h | h <;> rw [h] at h2 <;> simp at h2

theorem init_modifier_canonical (t : PyDatetime) (s : String)
    (hdata : s.data = renderCanonicalList t) (m : PyMod) (hm : m = PyMod.none ∨ m = .int 0) :
    _init_modifier (.str s) m = .ok (.str s, qofInt 0) := by
  unfold _init_modifier _init_modifier_lru
  simp only []
  rw [hdata, rcl_cons]
  rcases hm with rfl | rfl <;>
    simp only [] <;>
    rw [if_neg (fun h => by
      rcases h.1 with h1 | h1
      · exact dChar_ne_plus _ h1
      · exact dChar_ne_dash _ h1)] <;>
    simp only [] <;>
    rw [if_neg (pyLowerStr_ne_now _ (by rw [hdata, rcl_length]))]

theorem timestamp_to_datetime_canonical (t : PyDatetime) (s : String)
    (hdata : s.data = renderCanonicalList t) (hv : datetimeValid t = true) :
    _timestamp_to_datetime (.str s) = .ok {t with tzOffset := some 0} := by
  unfold _timestamp_to_datetime
  have htr : _transform_value (.str s) = .ok (renderCanonicalList t) := by
    show transformStr (pyStrip s.data) = _
    rw [hdata, pyStrip_rcl, transformStr_canonical t hv]
  rw [htr]
  simp only []
  rw [strptimeFormat_canonical t hv]

theorem rfc3339_timestamp_canonical (st : SyncSt) (clockNs : Int) (t : PyDatetime) (s : String)
    (hdata : s.data = renderCanonicalList t) (hv : datetimeValid t = true)
    (m : PyMod) (hm : m = PyMod.none ∨ m = .int 0) :
    rfc3339_timestamp st clockNs (.str s) m = .ok (renderCanonicalList t) := by
  unfold rfc3339_timestamp
  rw [init_modifier_canonical t s hdata m hm]
  simp only []
  rw [if_pos (by decide : qIsZero (qofInt 0) = true)]
  show transformStr (pyStrip s.data) = _
  rw [hdata, pyStrip_rcl, transformStr_canonical t hv]

/-- C1: parse idempotence on canonical strings.  For every calendar-valid
instant (`datetimeValid`: proleptic Gregorian year 1..9999, leap-aware day
range, seconds at most 59), the canonical 27-character rendering satisfies
the spec's output shape, `_transform_value` maps the rendered string to
itself (the preferred-format fast path accepts it, the day-of-month reparse
succeeds, and the splice is the identity), and the public
`rfc3339_timestamp` with no modifier returns the input string unchanged in
every synchronizer state. -/
theorem claimC1_parse_idempotent :
    ∀ (t : PyDatetime), datetimeValid t = true →
      specCanonicalShape (renderCanonicalList t) = true ∧
      _transform_value (.str ⟨renderCanonicalList t⟩) = .ok (renderCanonicalList t) ∧
      (∀ (st : SyncSt) (clockNs : Int),
        rfc3339_timestamp st clockNs (.str ⟨renderCanonicalList t⟩) .none
          = .ok (renderCanonicalList t)) := by
  intro t hv
  refine ⟨?_, ?_, ?_⟩
  · rw [rcl_cons]
    simp [specCanonicalShape, dChar_isDigit]
  · show transformStr (pyStrip (renderCanonicalList t)) = .ok (renderCanonicalList t)
    rw [pyStrip_rcl, transformStr_canonical t hv]
  · intro st clockNs
    exact rfc3339_timestamp_canonical st clockNs t _ rfl hv _ (Or.inl rfl)

theorem claimC1_parse_idempotent_witness :
    _transform_value (.str ⟨renderCanonicalList ⟨2021, 2, 18, 1, 2, 3, 4, none⟩⟩)
      = .ok (renderCanonicalList ⟨2021, 2, 18, 1, 2, 3, 4, none⟩) :=
  (claimC1_parse_idempotent ⟨2021, 2, 18, 1, 2, 3, 4, none⟩ (by decide)).2.1

theorem as_datetime_canonical (st : SyncSt) (clockNs : Int) (t : PyDatetime) (s : String)
    (hdata : s.data = renderCanonicalList t) (hv : datetimeValid t = true) :
    as_datetime st clockNs (.str s) (.int 0) = .ok {t with tzOffset := some 0} := by
  unfold as_datetime
  rw [init_modifier_canonical t s hdata _ (Or.inr rfl)]
  simp only []
  rw [timestamp_to_datetime_canonical t s hdata hv]
  simp only []
  rw [if_pos (by decide : qIsZero (qofInt 0) = true)]

theorem dtAddSeconds_spec (t : PyDatetime) (q : Q) (t2 : PyDatetime)
    (h : dtAddSeconds t q = some t2) :
    datetimeValid t2 = true ∧ t2.tzOffset = t.tzOffset ∧
    dtMicros t2 = dtMicros t + qroundHalfEven (qmul q (qofInt 1000000)) := by
  unfold dtAddSeconds at h
  simp only [] at h
  split_ifs at h with hy
  · injection h with h2
    subst h2
    obtain ⟨g1, g2, g3, g4, g5, g6, g7, g8, g9⟩ :=
      microsToDTfields_fields (dtMicros t + qroundHalfEven (qmul q (qofInt 1000000)))
    refine ⟨?_, rfl, ?_⟩
    · unfold datetimeValid
      simp only [Bool.and_eq_true, decide_eq_true_eq]
      exact ⟨⟨⟨⟨⟨⟨⟨⟨⟨hy.1, hy.2⟩, g1⟩, g2⟩, g3⟩, g4⟩, g5⟩, g6⟩, g7⟩, g8⟩
    · show dtMicros (microsToDTfields (dtMicros t + qroundHalfEven (qmul q (qofInt 1000000)))) = _
      rw [dtMicros_microsToDTfields]

/-- C7: frozen-time determinism.  While the synchronizer is frozen, every
now-valued read (`rfc3339_timestamp`, `as_unixtime`, `as_datetime`,
`as_protobuf` on the now sentinel, with any modifier) is independent of the
wall clock, so two consecutive reads in the scope are bit-identical; and a
now read together with a now+"+15m" read render instants whose `timediff`
in seconds is exactly 900. -/
theorem claimC7_frozen_time :
    (∀ (st : SyncSt) (c1 c2 : Int) (m : PyMod), st.mainFrozen = true →
        rfc3339_timestamp st c1 .now m = rfc3339_timestamp st c2 .now m ∧
        as_unixtime st c1 .now m = as_unixtime st c2 .now m ∧
        as_datetime st c1 .now m = as_datetime st c2 .now m ∧
        as_protobuf st c1 .now m = as_protobuf st c2 .now m) ∧
    (∀ (st st2 : SyncSt) (c c2 : Int) (t t2 : PyDatetime),
        st.mainFrozen = true →
        syncDatetime st c = some t →
        dtAddSeconds t (qmk 900 1) = some t2 →
        rfc3339_timestamp st c .now (.int 0) = .ok (renderCanonicalList t) ∧
        rfc3339_timestamp st c .now (.str "+15m") = .ok (renderCanonicalList t2) ∧
        timediff st2 c2 (.str ⟨renderCanonicalList t⟩) (.str ⟨renderCanonicalList t2⟩)
          "seconds" = .ok (qmk 900 1)) := by
  constructor
  · intro st c1 c2 m hf
    have hsd : syncDatetime st c1 = syncDatetime st c2 := by
      unfold syncDatetime syncTime syncTimeNs
      rw [hf]
      rfl
    have hst : syncTime st c1 = syncTime st c2 := by
      unfold syncTime syncTimeNs
      rw [hf]
      rfl
    refine ⟨?_, ?_, ?_, ?_⟩
    · unfold rfc3339_timestamp
      rw [hsd]
    · unfold as_unixtime
      rw [hst]
    · unfold as_datetime
      rw [hsd]
    · unfold as_protobuf
      rw [hst]
  · intro st st2 c c2 t t2 hf hsd hadd
    have hvt : datetimeValid t = true ∧ t.tzOffset = some 0 :=
      fromtimestampUTC_valid (syncTime st c) t hsd
    obtain ⟨hvalid2, htz2, hmic⟩ := dtAddSeconds_spec t (qmk 900 1) t2 hadd
    have hr : qroundHalfEven (qmul (qmk 900 1) (qofInt 1000000)) = 900000000 := by decide
    rw [hr] at hmic
    refine ⟨?_, ?_, ?_⟩
    · unfold rfc3339_timestamp
      rw [show _init_modifier .now (.int 0) = .ok (.now, qofInt 0) from by decide]
      simp only []
      rw [hsd]
      simp only []
      rw [if_pos (by decide : qIsZero (qofInt 0) = true)]
    · unfold rfc3339_timestamp
      rw [show _init_modifier .now (.str "+15m") = .ok (.now, qmk 900 1) from by decide]
      simp only []
      rw [hsd]
      simp only []
      rw [if_neg (by decide : ¬(qIsZero (qmk 900 1) = true))]
      rw [hadd]
    · unfold timediff
      simp only []
      rw [as_datetime_canonical _ c2 t2 ⟨renderCanonicalList t2⟩ rfl hvalid2,
        as_datetime_canonical _ c2 t ⟨renderCanonicalList t⟩ rfl hvt.1]
      simp only []
      have hΔ : dtEpochMicros {t2 with tzOffset := some 0}
          - dtEpochMicros {t with tzOffset := some 0} = 900000000 := by
        unfold dtEpochMicros
        have e1 : dtMicros {t2 with tzOffset := some 0} = dtMicros t2 := rfl
        have e2 : dtMicros {t with tzOffset := some 0} = dtMicros t := rfl
        rw [e1, e2]
        simp only [Option.getD_some]
        omega
      rw [hΔ]
      decide

theorem claimC7_frozen_time_witness :
    rfc3339_timestamp (⟨true, none, 1640998800000000000, 0, []⟩ : SyncSt) 0 .now (.int 0)
      = .ok (renderCanonicalList ⟨2022, 1, 1, 1, 0, 0, 0, some 0⟩) ∧
    rfc3339_timestamp (⟨true, none, 1640998800000000000, 0, []⟩ : SyncSt) 0 .now (.str "+15m")
      = .ok (renderCanonicalList ⟨2022, 1, 1, 1, 15, 0, 0, some 0⟩) ∧
    timediff initialSyncSt 0
      (.str ⟨renderCanonicalList ⟨2022, 1, 1, 1, 0, 0, 0, some 0⟩⟩)
      (.str ⟨renderCanonicalList ⟨2022, 1, 1, 1, 15, 0, 0, some 0⟩⟩) "seconds"
      = .ok (qmk 900 1) :=
  claimC7_frozen_time.2 ⟨true, none, 1640998800000000000, 0, []⟩ initialSyncSt 0 0
    ⟨2022, 1, 1, 1, 0, 0, 0, some 0⟩ ⟨2022, 1, 1, 1, 15, 0, 0, some 0⟩
    (by decide) (by decide) (by decide)

theorem pyStrip_id (c1 c2 : Char) (mid : List Char)
    (h1 : isPySpace c1 = false) (h2 : isPySpace c2 = false) :
    pyStrip (c1 :: mid ++ [c2]) = c1 :: mid ++ [c2] := by
  unfold pyStrip
  rw [List.cons_append, List.dropWhile_cons, h1]
  simp only [Bool.false_eq_true, if_false]
  have hrev : (c1 :: (mid ++ [c2]) : List Char).reverse = c2 :: (mid.reverse ++ [c1]) := by
    simp
  rw [hrev, List.dropWhile_cons, h2]
  simp only [Bool.false_eq_true, if_false]
  rw [← hrev, List.reverse_reverse]

theorem strptimeFormat_of_match (f : List FTok) (cs : List Char)
    (res : Option (FParse × List Char)) (hm : matchToks f cs FParse.dflt = res)
    (h : res.elim true (fun pr => !pr.2.isEmpty) = true) :
    strptimeFormat f cs = none := by
  unfold strptimeFormat
  rw [hm]
  rcases res with _ | ⟨fp, r⟩
  · rfl
  · simp only [Option.elim] at h
    simp only []
    rw [if_neg]
    intro hr
    rw [hr] at h
    simp at h

example (y : Nat) (hY : y ≤ 9999) :
    strptimeFormat [.dY, .lit '-', .dm, .lit '-', .dd, .lit 'T', .dH, .lit ':', .dM, .lit ':',
      .dS, .lit '.', .df, .dz] (render4 y ++ "-02-29".data) = none :=
  strptimeFormat_of_match _ _ _
    (mt_dY [.lit '-', .dm, .lit '-', .dd, .lit 'T', .dH, .lit ':', .dM, .lit ':', .dS,
      .lit '.', .df, .dz] "-02-29".data FParse.dflt y hY) (by rfl)

example (y : Nat) (hY : y ≤ 9999) :
    strptimeFormat [.dY, .lit '-', .dm, .lit '-', .dd, .dz] (render4 y ++ "-02-29".data)
      = none :=
  strptimeFormat_of_match _ _ _
    (mt_dY [.lit '-', .dm, .lit '-', .dd, .dz] "-02-29".data FParse.dflt y hY) (by rfl)

example (y : Nat) : preferredBranch (render4 y ++ "-02-29".data) = none := rfl

example (y : Nat) : endsWithUTCsp (render4 y ++ "-02-29".data) = false := rfl

theorem beq_dChar_dash (n : Nat) : ((dChar n) == '-') = false :=
  beq_eq_false_iff_ne.mpr (dChar_ne_dash n)

theorem numericShortcut_r4_2dash (y : Nat) (tail : List Char)
    (hc : tail.count '-' = 2) :
    numericShortcut (render4 y ++ tail) = false := by
  have hcount : (render4 y ++ tail).count '-' = 2 := by
    rw [List.count_append]
    have h0 : (render4 y).count '-' = 0 := by
      unfold render4
      simp [List.count_cons, beq_dChar_dash]
    rw [h0, hc]
  unfold numericShortcut
  rw [hcount]
  simp

theorem numericShortcut_contains_colon (y : Nat) (tail : List Char)
    (hc : tail.contains ':' = true) :
    numericShortcut (render4 y ++ tail) = false := by
  have hcon : (render4 y ++ tail).contains ':' = true := by
    unfold render4
    simp only [List.cons_append, List.nil_append, List.contains_cons, hc, Bool.or_true]
  unfold numericShortcut
  rw [hcon]
  simp

theorem transform_feb29_nonleap (y : Nat) (hY : y ≤ 9999) (hleap : isLeapYear (y : Int) = false) :
    _transform_value (.str ⟨render4 y ++ "-02-29".data⟩) = .error .valueError := by
  have hform : render4 y ++ "-02-29".data
      = dChar (y / 1000) :: [dChar (y / 100), dChar (y / 10), dChar y, '-', '0', '2', '-', '2'] ++ ['9'] := rfl
  have hstrip : pyStrip (render4 y ++ "-02-29".data) = render4 y ++ "-02-29".data := by
    conv_lhs => rw [hform]
    rw [pyStrip_id _ _ _ (isPySpace_dChar _) (by decide)]
    rw [← hform]
  have h1 : strptimeFormat [.dY, .lit '-', .dm, .lit '-', .dd, .lit 'T', .dH, .lit ':', .dM, .lit ':', .dS, .lit '.', .df, .dz] (render4 y ++ "-02-29".data) = none :=
    strptimeFormat_of_match _ _ _ (mt_dY [.lit '-', .dm, .lit '-', .dd, .lit 'T', .dH, .lit ':', .dM, .lit ':', .dS, .lit '.', .df, .dz] "-02-29".data FParse.dflt y hY) (by rfl)
  have h2 : strptimeFormat [.dY, .lit '-', .dm, .lit '-', .dd, .ws, .dH, .lit ':', .dM, .lit ':', .dS, .lit '.', .df, .dz] (render4 y ++ "-02-29".data) = none :=
    strptimeFormat_of_match _ _ _ (mt_dY [.lit '-', .dm, .lit '-', .dd, .ws, .dH, .lit ':', .dM, .lit ':', .dS, .lit '.', .df, .dz] "-02-29".data FParse.dflt y hY) (by rfl)
  have h3 : strptimeFormat [.dY, .lit '-', .dm, .lit '-', .dd, .lit 'T', .dH, .lit ':', .dM, .lit ':', .dS, .lit '.', .df, .ws, .dz] (render4 y ++ "-02-29".data) = none :=
    strptimeFormat_of_match _ _ _ (mt_dY [.lit '-', .dm, .lit '-', .dd, .lit 'T', .dH, .lit ':', .dM, .lit ':', .dS, .lit '.', .df, .ws, .dz] "-02-29".data FParse.dflt y hY) (by rfl)
  have h4 : strptimeFormat [.dY, .lit '-', .dm, .lit '-', .dd, .ws, .dH, .lit ':', .dM, .lit ':', .dS, .lit '.', .df, .ws, .dz] (render4 y ++ "-02-29".data) = none :=
    strptimeFormat_of_match _ _ _ (mt_dY [.lit '-', .dm, .lit '-', .dd, .ws, .dH, .lit ':', .dM, .lit ':', .dS, .lit '.', .df, .ws, .dz] "-02-29".data FParse.dflt y hY) (by rfl)
  have h5 : strptimeFormat [.dY, .lit '-', .dm, .lit '-', .dd, .lit 'T', .dH, .lit ':', .dM, .lit ':', .dS, .lit '.', .df] (render4 y ++ "-02-29".data) = none :=
    strptimeFormat_of_match _ _ _ (mt_dY [.lit '-', .dm, .lit '-', .dd, .lit 'T', .dH, .lit ':', .dM, .lit ':', .dS, .lit '.', .df] "-02-29".data FParse.dflt y hY) (by rfl)
  have h6 : strptimeFormat [.dY, .lit '-', .dm, .lit '-', .dd, .ws, .dH, .lit ':', .dM, .lit ':', .dS, .lit '.', .df] (render4 y ++ "-02-29".data) = none :=
    strptimeFormat_of_match _ _ _ (mt_dY [.lit '-', .dm, .lit '-', .dd, .ws, .dH, .lit ':', .dM, .lit ':', .dS, .lit '.', .df] "-02-29".data FParse.dflt y hY) (by rfl)
  have h7 : strptimeFormat [.dY, .lit '-', .dm, .lit '-', .dd, .lit 'T', .dH, .lit ':', .dM, .lit ':', .dS, .dz] (render4 y ++ "-02-29".data) = none :=
    strptimeFormat_of_match _ _ _ (mt_dY [.lit '-', .dm, .lit '-', .dd, .lit 'T', .dH, .lit ':', .dM, .lit ':', .dS, .dz] "-02-29".data FParse.dflt y hY) (by rfl)
  have h8 : strptimeFormat [.dY, .lit '-', .dm, .lit '-', .dd, .ws, .dH, .lit ':', .dM, .lit ':', .dS, .dz] (render4 y ++ "-02-29".data) = none :=
    strptimeFormat_of_match _ _ _ (mt_dY [.lit '-', .dm, .lit '-', .dd, .ws, .dH, .lit ':', .dM, .lit ':', .dS, .dz] "-02-29".data FParse.dflt y hY) (by rfl)
  have h9 : strptimeFormat [.dY, .lit '-', .dm, .lit '-', .dd, .lit 'T', .dH, .lit ':', .dM, .lit ':', .dS, .ws, .dz] (render4 y ++ "-02-29".data) = none :=
    strptimeFormat_of_match _ _ _ (mt_dY [.lit '-', .dm, .lit '-', .dd, .lit 'T', .dH, .lit ':', .dM, .lit ':', .dS, .ws, .dz] "-02-29".data FParse.dflt y hY) (by rfl)
  have h10 : strptimeFormat [.dY, .lit '-', .dm, .lit '-', .dd, .ws, .dH, .lit ':', .dM, .lit ':', .dS, .ws, .dz] (render4 y ++ "-02-29".data) = none :=
    strptimeFormat_of_match _ _ _ (mt_dY [.lit '-', .dm, .lit '-', .dd, .ws, .dH, .lit ':', .dM, .lit ':', .dS, .ws, .dz] "-02-29".data FParse.dflt y hY) (by rfl)
  have h11 : strptimeFormat [.dY, .lit '-', .dm, .lit '-', .dd, .lit 'T', .dH, .lit ':', .dM, .lit ':', .dS] (render4 y ++ "-02-29".data) = none :=
    strptimeFormat_of_match _ _ _ (mt_dY [.lit '-', .dm, .lit '-', .dd, .lit 'T', .dH, .lit ':', .dM, .lit ':', .dS] "-02-29".data FParse.dflt y hY) (by rfl)
  have h12 : strptimeFormat [.dY, .lit '-', .dm, .lit '-', .dd, .ws, .dH, .lit ':', .dM, .lit ':', .dS] (render4 y ++ "-02-29".data) = none :=
    strptimeFormat_of_match _ _ _ (mt_dY [.lit '-', .dm, .lit '-', .dd, .ws, .dH, .lit ':', .dM, .lit ':', .dS] "-02-29".data FParse.dflt y hY) (by rfl)
  have h13 : strptimeFormat [.dY, .lit '-', .dm, .lit '-', .dd, .lit 'T', .dH, .lit ':', .dM, .dz] (render4 y ++ "-02-29".data) = none :=
    strptimeFormat_of_match _ _ _ (mt_dY [.lit '-', .dm, .lit '-', .dd, .lit 'T', .dH, .lit ':', .dM, .dz] "-02-29".data FParse.dflt y hY) (by rfl)
  have h14 : strptimeFormat [.dY, .lit '-', .dm, .lit '-', .dd, .ws, .dH, .lit ':', .dM, .dz] (render4 y ++ "-02-29".data) = none :=
    strptimeFormat_of_match _ _ _ (mt_dY [.lit '-', .dm, .lit '-', .dd, .ws, .dH, .lit ':', .dM, .dz] "-02-29".data FParse.dflt y hY) (by rfl)
  have h15 : strptimeFormat [.dY, .lit '-', .dm, .lit '-', .dd, .lit 'T', .dH, .lit ':', .dM, .ws, .dz] (render4 y ++ "-02-29".data) = none :=
    strptimeFormat_of_match _ _ _ (mt_dY [.lit '-', .dm, .lit '-', .dd, .lit 'T', .dH, .lit ':', .dM, .ws, .dz] "-02-29".data FParse.dflt y hY) (by rfl)
  have h16 : strptimeFormat [.dY, .lit '-', .dm, .lit '-', .dd, .ws, .dH, .lit ':', .dM, .ws, .dz] (render4 y ++ "-02-29".data) = none :=
    strptimeFormat_of_match _ _ _ (mt_dY [.lit '-', .dm, .lit '-', .dd, .ws, .dH, .lit ':', .dM, .ws, .dz] "-02-29".data FParse.dflt y hY) (by rfl)
  have h17 : strptimeFormat [.dY, .lit '-', .dm, .lit '-', .dd, .dz] (render4 y ++ "-02-29".data) = none :=
    strptimeFormat_of_match _ _ _ (mt_dY [.lit '-', .dm, .lit '-', .dd, .dz] "-02-29".data FParse.dflt y hY) (by rfl)
  have h18 : strptimeFormat [.dY, .lit '-', .dm, .lit '-', .dd, .lit 'T', .dH, .lit ':', .dM] (render4 y ++ "-02-29".data) = none :=
    strptimeFormat_of_match _ _ _ (mt_dY [.lit '-', .dm, .lit '-', .dd, .lit 'T', .dH, .lit ':', .dM] "-02-29".data FParse.dflt y hY) (by rfl)
  have h19 : strptimeFormat [.dY, .lit '-', .dm, .lit '-', .dd, .ws, .dH, .lit ':', .dM] (render4 y ++ "-02-29".data) = none :=
    strptimeFormat_of_match _ _ _ (mt_dY [.lit '-', .dm, .lit '-', .dd, .ws, .dH, .lit ':', .dM] "-02-29".data FParse.dflt y hY) (by rfl)
  have h20 : strptimeFormat [.dY, .lit '-', .dm, .lit '-', .dd, .ws, .dz] (render4 y ++ "-02-29".data) = none :=
    strptimeFormat_of_match _ _ _ (mt_dY [.lit '-', .dm, .lit '-', .dd, .ws, .dz] "-02-29".data FParse.dflt y hY) (by rfl)
  have h21 : strptimeFormat [.dY, .lit '-', .dm, .lit '-', .dd] (render4 y ++ "-02-29".data) = none := by
    unfold strptimeFormat
    rw [mt_dY _ _ _ _ hY]
    rw [show matchToks [.lit '-', .dm, .lit '-', .dd] "-02-29".data {FParse.dflt with fY := y}
        = some ({FParse.dflt with fY := y, fm := 2, fd := 29}, []) from rfl]
    show mkDatetimeChecked ⟨y, 2, 29, 0, 0, 0, 0, none⟩ = none
    have hval : datetimeValid ⟨(y : Int), 2, 29, 0, 0, 0, 0, none⟩ = false := by
      unfold datetimeValid daysInMonth dimE leapE
      rw [hleap]
      simp
    unfold mkDatetimeChecked
    simp [hval]
  have hloop : strptimeLoop _ACCEPTED_INPUT_FORMAT_VALUES (render4 y ++ "-02-29".data) false
      = .error .valueError := by
    simp only [_ACCEPTED_INPUT_FORMAT_VALUES, strptimeLoop, h1, h2, h3, h4, h5, h6, h7, h8, h9, h10, h11, h12, h13, h14, h15, h16, h17, h18, h19, h20, h21]
  show transformStr (pyStrip (render4 y ++ "-02-29".data)) = .error .valueError
  rw [hstrip]
  unfold transformStr
  rw [numericShortcut_r4_2dash y _ (by decide)]
  simp only [Bool.false_eq_true, if_false]
  rw [show preferredBranch (render4 y ++ "-02-29".data) = none from rfl]
  rw [show endsWithUTCsp (render4 y ++ "-02-29".data) = false from rfl]
  simp only [Bool.false_eq_true, if_false]
  rw [hloop]

theorem transform_feb30 (y : Nat) (hY : y ≤ 9999) :
    _transform_value (.str ⟨render4 y ++ "-02-30".data⟩) = .error .valueError := by
  have hform : render4 y ++ "-02-30".data
      = dChar (y / 1000) :: [dChar (y / 100), dChar (y / 10), dChar y, '-', '0', '2', '-', '3'] ++ ['0'] := rfl
  have hstrip : pyStrip (render4 y ++ "-02-30".data) = render4 y ++ "-02-30".data := by
    conv_lhs => rw [hform]
    rw [pyStrip_id _ _ _ (isPySpace_dChar _) (by decide)]
    rw [← hform]
  have h1 : strptimeFormat [.dY, .lit '-', .dm, .lit '-', .dd, .lit 'T', .dH, .lit ':', .dM, .lit ':', .dS, .lit '.', .df, .dz] (render4 y ++ "-02-30".data) = none :=
    strptimeFormat_of_match _ _ _ (mt_dY [.lit '-', .dm, .lit '-', .dd, .lit 'T', .dH, .lit ':', .dM, .lit ':', .dS, .lit '.', .df, .dz] "-02-30".data FParse.dflt y hY) (by rfl)
  have h2 : strptimeFormat [.dY, .lit '-', .dm, .lit '-', .dd, .ws, .dH, .lit ':', .dM, .lit ':', .dS, .lit '.', .df, .dz] (render4 y ++ "-02-30".data) = none :=
    strptimeFormat_of_match _ _ _ (mt_dY [.lit '-', .dm, .lit '-', .dd, .ws, .dH, .lit ':', .dM, .lit ':', .dS, .lit '.', .df, .dz] "-02-30".data FParse.dflt y hY) (by rfl)
  have h3 : strptimeFormat [.dY, .lit '-', .dm, .lit '-', .dd, .lit 'T', .dH, .lit ':', .dM, .lit ':', .dS, .lit '.', .df, .ws, .dz] (render4 y ++ "-02-30".data) = none :=
    strptimeFormat_of_match _ _ _ (mt_dY [.lit '-', .dm, .lit '-', .dd, .lit 'T', .dH, .lit ':', .dM, .lit ':', .dS, .lit '.', .df, .ws, .dz] "-02-30".data FParse.dflt y hY) (by rfl)
  have h4 : strptimeFormat [.dY, .lit '-', .dm, .lit '-', .dd, .ws, .dH, .lit ':', .dM, .lit ':', .dS, .lit '.', .df, .ws, .dz] (render4 y ++ "-02-30".data) = none :=
    strptimeFormat_of_match _ _ _ (mt_dY [.lit '-', .dm, .lit '-', .dd, .ws, .dH, .lit ':', .dM, .lit ':', .dS, .lit '.', .df, .ws, .dz] "-02-30".data FParse.dflt y hY) (by rfl)
  have h5 : strptimeFormat [.dY, .lit '-', .dm, .lit '-', .dd, .lit 'T', .dH, .lit ':', .dM, .lit ':', .dS, .lit '.', .df] (render4 y ++ "-02-30".data) = none :=
    strptimeFormat_of_match _ _ _ (mt_dY [.lit '-', .dm, .lit '-', .dd, .lit 'T', .dH, .lit ':', .dM, .lit ':', .dS, .lit '.', .df] "-02-30".data FParse.dflt y hY) (by rfl)
  have h6 : strptimeFormat [.dY, .lit '-', .dm, .lit '-', .dd, .ws, .dH, .lit ':', .dM, .lit ':', .dS, .lit '.', .df] (render4 y ++ "-02-30".data) = none :=
    strptimeFormat_of_match _ _ _ (mt_dY [.lit '-', .dm, .lit '-', .dd, .ws, .dH, .lit ':', .dM, .lit ':', .dS, .lit '.', .df] "-02-30".data FParse.dflt y hY) (by rfl)
  have h7 : strptimeFormat [.dY, .lit '-', .dm, .lit '-', .dd, .lit 'T', .dH, .lit ':', .dM, .lit ':', .dS, .dz] (render4 y ++ "-02-30".data) = none :=
    strptimeFormat_of_match _ _ _ (mt_dY [.lit '-', .dm, .lit '-', .dd, .lit 'T', .dH, .lit ':', .dM, .lit ':', .dS, .dz] "-02-30".data FParse.dflt y hY) (by rfl)
  have h8 : strptimeFormat [.dY, .lit '-', .dm, .lit '-', .dd, .ws, .dH, .lit ':', .dM, .lit ':', .dS, .dz] (render4 y ++ "-02-30".data) = none :=
    strptimeFormat_of_match _ _ _ (mt_dY [.lit '-', .dm, .lit '-', .dd, .ws, .dH, .lit ':', .dM, .lit ':', .dS, .dz] "-02-30".data FParse.dflt y hY) (by rfl)
  have h9 : strptimeFormat [.dY, .lit '-', .dm, .lit '-', .dd, .lit 'T', .dH, .lit ':', .dM, .lit ':', .dS, .ws, .dz] (render4 y ++ "-02-30".data) = none :=
    strptimeFormat_of_match _ _ _ (mt_dY [.lit '-', .dm, .lit '-', .dd, .lit 'T', .dH, .lit ':', .dM, .lit ':', .dS, .ws, .dz] "-02-30".data FParse.dflt y hY) (by rfl)
  have h10 : strptimeFormat [.dY, .lit '-', .dm, .lit '-', .dd, .ws, .dH, .lit ':', .dM, .lit ':', .dS, .ws, .dz] (render4 y ++ "-02-30".data) = none :=
    strptimeFormat_of_match _ _ _ (mt_dY [.lit '-', .dm, .lit '-', .dd, .ws, .dH, .lit ':', .dM, .lit ':', .dS, .ws, .dz] "-02-30".data FParse.dflt y hY) (by rfl)
  have h11 : strptimeFormat [.dY, .lit '-', .dm, .lit '-', .dd, .lit 'T', .dH, .lit ':', .dM, .lit ':', .dS] (render4 y ++ "-02-30".data) = none :=
    strptimeFormat_of_match _ _ _ (mt_dY [.lit '-', .dm, .lit '-', .dd, .lit 'T', .dH, .lit ':', .dM, .lit ':', .dS] "-02-30".data FParse.dflt y hY) (by rfl)
  have h12 : strptimeFormat [.dY, .lit '-', .dm, .lit '-', .dd, .ws, .dH, .lit ':', .dM, .lit ':', .dS] (render4 y ++ "-02-30".data) = none :=
    strptimeFormat_of_match _ _ _ (mt_dY [.lit '-', .dm, .lit '-', .dd, .ws, .dH, .lit ':', .dM, .lit ':', .dS] "-02-30".data FParse.dflt y hY) (by rfl)
  have h13 : strptimeFormat [.dY, .lit '-', .dm, .lit '-', .dd, .lit 'T', .dH, .lit ':', .dM, .dz] (render4 y ++ "-02-30".data) = none :=
    strptimeFormat_of_match _ _ _ (mt_dY [.lit '-', .dm, .lit '-', .dd, .lit 'T', .dH, .lit ':', .dM, .dz] "-02-30".data FParse.dflt y hY) (by rfl)
  have h14 : strptimeFormat [.dY, .lit '-', .dm, .lit '-', .dd, .ws, .dH, .lit ':', .dM, .dz] (render4 y ++ "-02-30".data) = none :=
    strptimeFormat_of_match _ _ _ (mt_dY [.lit '-', .dm, .lit '-', .dd, .ws, .dH, .lit ':', .dM, .dz] "-02-30".data FParse.dflt y hY) (by rfl)
  have h15 : strptimeFormat [.dY, .lit '-', .dm, .lit '-', .dd, .lit 'T', .dH, .lit ':', .dM, .ws, .dz] (render4 y ++ "-02-30".data) = none :=
    strptimeFormat_of_match _ _ _ (mt_dY [.lit '-', .dm, .lit '-', .dd, .lit 'T', .dH, .lit ':', .dM, .ws, .dz] "-02-30".data FParse.dflt y hY) (by rfl)
  have h16 : strptimeFormat [.dY, .lit '-', .dm, .lit '-', .dd, .ws, .dH, .lit ':', .dM, .ws, .dz] (render4 y ++ "-02-30".data) = none :=
    strptimeFormat_of_match _ _ _ (mt_dY [.lit '-', .dm, .lit '-', .dd, .ws, .dH, .lit ':', .dM, .ws, .dz] "-02-30".data FParse.dflt y hY) (by rfl)
  have h17 : strptimeFormat [.dY, .lit '-', .dm, .lit '-', .dd, .dz] (render4 y ++ "-02-30".data) = none :=
    strptimeFormat_of_match _ _ _ (mt_dY [.lit '-', .dm, .lit '-', .dd, .dz] "-02-30".data FParse.dflt y hY) (by rfl)
  have h18 : strptimeFormat [.dY, .lit '-', .dm, .lit '-', .dd, .lit 'T', .dH, .lit ':', .dM] (render4 y ++ "-02-30".data) = none :=
    strptimeFormat_of_match _ _ _ (mt_dY [.lit '-', .dm, .lit '-', .dd, .lit 'T', .dH, .lit ':', .dM] "-02-30".data FParse.dflt y hY) (by rfl)
  have h19 : strptimeFormat [.dY, .lit '-', .dm, .lit '-', .dd, .ws, .dH, .lit ':', .dM] (render4 y ++ "-02-30".data) = none :=
    strptimeFormat_of_match _ _ _ (mt_dY [.lit '-', .dm, .lit '-', .dd, .ws, .dH, .lit ':', .dM] "-02-30".data FParse.dflt y hY) (by rfl)
  have h20 : strptimeFormat [.dY, .lit '-', .dm, .lit '-', .dd, .ws, .dz] (render4 y ++ "-02-30".data) = none :=
    strptimeFormat_of_match _ _ _ (mt_dY [.lit '-', .dm, .lit '-', .dd, .ws, .dz] "-02-30".data FParse.dflt y hY) (by rfl)
  have h21 : strptimeFormat [.dY, .lit '-', .dm, .lit '-', .dd] (render4 y ++ "-02-30".data) = none := by
    unfold strptimeFormat
    rw [mt_dY _ _ _ _ hY]
    rw [show matchToks [.lit '-', .dm, .lit '-', .dd] "-02-30".data {FParse.dflt with fY := y}
        = some ({FParse.dflt with fY := y, fm := 2, fd := 30}, []) from rfl]
    show mkDatetimeChecked ⟨y, 2, 30, 0, 0, 0, 0, none⟩ = none
    have hval : datetimeValid ⟨(y : Int), 2, 30, 0, 0, 0, 0, none⟩ = false := by
      unfold datetimeValid daysInMonth dimE leapE
      by_cases hl : isLeapYear (y : Int) = true <;> simp [hl]
    unfold mkDatetimeChecked
    simp [hval]
  have hloop : strptimeLoop _ACCEPTED_INPUT_FORMAT_VALUES (render4 y ++ "-02-30".data) false
      = .error .valueError := by
    simp only [_ACCEPTED_INPUT_FORMAT_VALUES, strptimeLoop, h1, h2, h3, h4, h5, h6, h7, h8, h9, h10, h11, h12, h13, h14, h15, h16, h17, h18, h19, h20, h21]
  show transformStr (pyStrip (render4 y ++ "-02-30".data)) = .error .valueError
  rw [hstrip]
  unfold transformStr
  rw [numericShortcut_r4_2dash y _ (by decide)]
  simp only [Bool.false_eq_true, if_false]
  rw [show preferredBranch (render4 y ++ "-02-30".data) = none from rfl]
  rw [show endsWithUTCsp (render4 y ++ "-02-30".data) = false from rfl]
  simp only [Bool.false_eq_true, if_false]
  rw [hloop]

theorem transform_feb31 (y : Nat) (hY : y ≤ 9999) :
    _transform_value (.str ⟨render4 y ++ "-02-31".data⟩) = .error .valueError := by
  have hform : render4 y ++ "-02-31".data
      = dChar (y / 1000) :: [dChar (y / 100), dChar (y / 10), dChar y, '-', '0', '2', '-', '3'] ++ ['1'] := rfl
  have hstrip : pyStrip (render4 y ++ "-02-31".data) = render4 y ++ "-02-31".data := by
    conv_lhs => rw [hform]
    rw [pyStrip_id _ _ _ (isPySpace_dChar _) (by decide)]
    rw [← hform]
  have h1 : strptimeFormat [.dY, .lit '-', .dm, .lit '-', .dd, .lit 'T', .dH, .lit ':', .dM, .lit ':', .dS, .lit '.', .df, .dz] (render4 y ++ "-02-31".data) = none :=
    strptimeFormat_of_match _ _ _ (mt_dY [.lit '-', .dm, .lit '-', .dd, .lit 'T', .dH, .lit ':', .dM, .lit ':', .dS, .lit '.', .df, .dz] "-02-31".data FParse.dflt y hY) (by rfl)
  have h2 : strptimeFormat [.dY, .lit '-', .dm, .lit '-', .dd, .ws, .dH, .lit ':', .dM, .lit ':', .dS, .lit '.', .df, .dz] (render4 y ++ "-02-31".data) = none :=
    strptimeFormat_of_match _ _ _ (mt_dY [.lit '-', .dm, .lit '-', .dd, .ws, .dH, .lit ':', .dM, .lit ':', .dS, .lit '.', .df, .dz] "-02-31".data FParse.dflt y hY) (by rfl)
  have h3 : strptimeFormat [.dY, .lit '-', .dm, .lit '-', .dd, .lit 'T', .dH, .lit ':', .dM, .lit ':', .dS, .lit '.', .df, .ws, .dz] (render4 y ++ "-02-31".data) = none :=
    strptimeFormat_of_match _ _ _ (mt_dY [.lit '-', .dm, .lit '-', .dd, .lit 'T', .dH, .lit ':', .dM, .lit ':', .dS, .lit '.', .df, .ws, .dz] "-02-31".data FParse.dflt y hY) (by rfl)
  have h4 : strptimeFormat [.dY, .lit '-', .dm, .lit '-', .dd, .ws, .dH, .lit ':', .dM, .lit ':', .dS, .lit '.', .df, .ws, .dz] (render4 y ++ "-02-31".data) = none :=
    strptimeFormat_of_match _ _ _ (mt_dY [.lit '-', .dm, .lit '-', .dd, .ws, .dH, .lit ':', .dM, .lit ':', .dS, .lit '.', .df, .ws, .dz] "-02-31".data FParse.dflt y hY) (by rfl)
  have h5 : strptimeFormat [.dY, .lit '-', .dm, .lit '-', .dd, .lit 'T', .dH, .lit ':', .dM, .lit ':', .dS, .lit '.', .df] (render4 y ++ "-02-31".data) = none :=
    strptimeFormat_of_match _ _ _ (mt_dY [.lit '-', .dm, .lit '-', .dd, .lit 'T', .dH, .lit ':', .dM, .lit ':', .dS, .lit '.', .df] "-02-31".data FParse.dflt y hY) (by rfl)
  have h6 : strptimeFormat [.dY, .lit '-', .dm, .lit '-', .dd, .ws, .dH, .lit ':', .dM, .lit ':', .dS, .lit '.', .df] (render4 y ++ "-02-31".data) = none :=
    strptimeFormat_of_match _ _ _ (mt_dY [.lit '-', .dm, .lit '-', .dd, .ws, .dH, .lit ':', .dM, .lit ':', .dS, .lit '.', .df] "-02-31".data FParse.dflt y hY) (by rfl)
  have h7 : strptimeFormat [.dY, .lit '-', .dm, .lit '-', .dd, .lit 'T', .dH, .lit ':', .dM, .lit ':', .dS, .dz] (render4 y ++ "-02-31".data) = none :=
    strptimeFormat_of_match _ _ _ (mt_dY [.lit '-', .dm, .lit '-', .dd, .lit 'T', .dH, .lit ':', .dM, .lit ':', .dS, .dz] "-02-31".data FParse.dflt y hY) (by rfl)
  have h8 : strptimeFormat [.dY, .lit '-', .dm, .lit '-', .dd, .ws, .dH, .lit ':', .dM, .lit ':', .dS, .dz] (render4 y ++ "-02-31".data) = none :=
    strptimeFormat_of_match _ _ _ (mt_dY [.lit '-', .dm, .lit '-', .dd, .ws, .dH, .lit ':', .dM, .lit ':', .dS, .dz] "-02-31".data FParse.dflt y hY) (by rfl)
  have h9 : strptimeFormat [.dY, .lit '-', .dm, .lit '-', .dd, .lit 'T', .dH, .lit ':', .dM, .lit ':', .dS, .ws, .dz] (render4 y ++ "-02-31".data) = none :=
    strptimeFormat_of_match _ _ _ (mt_dY [.lit '-', .dm, .lit '-', .dd, .lit 'T', .dH, .lit ':', .dM, .lit ':', .dS, .ws, .dz] "-02-31".data FParse.dflt y hY) (by rfl)
  have h10 : strptimeFormat [.dY, .lit '-', .dm, .lit '-', .dd, .ws, .dH, .lit ':', .dM, .lit ':', .dS, .ws, .dz] (render4 y ++ "-02-31".data) = none :=
    strptimeFormat_of_match _ _ _ (mt_dY [.lit '-', .dm, .lit '-', .dd, .ws, .dH, .lit ':', .dM, .lit ':', .dS, .ws, .dz] "-02-31".data FParse.dflt y hY) (by rfl)
  have h11 : strptimeFormat [.dY, .lit '-', .dm, .lit '-', .dd, .lit 'T', .dH, .lit ':', .dM, .lit ':', .dS] (render4 y ++ "-02-31".data) = none :=
    strptimeFormat_of_match _ _ _ (mt_dY [.lit '-', .dm, .lit '-', .dd, .lit 'T', .dH, .lit ':', .dM, .lit ':', .dS] "-02-31".data FParse.dflt y hY) (by rfl)
  have h12 : strptimeFormat [.dY, .lit '-', .dm, .lit '-', .dd, .ws, .dH, .lit ':', .dM, .lit ':', .dS] (render4 y ++ "-02-31".data) = none :=
    strptimeFormat_of_match _ _ _ (mt_dY [.lit '-', .dm, .lit '-', .dd, .ws, .dH, .lit ':', .dM, .lit ':', .dS] "-02-31".data FParse.dflt y hY) (by rfl)
  have h13 : strptimeFormat [.dY, .lit '-', .dm, .lit '-', .dd, .lit 'T', .dH, .lit ':', .dM, .dz] (render4 y ++ "-02-31".data) = none :=
    strptimeFormat_of_match _ _ _ (mt_dY [.lit '-', .dm, .lit '-', .dd, .lit 'T', .dH, .lit ':', .dM, .dz] "-02-31".data FParse.dflt y hY) (by rfl)
  have h14 : strptimeFormat [.dY, .lit '-', .dm, .lit '-', .dd, .ws, .dH, .lit ':', .dM, .dz] (render4 y ++ "-02-31".data) = none :=
    strptimeFormat_of_match _ _ _ (mt_dY [.lit '-', .dm, .lit '-', .dd, .ws, .dH, .lit ':', .dM, .dz] "-02-31".data FParse.dflt y hY) (by rfl)
  have h15 : strptimeFormat [.dY, .lit '-', .dm, .lit '-', .dd, .lit 'T', .dH, .lit ':', .dM, .ws, .dz] (render4 y ++ "-02-31".data) = none :=
    strptimeFormat_of_match _ _ _ (mt_dY [.lit '-', .dm, .lit '-', .dd, .lit 'T', .dH, .lit ':', .dM, .ws, .dz] "-02-31".data FParse.dflt y hY) (by rfl)
  have h16 : strptimeFormat [.dY, .lit '-', .dm, .lit '-', .dd, .ws, .dH, .lit ':', .dM, .ws, .dz] (render4 y ++ "-02-31".data) = none :=
    strptimeFormat_of_match _ _ _ (mt_dY [.lit '-', .dm, .lit '-', .dd, .ws, .dH, .lit ':', .dM, .ws, .dz] "-02-31".data FParse.dflt y hY) (by rfl)
  have h17 : strptimeFormat [.dY, .lit '-', .dm, .lit '-', .dd, .dz] (render4 y ++ "-02-31".data) = none :=
    strptimeFormat_of_match _ _ _ (mt_dY [.lit '-', .dm, .lit '-', .dd, .dz] "-02-31".data FParse.dflt y hY) (by rfl)
  have h18 : strptimeFormat [.dY, .lit '-', .dm, .lit '-', .dd, .lit 'T', .dH, .lit ':', .dM] (render4 y ++ "-02-31".data) = none :=
    strptimeFormat_of_match _ _ _ (mt_dY [.lit '-', .dm, .lit '-', .dd, .lit 'T', .dH, .lit ':', .dM] "-02-31".data FParse.dflt y hY) (by rfl)
  have h19 : strptimeFormat [.dY, .lit '-', .dm, .lit '-', .dd, .ws, .dH, .lit ':', .dM] (render4 y ++ "-02-31".data) = none :=
    strptimeFormat_of_match _ _ _ (mt_dY [.lit '-', .dm, .lit '-', .dd, .ws, .dH, .lit ':', .dM] "-02-31".data FParse.dflt y hY) (by rfl)
  have h20 : strptimeFormat [.dY, .lit '-', .dm, .lit '-', .dd, .ws, .dz] (render4 y ++ "-02-31".data) = none :=
    strptimeFormat_of_match _ _ _ (mt_dY [.lit '-', .dm, .lit '-', .dd, .ws, .dz] "-02-31".data FParse.dflt y hY) (by rfl)
  have h21 : strptimeFormat [.dY, .lit '-', .dm, .lit '-', .dd] (render4 y ++ "-02-31".data) = none := by
    unfold strptimeFormat
    rw [mt_dY _ _ _ _ hY]
    rw [show matchToks [.lit '-', .dm, .lit '-', .dd] "-02-31".data {FParse.dflt with fY := y}
        = some ({FParse.dflt with fY := y, fm := 2, fd := 31}, []) from rfl]
    show mkDatetimeChecked ⟨y, 2, 31, 0, 0, 0, 0, none⟩ = none
    have hval : datetimeValid ⟨(y : Int), 2, 31, 0, 0, 0, 0, none⟩ = false := by
      unfold datetimeValid daysInMonth dimE leapE
      by_cases hl : isLeapYear (y : Int) = true <;> simp [hl]
    unfold mkDatetimeChecked
    simp [hval]
  have hloop : strptimeLoop _ACCEPTED_INPUT_FORMAT_VALUES (render4 y ++ "-02-31".data) false
      = .error .valueError := by
    simp only [_ACCEPTED_INPUT_FORMAT_VALUES, strptimeLoop, h1, h2, h3, h4, h5, h6, h7, h8, h9, h10, h11, h12, h13, h14, h15, h16, h17, h18, h19, h20, h21]
  show transformStr (pyStrip (render4 y ++ "-02-31".data)) = .error .valueError
  rw [hstrip]
  unfold transformStr
  rw [numericShortcut_r4_2dash y _ (by decide)]
  simp only [Bool.false_eq_true, if_false]
  rw [show preferredBranch (render4 y ++ "-02-31".data) = none from rfl]
  rw [show endsWithUTCsp (render4 y ++ "-02-31".data) = false from rfl]
  simp only [Bool.false_eq_true, if_false]
  rw [hloop]

theorem transform_apr31 (y : Nat) (hY : y ≤ 9999) :
    _transform_value (.str ⟨render4 y ++ "-04-31".data⟩) = .error .valueError := by
  have hform : render4 y ++ "-04-31".data
      = dChar (y / 1000) :: [dChar (y / 100), dChar (y / 10), dChar y, '-', '0', '4', '-', '3'] ++ ['1'] := rfl
  have hstrip : pyStrip (render4 y ++ "-04-31".data) = render4 y ++ "-04-31".data := by
    conv_lhs => rw [hform]
    rw [pyStrip_id _ _ _ (isPySpace_dChar _) (by decide)]
    rw [← hform]
  have h1 : strptimeFormat [.dY, .lit '-', .dm, .lit '-', .dd, .lit 'T', .dH, .lit ':', .dM, .lit ':', .dS, .lit '.', .df, .dz] (render4 y ++ "-04-31".data) = none :=
    strptimeFormat_of_match _ _ _ (mt_dY [.lit '-', .dm, .lit '-', .dd, .lit 'T', .dH, .lit ':', .dM, .lit ':', .dS, .lit '.', .df, .dz] "-04-31".data FParse.dflt y hY) (by rfl)
  have h2 : strptimeFormat [.dY, .lit '-', .dm, .lit '-', .dd, .ws, .dH, .lit ':', .dM, .lit ':', .dS, .lit '.', .df, .dz] (render4 y ++ "-04-31".data) = none :=
    strptimeFormat_of_match _ _ _ (mt_dY [.lit '-', .dm, .lit '-', .dd, .ws, .dH, .lit ':', .dM, .lit ':', .dS, .lit '.', .df, .dz] "-04-31".data FParse.dflt y hY) (by rfl)
  have h3 : strptimeFormat [.dY, .lit '-', .dm, .lit '-', .dd, .lit 'T', .dH, .lit ':', .dM, .lit ':', .dS, .lit '.', .df, .ws, .dz] (render4 y ++ "-04-31".data) = none :=
    strptimeFormat_of_match _ _ _ (mt_dY [.lit '-', .dm, .lit '-', .dd, .lit 'T', .dH, .lit ':', .dM, .lit ':', .dS, .lit '.', .df, .ws, .dz] "-04-31".data FParse.dflt y hY) (by rfl)
  have h4 : strptimeFormat [.dY, .lit '-', .dm, .lit '-', .dd, .ws, .dH, .lit ':', .dM, .lit ':', .dS, .lit '.', .df, .ws, .dz] (render4 y ++ "-04-31".data) = none :=
    strptimeFormat_of_match _ _ _ (mt_dY [.lit '-', .dm, .lit '-', .dd, .ws, .dH, .lit ':', .dM, .lit ':', .dS, .lit '.', .df, .ws, .dz] "-04-31".data FParse.dflt y hY) (by rfl)
  have h5 : strptimeFormat [.dY, .lit '-', .dm, .lit '-', .dd, .lit 'T', .dH, .lit ':', .dM, .lit ':', .dS, .lit '.', .df] (render4 y ++ "-04-31".data) = none :=
    strptimeFormat_of_match _ _ _ (mt_dY [.lit '-', .dm, .lit '-', .dd, .lit 'T', .dH, .lit ':', .dM, .lit ':', .dS, .lit '.', .df] "-04-31".data FParse.dflt y hY) (by rfl)
  have h6 : strptimeFormat [.dY, .lit '-', .dm, .lit '-', .dd, .ws, .dH, .lit ':', .dM, .lit ':', .dS, .lit '.', .df] (render4 y ++ "-04-31".data) = none :=
    strptimeFormat_of_match _ _ _ (mt_dY [.lit '-', .dm, .lit '-', .dd, .ws, .dH, .lit ':', .dM, .lit ':', .dS, .lit '.', .df] "-04-31".data FParse.dflt y hY) (by rfl)
  have h7 : strptimeFormat [.dY, .lit '-', .dm, .lit '-', .dd, .lit 'T', .dH, .lit ':', .dM, .lit ':', .dS, .dz] (render4 y ++ "-04-31".data) = none :=
    strptimeFormat_of_match _ _ _ (mt_dY [.lit '-', .dm, .lit '-', .dd, .lit 'T', .dH, .lit ':', .dM, .lit ':', .dS, .dz] "-04-31".data FParse.dflt y hY) (by rfl)
  have h8 : strptimeFormat [.dY, .lit '-', .dm, .lit '-', .dd, .ws, .dH, .lit ':', .dM, .lit ':', .dS, .dz] (render4 y ++ "-04-31".data) = none :=
    strptimeFormat_of_match _ _ _ (mt_dY [.lit '-', .dm, .lit '-', .dd, .ws, .dH, .lit ':', .dM, .lit ':', .dS, .dz] "-04-31".data FParse.dflt y hY) (by rfl)
  have h9 : strptimeFormat [.dY, .lit '-', .dm, .lit '-', .dd, .lit 'T', .dH, .lit ':', .dM, .lit ':', .dS, .ws, .dz] (render4 y ++ "-04-31".data) = none :=
    strptimeFormat_of_match _ _ _ (mt_dY [.lit '-', .dm, .lit '-', .dd, .lit 'T', .dH, .lit ':', .dM, .lit ':', .dS, .ws, .dz] "-04-31".data FParse.dflt y hY) (by rfl)
  have h10 : strptimeFormat [.dY, .lit '-', .dm, .lit '-', .dd, .ws, .dH, .lit ':', .dM, .lit ':', .dS, .ws, .dz] (render4 y ++ "-04-31".data) = none :=
    strptimeFormat_of_match _ _ _ (mt_dY [.lit '-', .dm, .lit '-', .dd, .ws, .dH, .lit ':', .dM, .lit ':', .dS, .ws, .dz] "-04-31".data FParse.dflt y hY) (by rfl)
  have h11 : strptimeFormat [.dY, .lit '-', .dm, .lit '-', .dd, .lit 'T', .dH, .lit ':', .dM, .lit ':', .dS] (render4 y ++ "-04-31".data) = none :=
    strptimeFormat_of_match _ _ _ (mt_dY [.lit '-', .dm, .lit '-', .dd, .lit 'T', .dH, .lit ':', .dM, .lit ':', .dS] "-04-31".data FParse.dflt y hY) (by rfl)
  have h12 : strptimeFormat [.dY, .lit '-', .dm, .lit '-', .dd, .ws, .dH, .lit ':', .dM, .lit ':', .dS] (render4 y ++ "-04-31".data) = none :=
    strptimeFormat_of_match _ _ _ (mt_dY [.lit '-', .dm, .lit '-', .dd, .ws, .dH, .lit ':', .dM, .lit ':', .dS] "-04-31".data FParse.dflt y hY) (by rfl)
  have h13 : strptimeFormat [.dY, .lit '-', .dm, .lit '-', .dd, .lit 'T', .dH, .lit ':', .dM, .dz] (render4 y ++ "-04-31".data) = none :=
    strptimeFormat_of_match _ _ _ (mt_dY [.lit '-', .dm, .lit '-', .dd, .lit 'T', .dH, .lit ':', .dM, .dz] "-04-31".data FParse.dflt y hY) (by rfl)
  have h14 : strptimeFormat [.dY, .lit '-', .dm, .lit '-', .dd, .ws, .dH, .lit ':', .dM, .dz] (render4 y ++ "-04-31".data) = none :=
    strptimeFormat_of_match _ _ _ (mt_dY [.lit '-', .dm, .lit '-', .dd, .ws, .dH, .lit ':', .dM, .dz] "-04-31".data FParse.dflt y hY) (by rfl)
  have h15 : strptimeFormat [.dY, .lit '-', .dm, .lit '-', .dd, .lit 'T', .dH, .lit ':', .dM, .ws, .dz] (render4 y ++ "-04-31".data) = none :=
    strptimeFormat_of_match _ _ _ (mt_dY [.lit '-', .dm, .lit '-', .dd, .lit 'T', .dH, .lit ':', .dM, .ws, .dz] "-04-31".data FParse.dflt y hY) (by rfl)
  have h16 : strptimeFormat [.dY, .lit '-', .dm, .lit '-', .dd, .ws, .dH, .lit ':', .dM, .ws, .dz] (render4 y ++ "-04-31".data) = none :=
    strptimeFormat_of_match _ _ _ (mt_dY [.lit '-', .dm, .lit '-', .dd, .ws, .dH, .lit ':', .dM, .ws, .dz] "-04-31".data FParse.dflt y hY) (by rfl)
  have h17 : strptimeFormat [.dY, .lit '-', .dm, .lit '-', .dd, .dz] (render4 y ++ "-04-31".data) = none :=
    strptimeFormat_of_match _ _ _ (mt_dY [.lit '-', .dm, .lit '-', .dd, .dz] "-04-31".data FParse.dflt y hY) (by rfl)
  have h18 : strptimeFormat [.dY, .lit '-', .dm, .lit '-', .dd, .lit 'T', .dH, .lit ':', .dM] (render4 y ++ "-04-31".data) = none :=
    strptimeFormat_of_match _ _ _ (mt_dY [.lit '-', .dm, .lit '-', .dd, .lit 'T', .dH, .lit ':', .dM] "-04-31".data FParse.dflt y hY) (by rfl)
  have h19 : strptimeFormat [.dY, .lit '-', .dm, .lit '-', .dd, .ws, .dH, .lit ':', .dM] (render4 y ++ "-04-31".data) = none :=
    strptimeFormat_of_match _ _ _ (mt_dY [.lit '-', .dm, .lit '-', .dd, .ws, .dH, .lit ':', .dM] "-04-31".data FParse.dflt y hY) (by rfl)
  have h20 : strptimeFormat [.dY, .lit '-', .dm, .lit '-', .dd, .ws, .dz] (render4 y ++ "-04-31".data) = none :=
    strptimeFormat_of_match _ _ _ (mt_dY [.lit '-', .dm, .lit '-', .dd, .ws, .dz] "-04-31".data FParse.dflt y hY) (by rfl)
  have h21 : strptimeFormat [.dY, .lit '-', .dm, .lit '-', .dd] (render4 y ++ "-04-31".data) = none := by
    unfold strptimeFormat
    rw [mt_dY _ _ _ _ hY]
    rw [show matchToks [.lit '-', .dm, .lit '-', .dd] "-04-31".data {FParse.dflt with fY := y}
        = some ({FParse.dflt with fY := y, fm := 4, fd := 31}, []) from rfl]
    show mkDatetimeChecked ⟨y, 4, 31, 0, 0, 0, 0, none⟩ = none
    have hval : datetimeValid ⟨(y : Int), 4, 31, 0, 0, 0, 0, none⟩ = false := by
      unfold datetimeValid daysInMonth dimE
      simp
    unfold mkDatetimeChecked
    simp [hval]
  have hloop : strptimeLoop _ACCEPTED_INPUT_FORMAT_VALUES (render4 y ++ "-04-31".data) false
      = .error .valueError := by
    simp only [_ACCEPTED_INPUT_FORMAT_VALUES, strptimeLoop, h1, h2, h3, h4, h5, h6, h7, h8, h9, h10, h11, h12, h13, h14, h15, h16, h17, h18, h19, h20, h21]
  show transformStr (pyStrip (render4 y ++ "-04-31".data)) = .error .valueError
  rw [hstrip]
  unfold transformStr
  rw [numericShortcut_r4_2dash y _ (by decide)]
  simp only [Bool.false_eq_true, if_false]
  rw [show preferredBranch (render4 y ++ "-04-31".data) = none from rfl]
  rw [show endsWithUTCsp (render4 y ++ "-04-31".data) = false from rfl]
  simp only [Bool.false_eq_true, if_false]
  rw [hloop]

theorem transform_jun31 (y : Nat) (hY : y ≤ 9999) :
    _transform_value (.str ⟨render4 y ++ "-06-31".data⟩) = .error .valueError := by
  have hform : render4 y ++ "-06-31".data
      = dChar (y / 1000) :: [dChar (y / 100), dChar (y / 10), dChar y, '-', '0', '6', '-', '3'] ++ ['1'] := rfl
  have hstrip : pyStrip (render4 y ++ "-06-31".data) = render4 y ++ "-06-31".data := by
    conv_lhs => rw [hform]
    rw [pyStrip_id _ _ _ (isPySpace_dChar _) (by decide)]
    rw [← hform]
  have h1 : strptimeFormat [.dY, .lit '-', .dm, .lit '-', .dd, .lit 'T', .dH, .lit ':', .dM, .lit ':', .dS, .lit '.', .df, .dz] (render4 y ++ "-06-31".data) = none :=
    strptimeFormat_of_match _ _ _ (mt_dY [.lit '-', .dm, .lit '-', .dd, .lit 'T', .dH, .lit ':', .dM, .lit ':', .dS, .lit '.', .df, .dz] "-06-31".data FParse.dflt y hY) (by rfl)
  have h2 : strptimeFormat [.dY, .lit '-', .dm, .lit '-', .dd, .ws, .dH, .lit ':', .dM, .lit ':', .dS, .lit '.', .df, .dz] (render4 y ++ "-06-31".data) = none :=
    strptimeFormat_of_match _ _ _ (mt_dY [.lit '-', .dm, .lit '-', .dd, .ws, .dH, .lit ':', .dM, .lit ':', .dS, .lit '.', .df, .dz] "-06-31".data FParse.dflt y hY) (by rfl)
  have h3 : strptimeFormat [.dY, .lit '-', .dm, .lit '-', .dd, .lit 'T', .dH, .lit ':', .dM, .lit ':', .dS, .lit '.', .df, .ws, .dz] (render4 y ++ "-06-31".data) = none :=
    strptimeFormat_of_match _ _ _ (mt_dY [.lit '-', .dm, .lit '-', .dd, .lit 'T', .dH, .lit ':', .dM, .lit ':', .dS, .lit '.', .df, .ws, .dz] "-06-31".data FParse.dflt y hY) (by rfl)
  have h4 : strptimeFormat [.dY, .lit '-', .dm, .lit '-', .dd, .ws, .dH, .lit ':', .dM, .lit ':', .dS, .lit '.', .df, .ws, .dz] (render4 y ++ "-06-31".data) = none :=
    strptimeFormat_of_match _ _ _ (mt_dY [.lit '-', .dm, .lit '-', .dd, .ws, .dH, .lit ':', .dM, .lit ':', .dS, .lit '.', .df, .ws, .dz] "-06-31".data FParse.dflt y hY) (by rfl)
  have h5 : strptimeFormat [.dY, .lit '-', .dm, .lit '-', .dd, .lit 'T', .dH, .lit ':', .dM, .lit ':', .dS, .lit '.', .df] (render4 y ++ "-06-31".data) = none :=
    strptimeFormat_of_match _ _ _ (mt_dY [.lit '-', .dm, .lit '-', .dd, .lit 'T', .dH, .lit ':', .dM, .lit ':', .dS, .lit '.', .df] "-06-31".data FParse.dflt y hY) (by rfl)
  have h6 : strptimeFormat [.dY, .lit '-', .dm, .lit '-', .dd, .ws, .dH, .lit ':', .dM, .lit ':', .dS, .lit '.', .df] (render4 y ++ "-06-31".data) = none :=
    strptimeFormat_of_match _ _ _ (mt_dY [.lit '-', .dm, .lit '-', .dd, .ws, .dH, .lit ':', .dM, .lit ':', .dS, .lit '.', .df] "-06-31".data FParse.dflt y hY) (by rfl)
  have h7 : strptimeFormat [.dY, .lit '-', .dm, .lit '-', .dd, .lit 'T', .dH, .lit ':', .dM, .lit ':', .dS, .dz] (render4 y ++ "-06-31".data) = none :=
    strptimeFormat_of_match _ _ _ (mt_dY [.lit '-', .dm, .lit '-', .dd, .lit 'T', .dH, .lit ':', .dM, .lit ':', .dS, .dz] "-06-31".data FParse.dflt y hY) (by rfl)
  have h8 : strptimeFormat [.dY, .lit '-', .dm, .lit '-', .dd, .ws, .dH, .lit ':', .dM, .lit ':', .dS, .dz] (render4 y ++ "-06-31".data) = none :=
    strptimeFormat_of_match _ _ _ (mt_dY [.lit '-', .dm, .lit '-', .dd, .ws, .dH, .lit ':', .dM, .lit ':', .dS, .dz] "-06-31".data FParse.dflt y hY) (by rfl)
  have h9 : strptimeFormat [.dY, .lit '-', .dm, .lit '-', .dd, .lit 'T', .dH, .lit ':', .dM, .lit ':', .dS, .ws, .dz] (render4 y ++ "-06-31".data) = none :=
    strptimeFormat_of_match _ _ _ (mt_dY [.lit '-', .dm, .lit '-', .dd, .lit 'T', .dH, .lit ':', .dM, .lit ':', .dS, .ws, .dz] "-06-31".data FParse.dflt y hY) (by rfl)
  have h10 : strptimeFormat [.dY, .lit '-', .dm, .lit '-', .dd, .ws, .dH, .lit ':', .dM, .lit ':', .dS, .ws, .dz] (render4 y ++ "-06-31".data) = none :=
    strptimeFormat_of_match _ _ _ (mt_dY [.lit '-', .dm, .lit '-', .dd, .ws, .dH, .lit ':', .dM, .lit ':', .dS, .ws, .dz] "-06-31".data FParse.dflt y hY) (by rfl)
  have h11 : strptimeFormat [.dY, .lit '-', .dm, .lit '-', .dd, .lit 'T', .dH, .lit ':', .dM, .lit ':', .dS] (render4 y ++ "-06-31".data) = none :=
    strptimeFormat_of_match _ _ _ (mt_dY [.lit '-', .dm, .lit '-', .dd, .lit 'T', .dH, .lit ':', .dM, .lit ':', .dS] "-06-31".data FParse.dflt y hY) (by rfl)
  have h12 : strptimeFormat [.dY, .lit '-', .dm, .lit '-', .dd, .ws, .dH, .lit ':', .dM, .lit ':', .dS] (render4 y ++ "-06-31".data) = none :=
    strptimeFormat_of_match _ _ _ (mt_dY [.lit '-', .dm, .lit '-', .dd, .ws, .dH, .lit ':', .dM, .lit ':', .dS] "-06-31".data FParse.dflt y hY) (by rfl)
  have h13 : strptimeFormat [.dY, .lit '-', .dm, .lit '-', .dd, .lit 'T', .dH, .lit ':', .dM, .dz] (render4 y ++ "-06-31".data) = none :=
    strptimeFormat_of_match _ _ _ (mt_dY [.lit '-', .dm, .lit '-', .dd, .lit 'T', .dH, .lit ':', .dM, .dz] "-06-31".data FParse.dflt y hY) (by rfl)
  have h14 : strptimeFormat [.dY, .lit '-', .dm, .lit '-', .dd, .ws, .dH, .lit ':', .dM, .dz] (render4 y ++ "-06-31".data) = none :=
    strptimeFormat_of_match _ _ _ (mt_dY [.lit '-', .dm, .lit '-', .dd, .ws, .dH, .lit ':', .dM, .dz] "-06-31".data FParse.dflt y hY) (by rfl)
  have h15 : strptimeFormat [.dY, .lit '-', .dm, .lit '-', .dd, .lit 'T', .dH, .lit ':', .dM, .ws, .dz] (render4 y ++ "-06-31".data) = none :=
    strptimeFormat_of_match _ _ _ (mt_dY [.lit '-', .dm, .lit '-', .dd, .lit 'T', .dH, .lit ':', .dM, .ws, .dz] "-06-31".data FParse.dflt y hY) (by rfl)
  have h16 : strptimeFormat [.dY, .lit '-', .dm, .lit '-', .dd, .ws, .dH, .lit ':', .dM, .ws, .dz] (render4 y ++ "-06-31".data) = none :=
    strptimeFormat_of_match _ _ _ (mt_dY [.lit '-', .dm, .lit '-', .dd, .ws, .dH, .lit ':', .dM, .ws, .dz] "-06-31".data FParse.dflt y hY) (by rfl)
  have h17 : strptimeFormat [.dY, .lit '-', .dm, .lit '-', .dd, .dz] (render4 y ++ "-06-31".data) = none :=
    strptimeFormat_of_match _ _ _ (mt_dY [.lit '-', .dm, .lit '-', .dd, .dz] "-06-31".data FParse.dflt y hY) (by rfl)
  have h18 : strptimeFormat [.dY, .lit '-', .dm, .lit '-', .dd, .lit 'T', .dH, .lit ':', .dM] (render4 y ++ "-06-31".data) = none :=
    strptimeFormat_of_match _ _ _ (mt_dY [.lit '-', .dm, .lit '-', .dd, .lit 'T', .dH, .lit ':', .dM] "-06-31".data FParse.dflt y hY) (by rfl)
  have h19 : strptimeFormat [.dY, .lit '-', .dm, .lit '-', .dd, .ws, .dH, .lit ':', .dM] (render4 y ++ "-06-31".data) = none :=
    strptimeFormat_of_match _ _ _ (mt_dY [.lit '-', .dm, .lit '-', .dd, .ws, .dH, .lit ':', .dM] "-06-31".data FParse.dflt y hY) (by rfl)
  have h20 : strptimeFormat [.dY, .lit '-', .dm, .lit '-', .dd, .ws, .dz] (render4 y ++ "-06-31".data) = none :=
    strptimeFormat_of_match _ _ _ (mt_dY [.lit '-', .dm, .lit '-', .dd, .ws, .dz] "-06-31".data FParse.dflt y hY) (by rfl)
  have h21 : strptimeFormat [.dY, .lit '-', .dm, .lit '-', .dd] (render4 y ++ "-06-31".data) = none := by
    unfold strptimeFormat
    rw [mt_dY _ _ _ _ hY]
    rw [show matchToks [.lit '-', .dm, .lit '-', .dd] "-06-31".data {FParse.dflt with fY := y}
        = some ({FParse.dflt with fY := y, fm := 6, fd := 31}, []) from rfl]
    show mkDatetimeChecked ⟨y, 6, 31, 0, 0, 0, 0, none⟩ = none
    have hval : datetimeValid ⟨(y : Int), 6, 31, 0, 0, 0, 0, none⟩ = false := by
      unfold datetimeValid daysInMonth dimE
      simp
    unfold mkDatetimeChecked
    simp [hval]
  have hloop : strptimeLoop _ACCEPTED_INPUT_FORMAT_VALUES (render4 y ++ "-06-31".data) false
      = .error .valueError := by
    simp only [_ACCEPTED_INPUT_FORMAT_VALUES, strptimeLoop, h1, h2, h3, h4, h5, h6, h7, h8, h9, h10, h11, h12, h13, h14, h15, h16, h17, h18, h19, h20, h21]
  show transformStr (pyStrip (render4 y ++ "-06-31".data)) = .error .valueError
  rw [hstrip]
  unfold transformStr
  rw [numericShortcut_r4_2dash y _ (by decide)]
  simp only [Bool.false_eq_true, if_false]
  rw [show preferredBranch (render4 y ++ "-06-31".data) = none from rfl]
  rw [show endsWithUTCsp (render4 y ++ "-06-31".data) = false from rfl]
  simp only [Bool.false_eq_true, if_false]
  rw [hloop]

theorem transform_sep31 (y : Nat) (hY : y ≤ 9999) :
    _transform_value (.str ⟨render4 y ++ "-09-31".data⟩) = .error .valueError := by
  have hform : render4 y ++ "-09-31".data
      = dChar (y / 1000) :: [dChar (y / 100), dChar (y / 10), dChar y, '-', '0', '9', '-', '3'] ++ ['1'] := rfl
  have hstrip : pyStrip (render4 y ++ "-09-31".data) = render4 y ++ "-09-31".data := by
    conv_lhs => rw [hform]
    rw [pyStrip_id _ _ _ (isPySpace_dChar _) (by decide)]
    rw [← hform]
  have h1 : strptimeFormat [.dY, .lit '-', .dm, .lit '-', .dd, .lit 'T', .dH, .lit ':', .dM, .lit ':', .dS, .lit '.', .df, .dz] (render4 y ++ "-09-31".data) = none :=
    strptimeFormat_of_match _ _ _ (mt_dY [.lit '-', .dm, .lit '-', .dd, .lit 'T', .dH, .lit ':', .dM, .lit ':', .dS, .lit '.', .df, .dz] "-09-31".data FParse.dflt y hY) (by rfl)
  have h2 : strptimeFormat [.dY, .lit '-', .dm, .lit '-', .dd, .ws, .dH, .lit ':', .dM, .lit ':', .dS, .lit '.', .df, .dz] (render4 y ++ "-09-31".data) = none :=
    strptimeFormat_of_match _ _ _ (mt_dY [.lit '-', .dm, .lit '-', .dd, .ws, .dH, .lit ':', .dM, .lit ':', .dS, .lit '.', .df, .dz] "-09-31".data FParse.dflt y hY) (by rfl)
  have h3 : strptimeFormat [.dY, .lit '-', .dm, .lit '-', .dd, .lit 'T', .dH, .lit ':', .dM, .lit ':', .dS, .lit '.', .df, .ws, .dz] (render4 y ++ "-09-31".data) = none :=
    strptimeFormat_of_match _ _ _ (mt_dY [.lit '-', .dm, .lit '-', .dd, .lit 'T', .dH, .lit ':', .dM, .lit ':', .dS, .lit '.', .df, .ws, .dz] "-09-31".data FParse.dflt y hY) (by rfl)
  have h4 : strptimeFormat [.dY, .lit '-', .dm, .lit '-', .dd, .ws, .dH, .lit ':', .dM, .lit ':', .dS, .lit '.', .df, .ws, .dz] (render4 y ++ "-09-31".data) = none :=
    strptimeFormat_of_match _ _ _ (mt_dY [.lit '-', .dm, .lit '-', .dd, .ws, .dH, .lit ':', .dM, .lit ':', .dS, .lit '.', .df, .ws, .dz] "-09-31".data FParse.dflt y hY) (by rfl)
  have h5 : strptimeFormat [.dY, .lit '-', .dm, .lit '-', .dd, .lit 'T', .dH, .lit ':', .dM, .lit ':', .dS, .lit '.', .df] (render4 y ++ "-09-31".data) = none :=
    strptimeFormat_of_match _ _ _ (mt_dY [.lit '-', .dm, .lit '-', .dd, .lit 'T', .dH, .lit ':', .dM, .lit ':', .dS, .lit '.', .df] "-09-31".data FParse.dflt y hY) (by rfl)
  have h6 : strptimeFormat [.dY, .lit '-', .dm, .lit '-', .dd, .ws, .dH, .lit ':', .dM, .lit ':', .dS, .lit '.', .df] (render4 y ++ "-09-31".data) = none :=
    strptimeFormat_of_match _ _ _ (mt_dY [.lit '-', .dm, .lit '-', .dd, .ws, .dH, .lit ':', .dM, .lit ':', .dS, .lit '.', .df] "-09-31".data FParse.dflt y hY) (by rfl)
  have h7 : strptimeFormat [.dY, .lit '-', .dm, .lit '-', .dd, .lit 'T', .dH, .lit ':', .dM, .lit ':', .dS, .dz] (render4 y ++ "-09-31".data) = none :=
    strptimeFormat_of_match _ _ _ (mt_dY [.lit '-', .dm, .lit '-', .dd, .lit 'T', .dH, .lit ':', .dM, .lit ':', .dS, .dz] "-09-31".data FParse.dflt y hY) (by rfl)
  have h8 : strptimeFormat [.dY, .lit '-', .dm, .lit '-', .dd, .ws, .dH, .lit ':', .dM, .lit ':', .dS, .dz] (render4 y ++ "-09-31".data) = none :=
    strptimeFormat_of_match _ _ _ (mt_dY [.lit '-', .dm, .lit '-', .dd, .ws, .dH, .lit ':', .dM, .lit ':', .dS, .dz] "-09-31".data FParse.dflt y hY) (by rfl)
  have h9 : strptimeFormat [.dY, .lit '-', .dm, .lit '-', .dd, .lit 'T', .dH, .lit ':', .dM, .lit ':', .dS, .ws, .dz] (render4 y ++ "-09-31".data) = none :=
    strptimeFormat_of_match _ _ _ (mt_dY [.lit '-', .dm, .lit '-', .dd, .lit 'T', .dH, .lit ':', .dM, .lit ':', .dS, .ws, .dz] "-09-31".data FParse.dflt y hY) (by rfl)
  have h10 : strptimeFormat [.dY, .lit '-', .dm, .lit '-', .dd, .ws, .dH, .lit ':', .dM, .lit ':', .dS, .ws, .dz] (render4 y ++ "-09-31".data) = none :=
    strptimeFormat_of_match _ _ _ (mt_dY [.lit '-', .dm, .lit '-', .dd, .ws, .dH, .lit ':', .dM, .lit ':', .dS, .ws, .dz] "-09-31".data FParse.dflt y hY) (by rfl)
  have h11 : strptimeFormat [.dY, .lit '-', .dm, .lit '-', .dd, .lit 'T', .dH, .lit ':', .dM, .lit ':', .dS] (render4 y ++ "-09-31".data) = none :=
    strptimeFormat_of_match _ _ _ (mt_dY [.lit '-', .dm, .lit '-', .dd, .lit 'T', .dH, .lit ':', .dM, .lit ':', .dS] "-09-31".data FParse.dflt y hY) (by rfl)
  have h12 : strptimeFormat [.dY, .lit '-', .dm, .lit '-', .dd, .ws, .dH, .lit ':', .dM, .lit ':', .dS] (render4 y ++ "-09-31".data) = none :=
    strptimeFormat_of_match _ _ _ (mt_dY [.lit '-', .dm, .lit '-', .dd, .ws, .dH, .lit ':', .dM, .lit ':', .dS] "-09-31".data FParse.dflt y hY) (by rfl)
  have h13 : strptimeFormat [.dY, .lit '-', .dm, .lit '-', .dd, .lit 'T', .dH, .lit ':', .dM, .dz] (render4 y ++ "-09-31".data) = none :=
    strptimeFormat_of_match _ _ _ (mt_dY [.lit '-', .dm, .lit '-', .dd, .lit 'T', .dH, .lit ':', .dM, .dz] "-09-31".data FParse.dflt y hY) (by rfl)
  have h14 : strptimeFormat [.dY, .lit '-', .dm, .lit '-', .dd, .ws, .dH, .lit ':', .dM, .dz] (render4 y ++ "-09-31".data) = none :=
    strptimeFormat_of_match _ _ _ (mt_dY [.lit '-', .dm, .lit '-', .dd, .ws, .dH, .lit ':', .dM, .dz] "-09-31".data FParse.dflt y hY) (by rfl)
  have h15 : strptimeFormat [.dY, .lit '-', .dm, .lit '-', .dd, .lit 'T', .dH, .lit ':', .dM, .ws, .dz] (render4 y ++ "-09-31".data) = none :=
    strptimeFormat_of_match _ _ _ (mt_dY [.lit '-', .dm, .lit '-', .dd, .lit 'T', .dH, .lit ':', .dM, .ws, .dz] "-09-31".data FParse.dflt y hY) (by rfl)
  have h16 : strptimeFormat [.dY, .lit '-', .dm, .lit '-', .dd, .ws, .dH, .lit ':', .dM, .ws, .dz] (render4 y ++ "-09-31".data) = none :=
    strptimeFormat_of_match _ _ _ (mt_dY [.lit '-', .dm, .lit '-', .dd, .ws, .dH, .lit ':', .dM, .ws, .dz] "-09-31".data FParse.dflt y hY) (by rfl)
  have h17 : strptimeFormat [.dY, .lit '-', .dm, .lit '-', .dd, .dz] (render4 y ++ "-09-31".data) = none :=
    strptimeFormat_of_match _ _ _ (mt_dY [.lit '-', .dm, .lit '-', .dd, .dz] "-09-31".data FParse.dflt y hY) (by rfl)
  have h18 : strptimeFormat [.dY, .lit '-', .dm, .lit '-', .dd, .lit 'T', .dH, .lit ':', .dM] (render4 y ++ "-09-31".data) = none :=
    strptimeFormat_of_match _ _ _ (mt_dY [.lit '-', .dm, .lit '-', .dd, .lit 'T', .dH, .lit ':', .dM] "-09-31".data FParse.dflt y hY) (by rfl)
  have h19 : strptimeFormat [.dY, .lit '-', .dm, .lit '-', .dd, .ws, .dH, .lit ':', .dM] (render4 y ++ "-09-31".data) = none :=
    strptimeFormat_of_match _ _ _ (mt_dY [.lit '-', .dm, .lit '-', .dd, .ws, .dH, .lit ':', .dM] "-09-31".data FParse.dflt y hY) (by rfl)
  have h20 : strptimeFormat [.dY, .lit '-', .dm, .lit '-', .dd, .ws, .dz] (render4 y ++ "-09-31".data) = none :=
    strptimeFormat_of_match _ _ _ (mt_dY [.lit '-', .dm, .lit '-', .dd, .ws, .dz] "-09-31".data FParse.dflt y hY) (by rfl)
  have h21 : strptimeFormat [.dY, .lit '-', .dm, .lit '-', .dd] (render4 y ++ "-09-31".data) = none := by
    unfold strptimeFormat
    rw [mt_dY _ _ _ _ hY]
    rw [show matchToks [.lit '-', .dm, .lit '-', .dd] "-09-31".data {FParse.dflt with fY := y}
        = some ({FParse.dflt with fY := y, fm := 9, fd := 31}, []) from rfl]
    show mkDatetimeChecked ⟨y, 9, 31, 0, 0, 0, 0, none⟩ = none
    have hval : datetimeValid ⟨(y : Int), 9, 31, 0, 0, 0, 0, none⟩ = false := by
      unfold datetimeValid daysInMonth dimE
      simp
    unfold mkDatetimeChecked
    simp [hval]
  have hloop : strptimeLoop _ACCEPTED_INPUT_FORMAT_VALUES (render4 y ++ "-09-31".data) false
      = .error .valueError := by
    simp only [_ACCEPTED_INPUT_FORMAT_VALUES, strptimeLoop, h1, h2, h3, h4, h5, h6, h7, h8, h9, h10, h11, h12, h13, h14, h15, h16, h17, h18, h19, h20, h21]
  show transformStr (pyStrip (render4 y ++ "-09-31".data)) = .error .valueError
  rw [hstrip]
  unfold transformStr
  rw [numericShortcut_r4_2dash y _ (by decide)]
  simp only [Bool.false_eq_true, if_false]
  rw [show preferredBranch (render4 y ++ "-09-31".data) = none from rfl]
  rw [show endsWithUTCsp (render4 y ++ "-09-31".data) = false from rfl]
  simp only [Bool.false_eq_true, if_false]
  rw [hloop]

theorem transform_nov31 (y : Nat) (hY : y ≤ 9999) :
    _transform_value (.str ⟨render4 y ++ "-11-31".data⟩) = .error .valueError := by
  have hform : render4 y ++ "-11-31".data
      = dChar (y / 1000) :: [dChar (y / 100), dChar (y / 10), dChar y, '-', '1', '1', '-', '3'] ++ ['1'] := rfl
  have hstrip : pyStrip (render4 y ++ "-11-31".data) = render4 y ++ "-11-31".data := by
    conv_lhs => rw [hform]
    rw [pyStrip_id _ _ _ (isPySpace_dChar _) (by decide)]
    rw [← hform]
  have h1 : strptimeFormat [.dY, .lit '-', .dm, .lit '-', .dd, .lit 'T', .dH, .lit ':', .dM, .lit ':', .dS, .lit '.', .df, .dz] (render4 y ++ "-11-31".data) = none :=
    strptimeFormat_of_match _ _ _ (mt_dY [.lit '-', .dm, .lit '-', .dd, .lit 'T', .dH, .lit ':', .dM, .lit ':', .dS, .lit '.', .df, .dz] "-11-31".data FParse.dflt y hY) (by rfl)
  have h2 : strptimeFormat [.dY, .lit '-', .dm, .lit '-', .dd, .ws, .dH, .lit ':', .dM, .lit ':', .dS, .lit '.', .df, .dz] (render4 y ++ "-11-31".data) = none :=
    strptimeFormat_of_match _ _ _ (mt_dY [.lit '-', .dm, .lit '-', .dd, .ws, .dH, .lit ':', .dM, .lit ':', .dS, .lit '.', .df, .dz] "-11-31".data FParse.dflt y hY) (by rfl)
  have h3 : strptimeFormat [.dY, .lit '-', .dm, .lit '-', .dd, .lit 'T', .dH, .lit ':', .dM, .lit ':', .dS, .lit '.', .df, .ws, .dz] (render4 y ++ "-11-31".data) = none :=
    strptimeFormat_of_match _ _ _ (mt_dY [.lit '-', .dm, .lit '-', .dd, .lit 'T', .dH, .lit ':', .dM, .lit ':', .dS, .lit '.', .df, .ws, .dz] "-11-31".data FParse.dflt y hY) (by rfl)
  have h4 : strptimeFormat [.dY, .lit '-', .dm, .lit '-', .dd, .ws, .dH, .lit ':', .dM, .lit ':', .dS, .lit '.', .df, .ws, .dz] (render4 y ++ "-11-31".data) = none :=
    strptimeFormat_of_match _ _ _ (mt_dY [.lit '-', .dm, .lit '-', .dd, .ws, .dH, .lit ':', .dM, .lit ':', .dS, .lit '.', .df, .ws, .dz] "-11-31".data FParse.dflt y hY) (by rfl)
  have h5 : strptimeFormat [.dY, .lit '-', .dm, .lit '-', .dd, .lit 'T', .dH, .lit ':', .dM, .lit ':', .dS, .lit '.', .df] (render4 y ++ "-11-31".data) = none :=
    strptimeFormat_of_match _ _ _ (mt_dY [.lit '-', .dm, .lit '-', .dd, .lit 'T', .dH, .lit ':', .dM, .lit ':', .dS, .lit '.', .df] "-11-31".data FParse.dflt y hY) (by rfl)
  have h6 : strptimeFormat [.dY, .lit '-', .dm, .lit '-', .dd, .ws, .dH, .lit ':', .dM, .lit ':', .dS, .lit '.', .df] (render4 y ++ "-11-31".data) = none :=
    strptimeFormat_of_match _ _ _ (mt_dY [.lit '-', .dm, .lit '-', .dd, .ws, .dH, .lit ':', .dM, .lit ':', .dS, .lit '.', .df] "-11-31".data FParse.dflt y hY) (by rfl)
  have h7 : strptimeFormat [.dY, .lit '-', .dm, .lit '-', .dd, .lit 'T', .dH, .lit ':', .dM, .lit ':', .dS, .dz] (render4 y ++ "-11-31".data) = none :=
    strptimeFormat_of_match _ _ _ (mt_dY [.lit '-', .dm, .lit '-', .dd, .lit 'T', .dH, .lit ':', .dM, .lit ':', .dS, .dz] "-11-31".data FParse.dflt y hY) (by rfl)
  have h8 : strptimeFormat [.dY, .lit '-', .dm, .lit '-', .dd, .ws, .dH, .lit ':', .dM, .lit ':', .dS, .dz] (render4 y ++ "-11-31".data) = none :=
    strptimeFormat_of_match _ _ _ (mt_dY [.lit '-', .dm, .lit '-', .dd, .ws, .dH, .lit ':', .dM, .lit ':', .dS, .dz] "-11-31".data FParse.dflt y hY) (by rfl)
  have h9 : strptimeFormat [.dY, .lit '-', .dm, .lit '-', .dd, .lit 'T', .dH, .lit ':', .dM, .lit ':', .dS, .ws, .dz] (render4 y ++ "-11-31".data) = none :=
    strptimeFormat_of_match _ _ _ (mt_dY [.lit '-', .dm, .lit '-', .dd, .lit 'T', .dH, .lit ':', .dM, .lit ':', .dS, .ws, .dz] "-11-31".data FParse.dflt y hY) (by rfl)
  have h10 : strptimeFormat [.dY, .lit '-', .dm, .lit '-', .dd, .ws, .dH, .lit ':', .dM, .lit ':', .dS, .ws, .dz] (render4 y ++ "-11-31".data) = none :=
    strptimeFormat_of_match _ _ _ (mt_dY [.lit '-', .dm, .lit '-', .dd, .ws, .dH, .lit ':', .dM, .lit ':', .dS, .ws, .dz] "-11-31".data FParse.dflt y hY) (by rfl)
  have h11 : strptimeFormat [.dY, .lit '-', .dm, .lit '-', .dd, .lit 'T', .dH, .lit ':', .dM, .lit ':', .dS] (render4 y ++ "-11-31".data) = none :=
    strptimeFormat_of_match _ _ _ (mt_dY [.lit '-', .dm, .lit '-', .dd, .lit 'T', .dH, .lit ':', .dM, .lit ':', .dS] "-11-31".data FParse.dflt y hY) (by rfl)
  have h12 : strptimeFormat [.dY, .lit '-', .dm, .lit '-', .dd, .ws, .dH, .lit ':', .dM, .lit ':', .dS] (render4 y ++ "-11-31".data) = none :=
    strptimeFormat_of_match _ _ _ (mt_dY [.lit '-', .dm, .lit '-', .dd, .ws, .dH, .lit ':', .dM, .lit ':', .dS] "-11-31".data FParse.dflt y hY) (by rfl)
  have h13 : strptimeFormat [.dY, .lit '-', .dm, .lit '-', .dd, .lit 'T', .dH, .lit ':', .dM, .dz] (render4 y ++ "-11-31".data) = none :=
    strptimeFormat_of_match _ _ _ (mt_dY [.lit '-', .dm, .lit '-', .dd, .lit 'T', .dH, .lit ':', .dM, .dz] "-11-31".data FParse.dflt y hY) (by rfl)
  have h14 : strptimeFormat [.dY, .lit '-', .dm, .lit '-', .dd, .ws, .dH, .lit ':', .dM, .dz] (render4 y ++ "-11-31".data) = none :=
    strptimeFormat_of_match _ _ _ (mt_dY [.lit '-', .dm, .lit '-', .dd, .ws, .dH, .lit ':', .dM, .dz] "-11-31".data FParse.dflt y hY) (by rfl)
  have h15 : strptimeFormat [.dY, .lit '-', .dm, .lit '-', .dd, .lit 'T', .dH, .lit ':', .dM, .ws, .dz] (render4 y ++ "-11-31".data) = none :=
    strptimeFormat_of_match _ _ _ (mt_dY [.lit '-', .dm, .lit '-', .dd, .lit 'T', .dH, .lit ':', .dM, .ws, .dz] "-11-31".data FParse.dflt y hY) (by rfl)
  have h16 : strptimeFormat [.dY, .lit '-', .dm, .lit '-', .dd, .ws, .dH, .lit ':', .dM, .ws, .dz] (render4 y ++ "-11-31".data) = none :=
    strptimeFormat_of_match _ _ _ (mt_dY [.lit '-', .dm, .lit '-', .dd, .ws, .dH, .lit ':', .dM, .ws, .dz] "-11-31".data FParse.dflt y hY) (by rfl)
  have h17 : strptimeFormat [.dY, .lit '-', .dm, .lit '-', .dd, .dz] (render4 y ++ "-11-31".data) = none :=
    strptimeFormat_of_match _ _ _ (mt_dY [.lit '-', .dm, .lit '-', .dd, .dz] "-11-31".data FParse.dflt y hY) (by rfl)
  have h18 : strptimeFormat [.dY, .lit '-', .dm, .lit '-', .dd, .lit 'T', .dH, .lit ':', .dM] (render4 y ++ "-11-31".data) = none :=
    strptimeFormat_of_match _ _ _ (mt_dY [.lit '-', .dm, .lit '-', .dd, .lit 'T', .dH, .lit ':', .dM] "-11-31".data FParse.dflt y hY) (by rfl)
  have h19 : strptimeFormat [.dY, .lit '-', .dm, .lit '-', .dd, .ws, .dH, .lit ':', .dM] (render4 y ++ "-11-31".data) = none :=
    strptimeFormat_of_match _ _ _ (mt_dY [.lit '-', .dm, .lit '-', .dd, .ws, .dH, .lit ':', .dM] "-11-31".data FParse.dflt y hY) (by rfl)
  have h20 : strptimeFormat [.dY, .lit '-', .dm, .lit '-', .dd, .ws, .dz] (render4 y ++ "-11-31".data) = none :=
    strptimeFormat_of_match _ _ _ (mt_dY [.lit '-', .dm, .lit '-', .dd, .ws, .dz] "-11-31".data FParse.dflt y hY) (by rfl)
  have h21 : strptimeFormat [.dY, .lit '-', .dm, .lit '-', .dd] (render4 y ++ "-11-31".data) = none := by
    unfold strptimeFormat
    rw [mt_dY _ _ _ _ hY]
    rw [show matchToks [.lit '-', .dm, .lit '-', .dd] "-11-31".data {FParse.dflt with fY := y}
        = some ({FParse.dflt with fY := y, fm := 11, fd := 31}, []) from rfl]
    show mkDatetimeChecked ⟨y, 11, 31, 0, 0, 0, 0, none⟩ = none
    have hval : datetimeValid ⟨(y : Int), 11, 31, 0, 0, 0, 0, none⟩ = false := by
      unfold datetimeValid daysInMonth dimE
      simp
    unfold mkDatetimeChecked
    simp [hval]
  have hloop : strptimeLoop _ACCEPTED_INPUT_FORMAT_VALUES (render4 y ++ "-11-31".data) false
      = .error .valueError := by
    simp only [_ACCEPTED_INPUT_FORMAT_VALUES, strptimeLoop, h1, h2, h3, h4, h5, h6, h7, h8, h9, h10, h11, h12, h13, h14, h15, h16, h17, h18, h19, h20, h21]
  show transformStr (pyStrip (render4 y ++ "-11-31".data)) = .error .valueError
  rw [hstrip]
  unfold transformStr
  rw [numericShortcut_r4_2dash y _ (by decide)]
  simp only [Bool.false_eq_true, if_false]
  rw [show preferredBranch (render4 y ++ "-11-31".data) = none from rfl]
  rw [show endsWithUTCsp (render4 y ++ "-11-31".data) = false from rfl]
  simp only [Bool.false_eq_true, if_false]
  rw [hloop]

theorem transform_sec60 (y : Nat) (hY : y ≤ 9999) :
    _transform_value (.str ⟨render4 y ++ "-12-31T15:59:60".data⟩) = .error .valueError := by
  have hform : render4 y ++ "-12-31T15:59:60".data
      = dChar (y / 1000) :: [dChar (y / 100), dChar (y / 10), dChar y, '-', '1', '2', '-', '3', '1', 'T', '1', '5', ':', '5', '9', ':', '6'] ++ ['0'] := rfl
  have hstrip : pyStrip (render4 y ++ "-12-31T15:59:60".data) = render4 y ++ "-12-31T15:59:60".data := by
    conv_lhs => rw [hform]
    rw [pyStrip_id _ _ _ (isPySpace_dChar _) (by decide)]
    rw [← hform]
  have h1 : strptimeFormat [.dY, .lit '-', .dm, .lit '-', .dd, .lit 'T', .dH, .lit ':', .dM, .lit ':', .dS, .lit '.', .df, .dz] (render4 y ++ "-12-31T15:59:60".data) = none :=
    strptimeFormat_of_match _ _ _ (mt_dY [.lit '-', .dm, .lit '-', .dd, .lit 'T', .dH, .lit ':', .dM, .lit ':', .dS, .lit '.', .df, .dz] "-12-31T15:59:60".data FParse.dflt y hY) (by rfl)
  have h2 : strptimeFormat [.dY, .lit '-', .dm, .lit '-', .dd, .ws, .dH, .lit ':', .dM, .lit ':', .dS, .lit '.', .df, .dz] (render4 y ++ "-12-31T15:59:60".data) = none :=
    strptimeFormat_of_match _ _ _ (mt_dY [.lit '-', .dm, .lit '-', .dd, .ws, .dH, .lit ':', .dM, .lit ':', .dS, .lit '.', .df, .dz] "-12-31T15:59:60".data FParse.dflt y hY) (by rfl)
  have h3 : strptimeFormat [.dY, .lit '-', .dm, .lit '-', .dd, .lit 'T', .dH, .lit ':', .dM, .lit ':', .dS, .lit '.', .df, .ws, .dz] (render4 y ++ "-12-31T15:59:60".data) = none :=
    strptimeFormat_of_match _ _ _ (mt_dY [.lit '-', .dm, .lit '-', .dd, .lit 'T', .dH, .lit ':', .dM, .lit ':', .dS, .lit '.', .df, .ws, .dz] "-12-31T15:59:60".data FParse.dflt y hY) (by rfl)
  have h4 : strptimeFormat [.dY, .lit '-', .dm, .lit '-', .dd, .ws, .dH, .lit ':', .dM, .lit ':', .dS, .lit '.', .df, .ws, .dz] (render4 y ++ "-12-31T15:59:60".data) = none :=
    strptimeFormat_of_match _ _ _ (mt_dY [.lit '-', .dm, .lit '-', .dd, .ws, .dH, .lit ':', .dM, .lit ':', .dS, .lit '.', .df, .ws, .dz] "-12-31T15:59:60".data FParse.dflt y hY) (by rfl)
  have h5 : strptimeFormat [.dY, .lit '-', .dm, .lit '-', .dd, .lit 'T', .dH, .lit ':', .dM, .lit ':', .dS, .lit '.', .df] (render4 y ++ "-12-31T15:59:60".data) = none :=
    strptimeFormat_of_match _ _ _ (mt_dY [.lit '-', .dm, .lit '-', .dd, .lit 'T', .dH, .lit ':', .dM, .lit ':', .dS, .lit '.', .df] "-12-31T15:59:60".data FParse.dflt y hY) (by rfl)
  have h6 : strptimeFormat [.dY, .lit '-', .dm, .lit '-', .dd, .ws, .dH, .lit ':', .dM, .lit ':', .dS, .lit '.', .df] (render4 y ++ "-12-31T15:59:60".data) = none :=
    strptimeFormat_of_match _ _ _ (mt_dY [.lit '-', .dm, .lit '-', .dd, .ws, .dH, .lit ':', .dM, .lit ':', .dS, .lit '.', .df] "-12-31T15:59:60".data FParse.dflt y hY) (by rfl)
  have h7 : strptimeFormat [.dY, .lit '-', .dm, .lit '-', .dd, .lit 'T', .dH, .lit ':', .dM, .lit ':', .dS, .dz] (render4 y ++ "-12-31T15:59:60".data) = none :=
    strptimeFormat_of_match _ _ _ (mt_dY [.lit '-', .dm, .lit '-', .dd, .lit 'T', .dH, .lit ':', .dM, .lit ':', .dS, .dz] "-12-31T15:59:60".data FParse.dflt y hY) (by rfl)
  have h8 : strptimeFormat [.dY, .lit '-', .dm, .lit '-', .dd, .ws, .dH, .lit ':', .dM, .lit ':', .dS, .dz] (render4 y ++ "-12-31T15:59:60".data) = none :=
    strptimeFormat_of_match _ _ _ (mt_dY [.lit '-', .dm, .lit '-', .dd, .ws, .dH, .lit ':', .dM, .lit ':', .dS, .dz] "-12-31T15:59:60".data FParse.dflt y hY) (by rfl)
  have h9 : strptimeFormat [.dY, .lit '-', .dm, .lit '-', .dd, .lit 'T', .dH, .lit ':', .dM, .lit ':', .dS, .ws, .dz] (render4 y ++ "-12-31T15:59:60".data) = none :=
    strptimeFormat_of_match _ _ _ (mt_dY [.lit '-', .dm, .lit '-', .dd, .lit 'T', .dH, .lit ':', .dM, .lit ':', .dS, .ws, .dz] "-12-31T15:59:60".data FParse.dflt y hY) (by rfl)
  have h10 : strptimeFormat [.dY, .lit '-', .dm, .lit '-', .dd, .ws, .dH, .lit ':', .dM, .lit ':', .dS, .ws, .dz] (render4 y ++ "-12-31T15:59:60".data) = none :=
    strptimeFormat_of_match _ _ _ (mt_dY [.lit '-', .dm, .lit '-', .dd, .ws, .dH, .lit ':', .dM, .lit ':', .dS, .ws, .dz] "-12-31T15:59:60".data FParse.dflt y hY) (by rfl)
  have h11 : strptimeFormat [.dY, .lit '-', .dm, .lit '-', .dd, .lit 'T', .dH, .lit ':', .dM, .lit ':', .dS] (render4 y ++ "-12-31T15:59:60".data) = none := by
    unfold strptimeFormat
    rw [mt_dY _ _ _ _ hY]
    rw [show matchToks [.lit '-', .dm, .lit '-', .dd, .lit 'T', .dH, .lit ':', .dM, .lit ':', .dS] "-12-31T15:59:60".data {FParse.dflt with fY := y}
        = some ({FParse.dflt with fY := y, fm := 12, fd := 31, fH := 15, fM := 59, fS := 60}, []) from rfl]
    show mkDatetimeChecked ⟨y, 12, 31, 15, 59, 60, 0, none⟩ = none
    have hval : datetimeValid ⟨(y : Int), 12, 31, 15, 59, 60, 0, none⟩ = false := by
      unfold datetimeValid
      simp
    unfold mkDatetimeChecked
    simp [hval]
  have h12 : strptimeFormat [.dY, .lit '-', .dm, .lit '-', .dd, .ws, .dH, .lit ':', .dM, .lit ':', .dS] (render4 y ++ "-12-31T15:59:60".data) = none :=
    strptimeFormat_of_match _ _ _ (mt_dY [.lit '-', .dm, .lit '-', .dd, .ws, .dH, .lit ':', .dM, .lit ':', .dS] "-12-31T15:59:60".data FParse.dflt y hY) (by rfl)
  have h13 : strptimeFormat [.dY, .lit '-', .dm, .lit '-', .dd, .lit 'T', .dH, .lit ':', .dM, .dz] (render4 y ++ "-12-31T15:59:60".data) = none :=
    strptimeFormat_of_match _ _ _ (mt_dY [.lit '-', .dm, .lit '-', .dd, .lit 'T', .dH, .lit ':', .dM, .dz] "-12-31T15:59:60".data FParse.dflt y hY) (by rfl)
  have h14 : strptimeFormat [.dY, .lit '-', .dm, .lit '-', .dd, .ws, .dH, .lit ':', .dM, .dz] (render4 y ++ "-12-31T15:59:60".data) = none :=
    strptimeFormat_of_match _ _ _ (mt_dY [.lit '-', .dm, .lit '-', .dd, .ws, .dH, .lit ':', .dM, .dz] "-12-31T15:59:60".data FParse.dflt y hY) (by rfl)
  have h15 : strptimeFormat [.dY, .lit '-', .dm, .lit '-', .dd, .lit 'T', .dH, .lit ':', .dM, .ws, .dz] (render4 y ++ "-12-31T15:59:60".data) = none :=
    strptimeFormat_of_match _ _ _ (mt_dY [.lit '-', .dm, .lit '-', .dd, .lit 'T', .dH, .lit ':', .dM, .ws, .dz] "-12-31T15:59:60".data FParse.dflt y hY) (by rfl)
  have h16 : strptimeFormat [.dY, .lit '-', .dm, .lit '-', .dd, .ws, .dH, .lit ':', .dM, .ws, .dz] (render4 y ++ "-12-31T15:59:60".data) = none :=
    strptimeFormat_of_match _ _ _ (mt_dY [.lit '-', .dm, .lit '-', .dd, .ws, .dH, .lit ':', .dM, .ws, .dz] "-12-31T15:59:60".data FParse.dflt y hY) (by rfl)
  have h17 : strptimeFormat [.dY, .lit '-', .dm, .lit '-', .dd, .dz] (render4 y ++ "-12-31T15:59:60".data) = none :=
    strptimeFormat_of_match _ _ _ (mt_dY [.lit '-', .dm, .lit '-', .dd, .dz] "-12-31T15:59:60".data FParse.dflt y hY) (by rfl)
  have h18 : strptimeFormat [.dY, .lit '-', .dm, .lit '-', .dd, .lit 'T', .dH, .lit ':', .dM] (render4 y ++ "-12-31T15:59:60".data) = none :=
    strptimeFormat_of_match _ _ _ (mt_dY [.lit '-', .dm, .lit '-', .dd, .lit 'T', .dH, .lit ':', .dM] "-12-31T15:59:60".data FParse.dflt y hY) (by rfl)
  have h19 : strptimeFormat [.dY, .lit '-', .dm, .lit '-', .dd, .ws, .dH, .lit ':', .dM] (render4 y ++ "-12-31T15:59:60".data) = none :=
    strptimeFormat_of_match _ _ _ (mt_dY [.lit '-', .dm, .lit '-', .dd, .ws, .dH, .lit ':', .dM] "-12-31T15:59:60".data FParse.dflt y hY) (by rfl)
  have h20 : strptimeFormat [.dY, .lit '-', .dm, .lit '-', .dd, .ws, .dz] (render4 y ++ "-12-31T15:59:60".data) = none :=
    strptimeFormat_of_match _ _ _ (mt_dY [.lit '-', .dm, .lit '-', .dd, .ws, .dz] "-12-31T15:59:60".data FParse.dflt y hY) (by rfl)
  have h21 : strptimeFormat [.dY, .lit '-', .dm, .lit '-', .dd] (render4 y ++ "-12-31T15:59:60".data) = none :=
    strptimeFormat_of_match _ _ _ (mt_dY [.lit '-', .dm, .lit '-', .dd] "-12-31T15:59:60".data FParse.dflt y hY) (by rfl)
  have hloop : strptimeLoop _ACCEPTED_INPUT_FORMAT_VALUES (render4 y ++ "-12-31T15:59:60".data) false
      = .error .valueError := by
    simp only [_ACCEPTED_INPUT_FORMAT_VALUES, strptimeLoop, h1, h2, h3, h4, h5, h6, h7, h8, h9, h10, h11, h12, h13, h14, h15, h16, h17, h18, h19, h20, h21]
  show transformStr (pyStrip (render4 y ++ "-12-31T15:59:60".data)) = .error .valueError
  rw [hstrip]
  unfold transformStr
  rw [numericShortcut_contains_colon y _ (by decide)]
  simp only [Bool.false_eq_true, if_false]
  rw [show preferredBranch (render4 y ++ "-12-31T15:59:60".data) = none from rfl]
  rw [show endsWithUTCsp (render4 y ++ "-12-31T15:59:60".data) = false from rfl]
  simp only [Bool.false_eq_true, if_false]
  rw [hloop]

/-- C3: calendar validation.  For every 4-digit year, the structurally
well-formed but calendar-invalid date strings are rejected with the parse
`ValueError` (the library's `FormatError`): February 29 in a non-leap year,
February 30 and 31, day 31 in the four 30-day months, and a seconds field
of 60 (here on a full timestamp, where the lenient `%S` regex matches 60
but the `datetime` constructor refuses it); concretely `"2021-02-29"` is
rejected, `"2020-02-29"` parses, and the RFC 3339 leap-second example
`"1990-12-31T15:59:60-08:00"` is rejected by the public entry point. -/
theorem claimC3_calendar_validation :
    (∀ y : Nat, y ≤ 9999 → isLeapYear (y : Int) = false →
        _transform_value (.str ⟨render4 y ++ "-02-29".data⟩) = .error .valueError) ∧
    (∀ y : Nat, y ≤ 9999 →
        _transform_value (.str ⟨render4 y ++ "-02-30".data⟩) = .error .valueError ∧
        _transform_value (.str ⟨render4 y ++ "-02-31".data⟩) = .error .valueError) ∧
    (∀ y : Nat, y ≤ 9999 →
        _transform_value (.str ⟨render4 y ++ "-04-31".data⟩) = .error .valueError ∧
        _transform_value (.str ⟨render4 y ++ "-06-31".data⟩) = .error .valueError ∧
        _transform_value (.str ⟨render4 y ++ "-09-31".data⟩) = .error .valueError ∧
        _transform_value (.str ⟨render4 y ++ "-11-31".data⟩) = .error .valueError) ∧
    (∀ y : Nat, y ≤ 9999 →
        _transform_value (.str ⟨render4 y ++ "-12-31T15:59:60".data⟩) = .error .valueError) ∧
    _transform_value (.str "2021-02-29") = .error .valueError ∧
    _transform_value (.str "2020-02-29") = .ok "2020-02-29T00:00:00.000000Z".data ∧
    rfc3339_timestamp initialSyncSt 0 (.str "1990-12-31T15:59:60-08:00") .none
      = .error .valueError :=
  ⟨transform_feb29_nonleap,
   fun y hY => ⟨transform_feb30 y hY, transform_feb31 y hY⟩,
   fun y hY => ⟨transform_apr31 y hY, transform_jun31 y hY, transform_sep31 y hY,
     transform_nov31 y hY⟩,
   transform_sec60, by decide, by decide, by decide⟩

theorem claimC3_calendar_validation_witness :
    _transform_value (.str ⟨render4 2021 ++ "-02-29".data⟩) = .error .valueError :=
  claimC3_calendar_validation.1 2021 (by decide) (by decide)
